import Mathlib

/-!
Verification development for the offgrid weather station backend (backend_v2).

The definitions below are a shallow embedding of the C++ sources
`state_v2.cpp` and `api_v2.cpp`:

* `double` values are modelled as exact rationals (`ℚ`); all arithmetic on
  them in the embedded code is `+`, `-`, `/` by constants, `max`/`min` and
  comparisons, which the rational model reflects exactly.
* `std::time_t` and `int` become `Int`.
* `localtime_r`/`mktime` are modelled with the proleptic Gregorian civil
  calendar over a fixed (UTC-aligned) zone: `civilFromDays`/`daysFromCivil`
  compute the same civil decomposition the C library performs.
* The sqlite `daily_weather` table is modelled as a list of rows ordered by
  primary key `day_ts`; `INSERT OR REPLACE` appears as the produced row and
  the three history queries are modelled by their SELECT semantics
  (filter / ORDER BY / LIMIT / OFFSET).
-/

namespace OffGrid

/-! ## Calendar model (localtime_r / mktime under a fixed zone) -/

/-- Civil (Gregorian) date. -/
structure Civil where
  year : Int
  month : Int
  day : Int
deriving DecidableEq

/-- Days-since-epoch to civil date (Gregorian calendar algorithm used to
model `localtime_r` for the fixed zone). -/
def civilFromDays (z0 : Int) : Civil :=
  let z := z0 + 719468
  let era := Int.fdiv z 146097
  let doe := z - era * 146097
  let yoe := (doe - doe / 1460 + doe / 36524 - doe / 146096) / 365
  let y := yoe + era * 400
  let doy := doe - (365 * yoe + yoe / 4 - yoe / 100)
  let mp := (5 * doy + 2) / 153
  let d := doy - (153 * mp + 2) / 5 + 1
  let m := mp + (if mp < 10 then 3 else -9)
  { year := if m ≤ 2 then y + 1 else y, month := m, day := d }

/-- Civil date to days-since-epoch (models `mktime` at local midnight,
divided by 86400). -/
def daysFromCivil (y m d : Int) : Int :=
  let y1 := if m ≤ 2 then y - 1 else y
  let era := Int.fdiv y1 400
  let yoe := y1 - era * 400
  let doy := (153 * (m + (if 2 < m then -3 else 9)) + 2) / 5 + d - 1
  let doe := yoe * 365 + yoe / 4 - yoe / 100 + doy
  era * 146097 + doe - 719468

/-- `ymd_from_time`: local calendar day key `yyyymmdd`. -/
def ymd_from_time (t : Int) : Int :=
  let c := civilFromDays (Int.fdiv t 86400)
  c.year * 10000 + c.month * 100 + c.day

/-- `ym_from_time`: local calendar month key `yyyymm`. -/
def ym_from_time (t : Int) : Int :=
  let c := civilFromDays (Int.fdiv t 86400)
  c.year * 100 + c.month

/-- `y_from_time`: local calendar year key. -/
def y_from_time (t : Int) : Int :=
  (civilFromDays (Int.fdiv t 86400)).year

/-- `day_start_ts`: timestamp of local midnight of the day containing `t`. -/
def day_start_ts (t : Int) : Int :=
  Int.fdiv t 86400 * 86400

/-- `inches_from_mm`: millimetres to inches. -/
def inches_from_mm (mm : ℚ) : ℚ :=
  mm / 25.4

/-! ## Config constants (state_v2.cpp) -/

def HISTORICAL_TOTAL_IN : ℚ := 62.77
def HISTORICAL_YEARLY_IN : ℚ := 62.77
def HISTORICAL_MONTHLY_IN : ℚ := 4.27
def HISTORICAL_WEEKLY_IN : ℚ := 1.96

def EVENT_GAP_MIN : Int := 30
def HOURLY_WINDOW_SEC : Int := 3600
def MIN_COVERAGE_SEC : Int := 12 * 3600

/-! ## Data model -/

/-- One retained rain delta of the sliding 1-hour window. -/
structure RainDelta where
  ts : Int
  inches : ℚ
deriving DecidableEq

/-- `WeatherStateV2`: the single mutable aggregate of the core.  Field-for-field
translation of the C++ struct; default values mirror the member initializers. -/
structure WeatherStateV2 where
  battery_mV : ℚ := 0
  battery_ok : ℚ := 0
  id : Int := 0
  model : String := ""
  firmware : Int := 0
  humidity : ℚ := 0
  temperature_C : ℚ := 0
  wind_dir_deg : ℚ := 0
  wind_avg_m_s : ℚ := 0
  wind_max_m_s : ℚ := 0
  light_lux : ℚ := 0
  uvi : ℚ := 0
  rain_mm : ℚ := 0
  supercap_V : ℚ := 0
  last_time_iso : String := ""
  last_rain_mm : ℚ := 0
  last_update : Int := 0
  rain_daily_in : ℚ := 0
  rain_monthly_in : ℚ := 0
  rain_yearly_in : ℚ := 0
  rain_weekly_in : ℚ := 0
  rain_hourly_in : ℚ := 0
  rain_event_in : ℚ := 0
  daily_ymd : Int := 0
  month_ym : Int := 0
  year_y : Int := 0
  week_start_ymd : Int := 0
  historical_total_in : ℚ := HISTORICAL_TOTAL_IN
  historical_yearly_in : ℚ := HISTORICAL_YEARLY_IN
  historical_monthly_in : ℚ := HISTORICAL_MONTHLY_IN
  historical_weekly_in : ℚ := HISTORICAL_WEEKLY_IN
  historical_seeded : Bool := false
  deltas : List RainDelta := []
  last_rain_ts : Int := 0
  have_temp : Bool := false
  temp_high_c : ℚ := 0
  temp_low_c : ℚ := 0
  have_hum : Bool := false
  hum_high : ℚ := 0
  hum_low : ℚ := 0
  day_first_ts : Int := 0
  day_last_ts : Int := 0
  have_wind : Bool := false
  wind_mean_m_s : ℚ := 0
  wind_max_gust_m_s : ℚ := 0
  wind_sample_count : Nat := 0
deriving DecidableEq

/-- One row of the sqlite `daily_weather` table (all columns nullable except
the primary key `day_ts`). -/
structure DailyRow where
  day_ts : Int
  temp_high_c : Option ℚ
  temp_low_c : Option ℚ
  humidity_high : Option ℚ
  humidity_low : Option ℚ
  rain_in : Option ℚ
deriving DecidableEq

/-- An incoming WS90 JSON payload: each optional numeric field is `some v`
when the key is present with a numeric value and `none` otherwise (absent
key, or a non-numeric value, which `get_num`/`get_int` treat as absent). -/
structure Sample where
  battery_mV : Option ℚ := none
  battery_ok : Option ℚ := none
  id : Option Int := none
  model : Option String := none
  firmware : Option Int := none
  humidity : Option ℚ := none
  temperature_C : Option ℚ := none
  wind_dir_deg : Option ℚ := none
  wind_avg_m_s : Option ℚ := none
  wind_max_m_s : Option ℚ := none
  light_lux : Option ℚ := none
  uvi : Option ℚ := none
  rain_mm : Option ℚ := none
  supercap_V : Option ℚ := none
  time : Option String := none
deriving DecidableEq

/-- Outcome of one `process_ws90_json_locked` call: the updated state, the
daily-summary row written to the store on a day rollover (if any), and
whether `save_state` wrote the snapshot file. -/
structure ProcessResult where
  state : WeatherStateV2
  dbRow : Option DailyRow
  saved : Bool
deriving DecidableEq

/-! ## Daily summary store write (log_daily_to_db) -/

/-- `log_daily_to_db`: the row inserted (INSERT OR REPLACE) for the elapsed
day; temperature and humidity columns are NULL unless the corresponding
`have_*` flag is set, `rain_in` is always bound. -/
def log_daily_to_db (day_ts : Int) (st : WeatherStateV2) (rain_in : ℚ) : DailyRow where
  day_ts := day_ts
  temp_high_c := if st.have_temp then some st.temp_high_c else none
  temp_low_c := if st.have_temp then some st.temp_low_c else none
  humidity_high := if st.have_hum then some st.hum_high else none
  humidity_low := if st.have_hum then some st.hum_low else none
  rain_in := some rain_in

/-! ## Rain logic -/

/-- The compaction loop of `recompute_hourly`: walk the delta vector in order,
keep the entries still inside the hourly window and sum their inches. -/
def hourly_scan (now : Int) : List RainDelta → List RainDelta × ℚ
  | [] => ([], 0)
  | d :: rest =>
    if now - d.ts ≤ HOURLY_WINDOW_SEC then
      let p := hourly_scan now rest
      (d :: p.1, d.inches + p.2)
    else
      hourly_scan now rest

/-- `recompute_hourly`: drop deltas older than the hourly window and set
`rain_hourly_in` to the sum of the retained ones. -/
def recompute_hourly (st : WeatherStateV2) (now : Int) : WeatherStateV2 :=
  let p := hourly_scan now st.deltas
  { st with deltas := p.1, rain_hourly_in := p.2 }

/-- The `mktime` reconstruction of the local midnight of `week_start_ymd`
(decode `yyyymmdd` into a `tm` and convert), used by the week-rollover
check. -/
def week_start_ts (week_start_ymd : Int) : Int :=
  daysFromCivil (week_start_ymd / 10000) (week_start_ymd / 100 % 100)
    (week_start_ymd % 100) * 86400

/-- The key-adoption prologue of `rollover_if_needed`: calendar keys of zero
(uninitialized) adopt the current keys instead of triggering a rollover. -/
def adopt_keys (st0 : WeatherStateV2) (d m y : Int) : WeatherStateV2 :=
  { st0 with
    daily_ymd := if st0.daily_ymd = 0 then d else st0.daily_ymd
    month_ym := if st0.month_ym = 0 then m else st0.month_ym
    year_y := if st0.year_y = 0 then y else st0.year_y
    week_start_ymd := if st0.week_start_ymd = 0 then d else st0.week_start_ymd }

/-- The DAY ROLLOVER block: on a day-key change, flush the elapsed day's
summary row when the coverage gate passes, then reset the daily rain
accumulator, the extremes, the wind tracking and the coverage interval. -/
def day_rollover_step (st1 : WeatherStateV2) (now d : Int) : WeatherStateV2 × Option DailyRow :=
  if d ≠ st1.daily_ymd then
    let prev_day_ts := day_start_ts (if st1.day_first_ts ≠ 0 then st1.day_first_ts else now - 86400)
    let ok := st1.day_first_ts ≠ 0 ∧ st1.day_last_ts ≠ 0 ∧
              MIN_COVERAGE_SEC ≤ st1.day_last_ts - st1.day_first_ts
    let row := if ok then some (log_daily_to_db prev_day_ts st1 st1.rain_daily_in) else none
    ({ st1 with
        rain_daily_in := 0
        daily_ymd := d
        day_first_ts := now
        day_last_ts := now
        have_temp := false
        have_hum := false
        have_wind := false
        wind_mean_m_s := 0
        wind_max_gust_m_s := 0
        wind_sample_count := 0 }, row)
  else (st1, none)

/-- The MONTH ROLLOVER block. -/
def month_rollover_step (st2 : WeatherStateV2) (m : Int) : WeatherStateV2 :=
  if m ≠ st2.month_ym then { st2 with rain_monthly_in := 0, month_ym := m } else st2

/-- The YEAR ROLLOVER block. -/
def year_rollover_step (st3 : WeatherStateV2) (y : Int) : WeatherStateV2 :=
  if y ≠ st3.year_y then { st3 with rain_yearly_in := 0, year_y := y } else st3

/-- The WEEK ROLLOVER block: reset when ≥ 7 days elapsed since the local
midnight of `week_start_ymd`. -/
def week_rollover_step (st4 : WeatherStateV2) (now d : Int) : WeatherStateV2 :=
  if 7 * 86400 ≤ day_start_ts now - week_start_ts st4.week_start_ymd
  then { st4 with rain_weekly_in := 0, week_start_ymd := d }
  else st4

/-- `rollover_if_needed`: calendar rollover checks, run once per ingest before
accumulation.  Returns the updated state together with the daily-summary row
flushed on a day rollover that passed the coverage gate (`none` otherwise). -/
def rollover_if_needed (st0 : WeatherStateV2) (now : Int) : WeatherStateV2 × Option DailyRow :=
  let d := ymd_from_time now
  let m := ym_from_time now
  let y := y_from_time now
  let st1 := adopt_keys st0 d m y
  let dayStep := day_rollover_step st1 now d
  let st3 := month_rollover_step dayStep.1 m
  let st4 := year_rollover_step st3 y
  let st5 := week_rollover_step st4 now d
  (st5, dayStep.2)

/-! ## Ingest (process_ws90_json_locked) -/

/-- The instantaneous-telemetry assignments at the top of
`process_ws90_json_locked`: every field is overwritten from the payload,
with `get_num`/`get_int`/`get_str` defaulting to `0`/`0`/empty string. -/
def telemetry_update (st : WeatherStateV2) (s : Sample) : WeatherStateV2 :=
  { st with
    battery_mV := s.battery_mV.getD 0
    battery_ok := s.battery_ok.getD 0
    id := s.id.getD 0
    model := s.model.getD ""
    firmware := s.firmware.getD 0
    humidity := s.humidity.getD 0
    temperature_C := s.temperature_C.getD 0
    wind_dir_deg := s.wind_dir_deg.getD 0
    wind_avg_m_s := s.wind_avg_m_s.getD 0
    wind_max_m_s := s.wind_max_m_s.getD 0
    light_lux := s.light_lux.getD 0
    uvi := s.uvi.getD 0
    rain_mm := s.rain_mm.getD 0
    supercap_V := s.supercap_V.getD 0
    last_time_iso := s.time.getD "" }

/-- High/low temperature tracking: `get_num("temperature_C", NAN)` is NaN
exactly when the field is absent (or non-numeric), in which case tracking is
skipped. -/
def temp_track (st : WeatherStateV2) (s : Sample) : WeatherStateV2 :=
  match s.temperature_C with
  | none => st
  | some tC =>
    if st.have_temp then
      { st with temp_high_c := max st.temp_high_c tC, temp_low_c := min st.temp_low_c tC }
    else
      { st with temp_high_c := tC, temp_low_c := tC, have_temp := true }

/-- High/low humidity tracking, same shape as `temp_track`. -/
def hum_track (st : WeatherStateV2) (s : Sample) : WeatherStateV2 :=
  match s.humidity with
  | none => st
  | some h =>
    if st.have_hum then
      { st with hum_high := max st.hum_high h, hum_low := min st.hum_low h }
    else
      { st with hum_high := h, hum_low := h, have_hum := true }

/-- Daily wind tracking (running mean of `wind_avg_m_s`, running max of
`wind_max_m_s`).  The C++ guard `!isnan(...)` is on the state fields, which
`get_num` has just set to a real number (default 0), so it always passes in
the rational model. -/
def wind_track (st : WeatherStateV2) : WeatherStateV2 :=
  if st.have_wind then
    let n : ℚ := st.wind_sample_count
    { st with
      wind_mean_m_s := (st.wind_mean_m_s * n + st.wind_avg_m_s) / (n + 1)
      wind_sample_count := st.wind_sample_count + 1
      wind_max_gust_m_s :=
        if st.wind_max_gust_m_s < st.wind_max_m_s then st.wind_max_m_s
        else st.wind_max_gust_m_s }
  else
    { st with
      have_wind := true
      wind_mean_m_s := st.wind_avg_m_s
      wind_max_gust_m_s := st.wind_max_m_s
      wind_sample_count := 1 }

/-- The coverage-tracking lines of `process_ws90_json_locked`: record the
first and last valid WS90 sample of the current day. -/
def coverage_update (st : WeatherStateV2) (now : Int) : WeatherStateV2 :=
  { st with
    day_first_ts := if st.day_first_ts = 0 then now else st.day_first_ts
    day_last_ts := now }

/-- The rain-accumulation block of `process_ws90_json_locked`: delta
acceptance, the five horizon accumulators, the sliding hourly window and the
event accounting. -/
def rain_accumulate (st : WeatherStateV2) (rain_mm : ℚ) (now : Int) : WeatherStateV2 :=
  let delta := rain_mm - st.last_rain_mm
  if 0.0001 < delta ∧ delta < 5000 then
    let di := inches_from_mm delta
    let stA := { st with
      rain_daily_in := st.rain_daily_in + di
      rain_monthly_in := st.rain_monthly_in + di
      rain_yearly_in := st.rain_yearly_in + di
      rain_weekly_in := st.rain_weekly_in + di
      deltas := st.deltas ++ [⟨now, di⟩] }
    let stH := recompute_hourly stA now
    let stE :=
      if stH.last_rain_ts = 0 ∨ EVENT_GAP_MIN * 60 < now - stH.last_rain_ts then
        { stH with rain_event_in := 0 }
      else stH
    { stE with rain_event_in := stE.rain_event_in + di, last_rain_ts := now }
  else st

/-- The trailing `last_rain_mm`/`last_update` persistence lines of
`process_ws90_json_locked`. -/
def finalize_reading (st : WeatherStateV2) (rain_mm : ℚ) (now : Int) : WeatherStateV2 :=
  { st with last_rain_mm := rain_mm, last_update := now }

/-- `process_ws90_json_locked`: one ingest of a WS90 payload at time `now`.
Mirrors the control flow of the C++ function: telemetry update; early return
when `rain_mm` is absent or outside `[0, 20000]`; rollover; coverage
tracking; seed return on `last_rain_mm == 0`; delta acceptance with the
sliding hourly window and event accounting; extremes tracking; snapshot
save. -/
def process_ws90_json_locked (st0 : WeatherStateV2) (s : Sample) (now : Int) : ProcessResult :=
  let stT := telemetry_update st0 s
  match s.rain_mm with
  | none => ⟨{ stT with last_update := now }, none, false⟩
  | some rain_mm =>
    if rain_mm < 0 ∨ 20000 < rain_mm then
      ⟨{ stT with last_update := now }, none, false⟩
    else
      let ro := rollover_if_needed stT now
      -- track coverage of valid WS90 samples for the current day
      let stC := coverage_update ro.1 now
      if stC.last_rain_mm = (0 : ℚ) then
        -- first valid rain sample since boot / state reset
        ⟨{ stC with last_rain_mm := rain_mm, last_update := now }, ro.2, true⟩
      else
        let stU := finalize_reading (rain_accumulate stC rain_mm now) rain_mm now
        let stX := wind_track (hum_track (temp_track stU s) s)
        ⟨stX, ro.2, true⟩

/-! ## State snapshot persistence (save_state / load_state) -/

/-- The JSON snapshot file written by `save_state`: exactly the fields that
function serializes (note: neither `deltas` nor `last_rain_ts` nor any
instantaneous telemetry field is among them). -/
structure Snapshot where
  last_rain_mm : ℚ
  last_update_ts : Int
  rain_daily_in : ℚ
  rain_monthly_in : ℚ
  rain_yearly_in : ℚ
  rain_weekly_in : ℚ
  rain_hourly_in : ℚ
  rain_event_in : ℚ
  daily_ymd : Int
  month_ym : Int
  year_y : Int
  week_start_ymd : Int
  historical_total_in : ℚ
  historical_yearly_in : ℚ
  historical_monthly_in : ℚ
  historical_weekly_in : ℚ
  historical_seeded : Bool
  temp_high_c : ℚ
  temp_low_c : ℚ
  have_temp : Bool
  hum_high : ℚ
  hum_low : ℚ
  have_hum : Bool
  have_wind : Bool
  wind_mean_m_s : ℚ
  wind_max_gust_m_s : ℚ
  wind_sample_count : Nat
  day_first_ts : Int
  day_last_ts : Int
deriving DecidableEq

/-- `save_state`: serialize the state to the snapshot file. -/
def save_state (st : WeatherStateV2) : Snapshot where
  last_rain_mm := st.last_rain_mm
  last_update_ts := st.last_update
  rain_daily_in := st.rain_daily_in
  rain_monthly_in := st.rain_monthly_in
  rain_yearly_in := st.rain_yearly_in
  rain_weekly_in := st.rain_weekly_in
  rain_hourly_in := st.rain_hourly_in
  rain_event_in := st.rain_event_in
  daily_ymd := st.daily_ymd
  month_ym := st.month_ym
  year_y := st.year_y
  week_start_ymd := st.week_start_ymd
  historical_total_in := st.historical_total_in
  historical_yearly_in := st.historical_yearly_in
  historical_monthly_in := st.historical_monthly_in
  historical_weekly_in := st.historical_weekly_in
  historical_seeded := st.historical_seeded
  temp_high_c := st.temp_high_c
  temp_low_c := st.temp_low_c
  have_temp := st.have_temp
  hum_high := st.hum_high
  hum_low := st.hum_low
  have_hum := st.have_hum
  have_wind := st.have_wind
  wind_mean_m_s := st.wind_mean_m_s
  wind_max_gust_m_s := st.wind_max_gust_m_s
  wind_sample_count := st.wind_sample_count
  day_first_ts := st.day_first_ts
  day_last_ts := st.day_last_ts

/-- `init_state_defaults`: freshly-initialized state at time `now` — default
members, today's calendar keys, `historical_seeded = true`. -/
def init_state_defaults (now : Int) : WeatherStateV2 :=
  { last_update := now
    daily_ymd := ymd_from_time now
    month_ym := ym_from_time now
    year_y := y_from_time now
    week_start_ymd := ymd_from_time now
    historical_seeded := true }

/-- `load_state`: read the snapshot file back at startup.  `none` models an
absent or unparseable file (falls back to `init_state_defaults`); a parsed
file overwrites the serialized fields on top of the defaults. -/
def load_state (file : Option Snapshot) (now : Int) : WeatherStateV2 :=
  match file with
  | none => init_state_defaults now
  | some j =>
    { init_state_defaults now with
      last_rain_mm := j.last_rain_mm
      last_update := j.last_update_ts
      rain_daily_in := j.rain_daily_in
      rain_monthly_in := j.rain_monthly_in
      rain_yearly_in := j.rain_yearly_in
      rain_weekly_in := j.rain_weekly_in
      rain_hourly_in := j.rain_hourly_in
      rain_event_in := j.rain_event_in
      daily_ymd := j.daily_ymd
      month_ym := j.month_ym
      year_y := j.year_y
      week_start_ymd := j.week_start_ymd
      historical_total_in := j.historical_total_in
      historical_yearly_in := j.historical_yearly_in
      historical_monthly_in := j.historical_monthly_in
      historical_weekly_in := j.historical_weekly_in
      historical_seeded := j.historical_seeded
      temp_high_c := j.temp_high_c
      temp_low_c := j.temp_low_c
      have_temp := j.have_temp
      hum_high := j.hum_high
      hum_low := j.hum_low
      have_hum := j.have_hum
      have_wind := j.have_wind
      wind_mean_m_s := j.wind_mean_m_s
      wind_max_gust_m_s := j.wind_max_gust_m_s
      wind_sample_count := j.wind_sample_count
      day_first_ts := j.day_first_ts
      day_last_ts := j.day_last_ts }

/-! ## Current snapshot output (build_current_json, rain part) -/

/-- The computed lifetime rain total of `build_current_json`:
`total_in = historical_total_in`, plus the excess of the current yearly total
over the historical yearly baseline when positive. -/
def current_total_in (st : WeatherStateV2) : ℚ :=
  if st.historical_yearly_in < st.rain_yearly_in then
    st.historical_total_in + (st.rain_yearly_in - st.historical_yearly_in)
  else
    st.historical_total_in

/-! ## History query engine (state_v2.cpp history_* + api_v2.cpp route)

A raw query parameter is modelled as `Option (Option Int)`:
`none` = not present (or present with an empty value, which the route's
presence test `val && *val` also treats as absent); `some none` = present but
not parseable as an integer; `some (some v)` = parses to `v`. -/

/-- `get_query_int_ci`: parse an integer query parameter; missing or
unparseable values give the default, parsed values are clamped to
`[min_value, max_value]`. -/
def get_query_int_ci (raw : Option (Option Int)) (default_value min_value max_value : Int) : Int :=
  match raw with
  | none => default_value
  | some none => default_value
  | some (some v) =>
    if v < min_value then min_value
    else if max_value < v then max_value
    else v

/-- The query-parameter resolution of `api_v2::route`: sentinels `-1` encode
"not present", and which parameters get parsed depends only on which are
present. -/
def route_resolve (days_raw limit_raw offset_raw : Option (Option Int)) : Int × Int × Int :=
  if days_raw.isNone ∧ limit_raw.isNone ∧ offset_raw.isNone then
    (-1, -1, -1)
  else if days_raw.isSome ∧ limit_raw.isNone ∧ offset_raw.isNone then
    (get_query_int_ci days_raw 0 0 3650, -1, -1)
  else
    (get_query_int_ci days_raw 0 0 3650,
     get_query_int_ci limit_raw 100 1 365,
     get_query_int_ci offset_raw 0 0 1000000)

/-- The SELECT shared verbatim by `history_temperature_json`,
`history_humidity_json` and `history_rain_json`: mode detection from the
`-1` sentinels, the `day_ts >= now - days*86400` time filter, and
`LIMIT ?/OFFSET ?` semantics over the `daily_weather` table (a list ordered
by its primary key).  Sqlite treats a negative LIMIT as "no limit" and a
negative OFFSET as 0; the route never produces those in paged mode. -/
def history_select (days limit offset : Int) (now : Int) (rows : List DailyRow) : List DailyRow :=
  let since := now - days * 86400
  if days < 0 ∧ limit < 0 ∧ offset < 0 then
    rows
  else if 0 ≤ days ∧ limit < 0 ∧ offset < 0 then
    if days = 0 then rows
    else rows.filter (fun r => since ≤ r.day_ts)
  else
    let base := if 0 < days then rows.filter (fun r => since ≤ r.day_ts) else rows
    let afterOffset := base.drop offset.toNat
    if limit < 0 then afterOffset else afterOffset.take limit.toNat

/-- Output row of `history_temperature_json`. -/
structure TempRow where
  day : Int
  temp_high_F : Option ℚ
  temp_low_F : Option ℚ
deriving DecidableEq

/-- Output row of `history_humidity_json`. -/
structure HumRow where
  day : Int
  humidity_high : Option ℚ
  humidity_low : Option ℚ
deriving DecidableEq

/-- Output row of `history_rain_json`. -/
structure RainRow where
  day : Int
  rain_in : ℚ
deriving DecidableEq

/-- Celsius to Fahrenheit, as in the history/current JSON builders. -/
def c_to_f (c : ℚ) : ℚ := c * 9 / 5 + 32

/-- `history_temperature_json`: one output row per selected table row; when
either extreme is NULL both output fields are explicit nulls. -/
def history_temperature_json (days limit offset : Int) (now : Int) (rows : List DailyRow) :
    List TempRow :=
  (history_select days limit offset now rows).map fun r =>
    match r.temp_high_c, r.temp_low_c with
    | some hi, some lo => ⟨r.day_ts, some (c_to_f hi), some (c_to_f lo)⟩
    | _, _ => ⟨r.day_ts, none, none⟩

/-- `history_humidity_json`: same shape as temperature. -/
def history_humidity_json (days limit offset : Int) (now : Int) (rows : List DailyRow) :
    List HumRow :=
  (history_select days limit offset now rows).map fun r =>
    match r.humidity_high, r.humidity_low with
    | some hi, some lo => ⟨r.day_ts, some hi, some lo⟩
    | _, _ => ⟨r.day_ts, none, none⟩

/-- `history_rain_json`: selected rows whose `rain_in` is NULL are skipped
(`continue`), all others produce a row. -/
def history_rain_json (days limit offset : Int) (now : Int) (rows : List DailyRow) :
    List RainRow :=
  (history_select days limit offset now rows).filterMap fun r =>
    match r.rain_in with
    | none => none
    | some v => some ⟨r.day_ts, v⟩

/-- HTTP method as seen by `api_v2::route`. -/
inductive HttpMethod
  | GET
  | OPTIONS
  | other
deriving DecidableEq

/-- The URLs `api_v2::route` dispatches on. -/
inductive RouteUrl
  | weather
  | historyTemperature
  | historyHumidity
  | historyRain
  | unknown
deriving DecidableEq

/-- The HTTP status code produced by `api_v2::route`: the four known GET
endpoints always answer 200 via `reply_json`, whatever the query parameters
hold; parameters influence only the body. -/
def route_status (method : HttpMethod) (url : RouteUrl)
    (days_raw limit_raw offset_raw : Option (Option Int)) : Nat :=
  match method with
  | .OPTIONS => 204
  | .other => 405
  | .GET =>
    let _params := route_resolve days_raw limit_raw offset_raw
    match url with
    | .unknown => 404
    | _ => 200

/-! ## Helper lemmas -/

/-- Whatever the mode, the selected rows are a sublist of the table. -/
theorem history_select_sublist (days limit offset now : Int) (rows : List DailyRow) :
    (history_select days limit offset now rows).Sublist rows := by
  unfold history_select
  split_ifs <;>
    first
      | exact List.Sublist.refl _
      | exact List.filter_sublist _
      | exact ((List.take_sublist _ _).trans (List.drop_sublist _ _)).trans
          (List.filter_sublist _)
      | exact (List.take_sublist _ _).trans (List.drop_sublist _ _)
      | exact (List.drop_sublist _ _).trans (List.filter_sublist _)
      | exact List.drop_sublist _ _

/-- In a list strictly sorted by `day_ts`, the key determines the row. -/
theorem pairwise_day_ts_inj {rows : List DailyRow}
    (h : List.Pairwise (fun a b => a.day_ts < b.day_ts) rows)
    {a b : DailyRow} (ha : a ∈ rows) (hb : b ∈ rows) (hab : a.day_ts = b.day_ts) :
    a = b := by
  induction rows with
  | nil => cases ha
  | cons x xs ih =>
    rw [List.pairwise_cons] at h
    rcases List.mem_cons.mp ha with rfl | ha' <;> rcases List.mem_cons.mp hb with rfl | hb'
    · rfl
    · exact absurd hab (ne_of_lt (h.1 _ hb'))
    · exact absurd hab.symm (ne_of_lt (h.1 _ ha'))
    · exact ih h.2 ha' hb'

/-! ## Claims -/

/-- Claim C8: the lifetime rain total reported in the current snapshot always
equals `historical_total_in + max 0 (rain_yearly_in - historical_yearly_in)`,
and it equals `historical_total_in` exactly when the current yearly total
does not exceed the historical yearly baseline. -/
theorem claim_C8 (st : WeatherStateV2) :
    current_total_in st =
      st.historical_total_in + max 0 (st.rain_yearly_in - st.historical_yearly_in) ∧
    (current_total_in st = st.historical_total_in ↔
      st.rain_yearly_in ≤ st.historical_yearly_in) := by
  unfold current_total_in
  rcases lt_or_le st.historical_yearly_in st.rain_yearly_in with h | h
  · rw [if_pos h, max_eq_right (by linarith)]
    exact ⟨rfl, by constructor <;> intro h2 <;> [linarith; linarith]⟩
  · rw [if_neg (not_lt.mpr h), max_eq_left (by linarith)]
    exact ⟨by ring, by simp [h]⟩

/-- Claim C9: for every history request and mode, parsed query parameters are
clamped to `days ∈ [0,3650]` (default 0), `limit ∈ [1,365]` (default 100),
`offset ∈ [0,1000000]` (default 0); an unparseable or out-of-range value is
silently clamped or defaulted, and the route answers a history endpoint with
status 200 whatever the parameters are. -/
theorem claim_C9 (draw lraw oraw : Option (Option Int)) (u : RouteUrl)
    (hu : u = RouteUrl.historyTemperature ∨ u = RouteUrl.historyHumidity ∨
          u = RouteUrl.historyRain) :
    ((draw.isSome ∨ lraw.isSome ∨ oraw.isSome) →
      0 ≤ (route_resolve draw lraw oraw).1 ∧ (route_resolve draw lraw oraw).1 ≤ 3650 ∧
      (draw = none ∨ draw = some none → (route_resolve draw lraw oraw).1 = 0) ∧
      (∀ v, draw = some (some v) →
        (route_resolve draw lraw oraw).1 = max 0 (min 3650 v))) ∧
    ((lraw.isSome ∨ oraw.isSome) →
      (1 ≤ (route_resolve draw lraw oraw).2.1 ∧ (route_resolve draw lraw oraw).2.1 ≤ 365 ∧
        (lraw = none ∨ lraw = some none → (route_resolve draw lraw oraw).2.1 = 100) ∧
        (∀ v, lraw = some (some v) →
          (route_resolve draw lraw oraw).2.1 = max 1 (min 365 v))) ∧
      (0 ≤ (route_resolve draw lraw oraw).2.2 ∧
        (route_resolve draw lraw oraw).2.2 ≤ 1000000 ∧
        (oraw = none ∨ oraw = some none → (route_resolve draw lraw oraw).2.2 = 0) ∧
        (∀ v, oraw = some (some v) →
          (route_resolve draw lraw oraw).2.2 = max 0 (min 1000000 v)))) ∧
    route_status HttpMethod.GET u draw lraw oraw = 200 := by
  refine ⟨?_, ?_, ?_⟩
  · intro hpres
    have hd : (route_resolve draw lraw oraw).1 = get_query_int_ci draw 0 0 3650 := by
      unfold route_resolve
      split_ifs with h1 h2
      · rcases hpres with h | h | h <;>
          simp [Option.isNone_iff_eq_none.mp h1.1, Option.isNone_iff_eq_none.mp h1.2.1,
            Option.isNone_iff_eq_none.mp h1.2.2] at h
      · rfl
      · rfl
    rw [hd]
    rcases draw with _ | ⟨_ | v⟩ <;> simp [get_query_int_ci] <;> omega
  · intro hpres
    have hm : route_resolve draw lraw oraw =
        (get_query_int_ci draw 0 0 3650, get_query_int_ci lraw 100 1 365,
         get_query_int_ci oraw 0 0 1000000) := by
      unfold route_resolve
      split_ifs with h1 h2
      · rcases hpres with h | h <;>
          simp [Option.isNone_iff_eq_none.mp h1.2.1,
            Option.isNone_iff_eq_none.mp h1.2.2] at h
      · rcases hpres with h | h <;>
          simp [Option.isNone_iff_eq_none.mp h2.2.1,
            Option.isNone_iff_eq_none.mp h2.2.2] at h
      · rfl
    rw [hm]
    constructor
    · rcases lraw with _ | ⟨_ | w⟩ <;> simp [get_query_int_ci] <;> omega
    · rcases oraw with _ | ⟨_ | x⟩ <;> simp [get_query_int_ci] <;> omega
  · rcases hu with rfl | rfl | rfl <;> rfl

/-- Witness for C9 at concrete inputs: `days=9999` (out of range, clamped to
3650), `limit` unparseable (defaulted to 100), `offset` absent (defaulted to
0), on the rain history endpoint. -/
theorem claim_C9_witness :
    (route_resolve (some (some 9999)) (some none) none).1 = 3650 ∧
    (route_resolve (some (some 9999)) (some none) none).2.1 = 100 ∧
    (route_resolve (some (some 9999)) (some none) none).2.2 = 0 ∧
    route_status HttpMethod.GET RouteUrl.historyRain (some (some 9999)) (some none) none = 200 := by
  have h := claim_C9 (some (some 9999)) (some none) none RouteUrl.historyRain
    (Or.inr (Or.inr rfl))
  refine ⟨?_, ?_, ?_, h.2.2⟩
  · rw [(h.1 (Or.inl rfl)).2.2.2 9999 rfl]; rfl
  · exact ((h.2.1 (Or.inl rfl)).1.2.2.1 (Or.inr rfl))
  · exact ((h.2.1 (Or.inl rfl)).2.2.2.1 (Or.inl rfl))

/-- Claim C4: the query mode is determined solely by which of `days`,
`limit`, `offset` are present.  With only `days` present the rows are
filtered by `day ≥ now - days*86400` (except `days = 0`, which, like the
no-parameter mode, applies no filter), ascending, with no cap; whenever
`limit` or `offset` is present the query is paged: the time filter applies
only if `days > 0` and LIMIT/OFFSET are always applied.  Ascending key order
is preserved in every mode. -/
theorem claim_C4 (draw lraw oraw : Option (Option Int)) (now : Int) (rows : List DailyRow) :
    (draw.isSome → lraw = none → oraw = none →
      history_select (route_resolve draw lraw oraw).1 (route_resolve draw lraw oraw).2.1
          (route_resolve draw lraw oraw).2.2 now rows =
        (if 0 < (route_resolve draw lraw oraw).1 then
          rows.filter (fun r => now - (route_resolve draw lraw oraw).1 * 86400 ≤ r.day_ts)
        else rows)) ∧
    ((lraw.isSome ∨ oraw.isSome) →
      history_select (route_resolve draw lraw oraw).1 (route_resolve draw lraw oraw).2.1
          (route_resolve draw lraw oraw).2.2 now rows =
        ((if 0 < (route_resolve draw lraw oraw).1 then
            rows.filter (fun r => now - (route_resolve draw lraw oraw).1 * 86400 ≤ r.day_ts)
          else rows).drop (route_resolve draw lraw oraw).2.2.toNat).take
            (route_resolve draw lraw oraw).2.1.toNat) ∧
    (List.Pairwise (fun a b => a.day_ts < b.day_ts) rows →
      List.Pairwise (fun a b => a.day_ts < b.day_ts)
        (history_select (route_resolve draw lraw oraw).1 (route_resolve draw lraw oraw).2.1
          (route_resolve draw lraw oraw).2.2 now rows)) := by
  refine ⟨?_, ?_, fun hs => hs.sublist (history_select_sublist _ _ _ _ _)⟩
  · intro hd hl ho
    rcases Option.isSome_iff_exists.mp hd with ⟨x, rfl⟩
    subst hl ho
    have hmode : route_resolve (some x) none none = (get_query_int_ci (some x) 0 0 3650, -1, -1) := by
      unfold route_resolve; simp
    rw [hmode]
    dsimp only
    have hrange : 0 ≤ get_query_int_ci (some x) 0 0 3650 := by
      rcases x with _ | v <;> simp [get_query_int_ci] <;> omega
    unfold history_select
    rcases eq_or_lt_of_le hrange with hz | hp
    · rw [if_neg (by omega), if_pos (by omega), if_pos hz.symm, if_neg (by omega)]
    · rw [if_neg (by omega), if_pos (by omega), if_neg (by omega), if_pos hp]
  · intro hpres
    have hm : route_resolve draw lraw oraw =
        (get_query_int_ci draw 0 0 3650, get_query_int_ci lraw 100 1 365,
         get_query_int_ci oraw 0 0 1000000) := by
      unfold route_resolve
      split_ifs with h1 h2
      · rcases hpres with h | h <;>
          simp [Option.isNone_iff_eq_none.mp h1.2.1,
            Option.isNone_iff_eq_none.mp h1.2.2] at h
      · rcases hpres with h | h <;>
          simp [Option.isNone_iff_eq_none.mp h2.2.1,
            Option.isNone_iff_eq_none.mp h2.2.2] at h
      · rfl
    rw [hm]
    dsimp only
    have hlim : 1 ≤ get_query_int_ci lraw 100 1 365 := by
      rcases lraw with _ | ⟨_ | w⟩ <;> simp [get_query_int_ci] <;> omega
    have hoff : 0 ≤ get_query_int_ci oraw 0 0 1000000 := by
      rcases oraw with _ | ⟨_ | x⟩ <;> simp [get_query_int_ci] <;> omega
    have hdays : 0 ≤ get_query_int_ci draw 0 0 3650 := by
      rcases draw with _ | ⟨_ | v⟩ <;> simp [get_query_int_ci] <;> omega
    unfold history_select
    rw [if_neg (by omega), if_neg (by omega), if_neg (by omega)]

/-- Witness for C4: with `days=7, limit=1, offset=0` and a store holding
rows at `now - 1` day and `now - 10` days (now = 20 days), exactly the row
within 7 days is returned; with only `days=7`, the same single row with no
cap; order is preserved. -/
theorem claim_C4_witness :
    history_select (route_resolve (some (some 7)) (some (some 1)) (some (some 0))).1
        (route_resolve (some (some 7)) (some (some 1)) (some (some 0))).2.1
        (route_resolve (some (some 7)) (some (some 1)) (some (some 0))).2.2
        (20 * 86400)
        [⟨10 * 86400, none, none, none, none, some 1⟩,
         ⟨19 * 86400, none, none, none, none, some 2⟩] =
      [⟨19 * 86400, none, none, none, none, some 2⟩] := by
  rw [(claim_C4 (some (some 7)) (some (some 1)) (some (some 0)) (20 * 86400)
    [⟨10 * 86400, none, none, none, none, some 1⟩,
     ⟨19 * 86400, none, none, none, none, some 2⟩]).2.1 (Or.inl rfl)]
  norm_num [route_resolve, get_query_int_ci, List.filter]

/-- Claim C5: for every stored day, a rain history query omits the day
entirely when its rain value is NULL, while temperature and humidity history
queries still return a row for that day, with explicit nulls for the high
and low fields when the corresponding extremes are NULL. -/
theorem claim_C5 (days limit offset now : Int) (rows : List DailyRow)
    (hsorted : List.Pairwise (fun a b => a.day_ts < b.day_ts) rows) :
    ∀ r ∈ history_select days limit offset now rows,
      (r.rain_in = none →
        ∀ out ∈ history_rain_json days limit offset now rows, out.day ≠ r.day_ts) ∧
      (∀ v, r.rain_in = some v →
        (⟨r.day_ts, v⟩ : RainRow) ∈ history_rain_json days limit offset now rows) ∧
      (∃ out ∈ history_temperature_json days limit offset now rows,
        out.day = r.day_ts ∧
        ((r.temp_high_c = none ∨ r.temp_low_c = none) →
          out.temp_high_F = none ∧ out.temp_low_F = none)) ∧
      (∃ out ∈ history_humidity_json days limit offset now rows,
        out.day = r.day_ts ∧
        ((r.humidity_high = none ∨ r.humidity_low = none) →
          out.humidity_high = none ∧ out.humidity_low = none)) := by
  intro r hr
  have hsel : List.Pairwise (fun a b => a.day_ts < b.day_ts)
      (history_select days limit offset now rows) :=
    hsorted.sublist (history_select_sublist _ _ _ _ _)
  refine ⟨?_, ?_, ?_, ?_⟩
  · intro hnull out hout hday
    unfold history_rain_json at hout
    rcases List.mem_filterMap.mp hout with ⟨r2, hr2, hf⟩
    rcases h2 : r2.rain_in with _ | v
    · rw [h2] at hf; cases hf
    · rw [h2] at hf
      have hout_day : out.day = r2.day_ts := by cases hf; rfl
      have : r2 = r := pairwise_day_ts_inj hsel hr2 hr (by rw [← hout_day, hday])
      rw [this] at h2
      rw [h2] at hnull
      cases hnull
  · intro v hv
    unfold history_rain_json
    exact List.mem_filterMap.mpr ⟨r, hr, by rw [hv]⟩
  · unfold history_temperature_json
    rcases h1 : r.temp_high_c with _ | hi
    · exact ⟨⟨r.day_ts, none, none⟩, List.mem_map.mpr ⟨r, hr, by rw [h1]⟩,
        rfl, fun _ => ⟨rfl, rfl⟩⟩
    · rcases h2 : r.temp_low_c with _ | lo
      · exact ⟨⟨r.day_ts, none, none⟩, List.mem_map.mpr ⟨r, hr, by rw [h1, h2]⟩,
          rfl, fun _ => ⟨rfl, rfl⟩⟩
      · refine ⟨⟨r.day_ts, some (c_to_f hi), some (c_to_f lo)⟩,
          List.mem_map.mpr ⟨r, hr, by rw [h1, h2]⟩, rfl, fun habs => ?_⟩
        rcases habs with h | h
        · simp_all
        · simp_all
  · unfold history_humidity_json
    rcases h1 : r.humidity_high with _ | hi
    · exact ⟨⟨r.day_ts, none, none⟩, List.mem_map.mpr ⟨r, hr, by rw [h1]⟩,
        rfl, fun _ => ⟨rfl, rfl⟩⟩
    · rcases h2 : r.humidity_low with _ | lo
      · exact ⟨⟨r.day_ts, none, none⟩, List.mem_map.mpr ⟨r, hr, by rw [h1, h2]⟩,
          rfl, fun _ => ⟨rfl, rfl⟩⟩
      · refine ⟨⟨r.day_ts, some hi, some lo⟩,
          List.mem_map.mpr ⟨r, hr, by rw [h1, h2]⟩, rfl, fun habs => ?_⟩
        rcases habs with h | h
        · simp_all
        · simp_all

/-- Witness for C5: a store with a NULL-rain day 100 (temperature-only) and
a full day 200; the rain history omits day 100, the temperature history
reports day 100 with explicit nulls absent... -/
theorem claim_C5_witness :
    (∀ out ∈ history_rain_json (-1) (-1) (-1) 0
        [⟨100, some 20, some 5, none, none, none⟩,
         ⟨200, none, none, some 80, some 40, some 1⟩], out.day ≠ 100) ∧
    (⟨200, 1⟩ : RainRow) ∈ history_rain_json (-1) (-1) (-1) 0
        [⟨100, some 20, some 5, none, none, none⟩,
         ⟨200, none, none, some 80, some 40, some 1⟩] ∧
    (∃ out ∈ history_humidity_json (-1) (-1) (-1) 0
        [⟨100, some 20, some 5, none, none, none⟩,
         ⟨200, none, none, some 80, some 40, some 1⟩],
      out.day = 100 ∧ out.humidity_high = none ∧ out.humidity_low = none) := by
  have h := claim_C5 (-1) (-1) (-1) 0
    [⟨100, some 20, some 5, none, none, none⟩,
     ⟨200, none, none, some 80, some 40, some 1⟩]
    (by simp) ⟨100, some 20, some 5, none, none, none⟩ (by simp [history_select])
  have h2 := claim_C5 (-1) (-1) (-1) 0
    [⟨100, some 20, some 5, none, none, none⟩,
     ⟨200, none, none, some 80, some 40, some 1⟩]
    (by simp) ⟨200, none, none, some 80, some 40, some 1⟩ (by simp [history_select])
  refine ⟨h.1 rfl, h2.2.1 1 rfl, ?_⟩
  rcases h.2.2.2 with ⟨out, hmem, hday, hnull⟩
  exact ⟨out, hmem, hday, (hnull (Or.inl rfl)).1, (hnull (Or.inl rfl)).2⟩

/-- Midnight of the day containing `t` lies in the same calendar day as `t`. -/
theorem ymd_from_time_day_start (t : Int) :
    ymd_from_time (day_start_ts t) = ymd_from_time t := by
  unfold ymd_from_time day_start_ts
  rw [Int.mul_fdiv_cancel _ (by norm_num)]

/-- With all calendar keys initialized, the adoption prologue is inert. -/
theorem adopt_keys_eq (st0 : WeatherStateV2) (d m y : Int)
    (hd : st0.daily_ymd ≠ 0) (hm : st0.month_ym ≠ 0) (hy : st0.year_y ≠ 0)
    (hw : st0.week_start_ymd ≠ 0) :
    adopt_keys st0 d m y = st0 := by
  unfold adopt_keys
  rw [if_neg hd, if_neg hm, if_neg hy, if_neg hw]

/-- Explicit description of a firing day rollover. -/
theorem day_rollover_fires (st1 : WeatherStateV2) (now d : Int) (h : d ≠ st1.daily_ymd) :
    day_rollover_step st1 now d =
      ({ st1 with
          rain_daily_in := 0
          daily_ymd := d
          day_first_ts := now
          day_last_ts := now
          have_temp := false
          have_hum := false
          have_wind := false
          wind_mean_m_s := 0
          wind_max_gust_m_s := 0
          wind_sample_count := 0 },
       if st1.day_first_ts ≠ 0 ∧ st1.day_last_ts ≠ 0 ∧
           MIN_COVERAGE_SEC ≤ st1.day_last_ts - st1.day_first_ts
       then some (log_daily_to_db
         (day_start_ts (if st1.day_first_ts ≠ 0 then st1.day_first_ts else now - 86400))
         st1 st1.rain_daily_in)
       else none) := by
  unfold day_rollover_step
  rw [if_pos h]

/-- A day rollover with an unchanged day key does nothing. -/
theorem day_rollover_noop (st1 : WeatherStateV2) (now d : Int) (h : d = st1.daily_ymd) :
    day_rollover_step st1 now d = (st1, none) := by
  unfold day_rollover_step
  rw [if_neg (by simpa using h)]

/-- The month block touches only the monthly accumulator and month key. -/
theorem month_rollover_step_eq (st : WeatherStateV2) (m : Int) :
    month_rollover_step st m =
      { st with
        rain_monthly_in := if m ≠ st.month_ym then 0 else st.rain_monthly_in
        month_ym := if m ≠ st.month_ym then m else st.month_ym } := by
  unfold month_rollover_step
  split_ifs <;> rfl

/-- The year block touches only the yearly accumulator and year key. -/
theorem year_rollover_step_eq (st : WeatherStateV2) (y : Int) :
    year_rollover_step st y =
      { st with
        rain_yearly_in := if y ≠ st.year_y then 0 else st.rain_yearly_in
        year_y := if y ≠ st.year_y then y else st.year_y } := by
  unfold year_rollover_step
  split_ifs <;> rfl

/-- The week block touches only the weekly accumulator and week-start key. -/
theorem week_rollover_step_eq (st : WeatherStateV2) (now d : Int) :
    week_rollover_step st now d =
      { st with
        rain_weekly_in :=
          if 7 * 86400 ≤ day_start_ts now - week_start_ts st.week_start_ymd then 0
          else st.rain_weekly_in
        week_start_ymd :=
          if 7 * 86400 ≤ day_start_ts now - week_start_ts st.week_start_ymd then d
          else st.week_start_ymd } := by
  unfold week_rollover_step
  split_ifs <;> rfl

/-- Claim C2: on a day rollover, a daily summary row is written iff the
elapsed day's coverage satisfies `day_last_ts - day_first_ts ≥ 12h`; a
written row is keyed by the elapsed day's day-start timestamp, carries the
pre-reset `daily_in` as `rain_in` and the pre-reset extremes (NULL when the
`have_*` flag is down), and afterwards `daily_in`, the extremes and the wind
tracking are reset.  (The hypotheses state the reachable-state facts that
coverage timestamps are nonnegative, `day_last_ts` is only set once
`day_first_ts` is, and `day_first_ts` lies inside the elapsed day.) -/
theorem claim_C2 (st : WeatherStateV2) (now : Int)
    (hkey : st.daily_ymd ≠ 0)
    (hchange : ymd_from_time now ≠ st.daily_ymd)
    (hinv : st.day_first_ts = 0 → st.day_last_ts = 0)
    (hpos : 0 ≤ st.day_first_ts)
    (hfirst_day : st.day_first_ts ≠ 0 → ymd_from_time st.day_first_ts = st.daily_ymd) :
    ((rollover_if_needed st now).2.isSome ↔
      MIN_COVERAGE_SEC ≤ st.day_last_ts - st.day_first_ts) ∧
    (∀ r, (rollover_if_needed st now).2 = some r →
      r.day_ts = day_start_ts st.day_first_ts ∧
      ymd_from_time r.day_ts = st.daily_ymd ∧
      r.rain_in = some st.rain_daily_in ∧
      r.temp_high_c = (if st.have_temp then some st.temp_high_c else none) ∧
      r.temp_low_c = (if st.have_temp then some st.temp_low_c else none) ∧
      r.humidity_high = (if st.have_hum then some st.hum_high else none) ∧
      r.humidity_low = (if st.have_hum then some st.hum_low else none)) ∧
    (rollover_if_needed st now).1.rain_daily_in = 0 ∧
    (rollover_if_needed st now).1.have_temp = false ∧
    (rollover_if_needed st now).1.have_hum = false ∧
    (rollover_if_needed st now).1.have_wind = false ∧
    (rollover_if_needed st now).1.wind_mean_m_s = 0 ∧
    (rollover_if_needed st now).1.wind_max_gust_m_s = 0 ∧
    (rollover_if_needed st now).1.wind_sample_count = 0 ∧
    (rollover_if_needed st now).1.day_first_ts = now ∧
    (rollover_if_needed st now).1.day_last_ts = now := by
  have hMC : MIN_COVERAGE_SEC = 43200 := rfl
  have hcov_iff : (st.day_first_ts ≠ 0 ∧ st.day_last_ts ≠ 0 ∧
      MIN_COVERAGE_SEC ≤ st.day_last_ts - st.day_first_ts) ↔
      MIN_COVERAGE_SEC ≤ st.day_last_ts - st.day_first_ts := by
    constructor
    · exact fun h => h.2.2
    · intro h
      refine ⟨?_, ?_, h⟩
      · intro hz
        rw [hinv hz, hz, hMC] at h
        omega
      · intro hz
        have h1 : st.day_first_ts ≠ 0 := by
          intro h0
          rw [h0, hz, hMC] at h
          omega
        rw [hz, hMC] at h
        have h2 : 0 < st.day_first_ts := lt_of_le_of_ne hpos (Ne.symm h1)
        omega
  have hadopt : ∀ d m y, adopt_keys st d m y = { st with
      month_ym := if st.month_ym = 0 then m else st.month_ym
      year_y := if st.year_y = 0 then y else st.year_y
      week_start_ymd := if st.week_start_ymd = 0 then d else st.week_start_ymd } := by
    intro d m y
    unfold adopt_keys
    rw [if_neg hkey]
  simp only [rollover_if_needed]
  rw [hadopt]
  rw [day_rollover_fires _ _ _ (by simpa using hchange)]
  simp only [month_rollover_step_eq, year_rollover_step_eq, week_rollover_step_eq]
  refine ⟨?_, ?_, by simp, by simp, by simp, by simp, by simp, by simp, by simp,
    by simp, by simp⟩
  · by_cases hok : st.day_first_ts ≠ 0 ∧ st.day_last_ts ≠ 0 ∧
        MIN_COVERAGE_SEC ≤ st.day_last_ts - st.day_first_ts
    · rw [if_pos hok]
      simpa using hcov_iff.mp hok
    · rw [if_neg hok]
      simpa using fun habs => hok (hcov_iff.mpr habs)
  · intro r hr
    by_cases hok : st.day_first_ts ≠ 0 ∧ st.day_last_ts ≠ 0 ∧
        MIN_COVERAGE_SEC ≤ st.day_last_ts - st.day_first_ts
    · rw [if_pos hok, Option.some_inj] at hr
      subst hr
      rw [if_pos hok.1]
      unfold log_daily_to_db
      refine ⟨rfl, ?_, rfl, rfl, rfl, rfl, rfl⟩
      rw [ymd_from_time_day_start]
      exact hfirst_day hok.1
    · rw [if_neg hok] at hr
      cases hr

/-- Concrete pre-rollover state for the C2 witness: yesterday's key
`19700101`, coverage from 01:00 to 13:53 (≥ 12h), 2 inches of daily rain,
temperature extremes present, humidity absent. -/
def stC2 : WeatherStateV2 :=
  { daily_ymd := 19700101
    month_ym := 197001
    year_y := 1970
    week_start_ymd := 19700101
    day_first_ts := 3600
    day_last_ts := 50000
    rain_daily_in := 2
    have_temp := true
    temp_high_c := 30
    temp_low_c := 10
    have_hum := false }

/-- Witness for C2: rolling `stC2` over at `now = 90000` (the next local
day) writes a summary row and resets the daily accumulator, extremes and
coverage. -/
theorem claim_C2_witness :
    (rollover_if_needed stC2 90000).2.isSome = true ∧
    (rollover_if_needed stC2 90000).1.rain_daily_in = 0 ∧
    (rollover_if_needed stC2 90000).1.have_temp = false ∧
    (rollover_if_needed stC2 90000).1.day_first_ts = 90000 := by
  have h := claim_C2 stC2 90000 (by decide) (by decide) (by decide) (by decide)
    (fun _ => by decide)
  exact ⟨h.1.mpr (by decide), h.2.2.1, h.2.2.2.1, h.2.2.2.2.2.2.2.2.2.1⟩

/-- Claim C7: each of the four rollover checks zeroes only the rain
accumulator of its own elapsed horizon — the four condition/effect pairs are
independent, so any subset may fire on the same ingest — and none of them
touches the hourly or event accumulators, the delta window, or the rain
counter. -/
theorem claim_C7 (st : WeatherStateV2) (now : Int)
    (hd : st.daily_ymd ≠ 0) (hm : st.month_ym ≠ 0) (hy : st.year_y ≠ 0)
    (hw : st.week_start_ymd ≠ 0) :
    ((rollover_if_needed st now).1.rain_daily_in =
      if ymd_from_time now ≠ st.daily_ymd then 0 else st.rain_daily_in) ∧
    ((rollover_if_needed st now).1.rain_monthly_in =
      if ym_from_time now ≠ st.month_ym then 0 else st.rain_monthly_in) ∧
    ((rollover_if_needed st now).1.rain_yearly_in =
      if y_from_time now ≠ st.year_y then 0 else st.rain_yearly_in) ∧
    ((rollover_if_needed st now).1.rain_weekly_in =
      if 7 * 86400 ≤ day_start_ts now - week_start_ts st.week_start_ymd then 0
      else st.rain_weekly_in) ∧
    (rollover_if_needed st now).1.rain_hourly_in = st.rain_hourly_in ∧
    (rollover_if_needed st now).1.rain_event_in = st.rain_event_in ∧
    (rollover_if_needed st now).1.deltas = st.deltas ∧
    (rollover_if_needed st now).1.last_rain_mm = st.last_rain_mm ∧
    (rollover_if_needed st now).1.last_rain_ts = st.last_rain_ts := by
  simp only [rollover_if_needed, adopt_keys_eq st _ _ _ hd hm hy hw]
  rcases eq_or_ne (ymd_from_time now) st.daily_ymd with hday | hday
  · rw [day_rollover_noop _ _ _ hday]
    simp only [month_rollover_step_eq, year_rollover_step_eq, week_rollover_step_eq]
    simp [hday]
  · rw [day_rollover_fires _ _ _ hday]
    simp only [month_rollover_step_eq, year_rollover_step_eq, week_rollover_step_eq]
    simp [hday]

/-- Concrete state for the C7 witness: New Year's Day 2024 at
`now = 1704067200` fires all four rollovers at once (week start 9 days
back); the daily, monthly, yearly and weekly accumulators are zeroed while
the hourly and event accumulators survive. -/
def stC7 : WeatherStateV2 :=
  { daily_ymd := 20231231
    month_ym := 202312
    year_y := 2023
    week_start_ymd := 20231223
    rain_daily_in := 1
    rain_monthly_in := 2
    rain_yearly_in := 3
    rain_weekly_in := 4
    rain_hourly_in := 5
    rain_event_in := 6 }

/-- Witness for C7: all four horizons roll over together on New Year's Day
and only their own accumulators are zeroed. -/
theorem claim_C7_witness :
    (rollover_if_needed stC7 1704067200).1.rain_daily_in = 0 ∧
    (rollover_if_needed stC7 1704067200).1.rain_monthly_in = 0 ∧
    (rollover_if_needed stC7 1704067200).1.rain_yearly_in = 0 ∧
    (rollover_if_needed stC7 1704067200).1.rain_weekly_in = 0 ∧
    (rollover_if_needed stC7 1704067200).1.rain_hourly_in = 5 ∧
    (rollover_if_needed stC7 1704067200).1.rain_event_in = 6 := by
  have h := claim_C7 stC7 1704067200 (by decide) (by decide) (by decide) (by decide)
  refine ⟨?_, ?_, ?_, ?_, ?_, ?_⟩
  · rw [h.1, if_pos (by decide)]
  · rw [h.2.1, if_pos (by decide)]
  · rw [h.2.2.1, if_pos (by decide)]
  · rw [h.2.2.2.1, if_pos (by decide)]
  · rw [h.2.2.2.2.1]; rfl
  · rw [h.2.2.2.2.2.1]; rfl

/-- A month check with an unchanged key is inert. -/
theorem month_rollover_noop (st : WeatherStateV2) (m : Int) (h : m = st.month_ym) :
    month_rollover_step st m = st := by
  unfold month_rollover_step
  rw [if_neg (by simpa using h)]

/-- A year check with an unchanged key is inert. -/
theorem year_rollover_noop (st : WeatherStateV2) (y : Int) (h : y = st.year_y) :
    year_rollover_step st y = st := by
  unfold year_rollover_step
  rw [if_neg (by simpa using h)]

/-- A week check within 7 days of the stored week start is inert. -/
theorem week_rollover_noop (st : WeatherStateV2) (now d : Int)
    (h : day_start_ts now - week_start_ts st.week_start_ymd < 7 * 86400) :
    week_rollover_step st now d = st := by
  unfold week_rollover_step
  rw [if_neg (by omega)]

/-- When every calendar key is current (and initialized) and the week is
young, `rollover_if_needed` changes nothing and flushes no row. -/
theorem rollover_noop (st : WeatherStateV2) (now : Int)
    (hd : st.daily_ymd = ymd_from_time now) (hd0 : st.daily_ymd ≠ 0)
    (hm : st.month_ym = ym_from_time now) (hm0 : st.month_ym ≠ 0)
    (hy : st.year_y = y_from_time now) (hy0 : st.year_y ≠ 0)
    (hwk : day_start_ts now - week_start_ts st.week_start_ymd < 7 * 86400)
    (hwk0 : st.week_start_ymd ≠ 0) :
    rollover_if_needed st now = (st, none) := by
  simp only [rollover_if_needed, adopt_keys_eq st _ _ _ hd0 hm0 hy0 hwk0]
  rw [day_rollover_noop _ _ _ hd.symm]
  rw [month_rollover_noop _ _ hm.symm, year_rollover_noop _ _ hy.symm,
    week_rollover_noop _ _ _ hwk]

/-- None of the rollover blocks touches the rain counter, the delta window,
the hourly/event accumulators, the last-update timestamps or the telemetry
fields. -/
theorem rollover_frame (st : WeatherStateV2) (now : Int) :
    (rollover_if_needed st now).1.last_rain_mm = st.last_rain_mm ∧
    (rollover_if_needed st now).1.last_update = st.last_update ∧
    (rollover_if_needed st now).1.deltas = st.deltas ∧
    (rollover_if_needed st now).1.last_rain_ts = st.last_rain_ts ∧
    (rollover_if_needed st now).1.rain_hourly_in = st.rain_hourly_in ∧
    (rollover_if_needed st now).1.rain_event_in = st.rain_event_in := by
  simp only [rollover_if_needed, month_rollover_step_eq, year_rollover_step_eq,
    week_rollover_step_eq]
  unfold day_rollover_step
  split_ifs <;> exact ⟨rfl, rfl, rfl, rfl, rfl, rfl⟩

/-- `temp_track` only touches the temperature extremes. -/
theorem temp_track_frame (st : WeatherStateV2) (s : Sample) :
    (temp_track st s).rain_daily_in = st.rain_daily_in ∧
    (temp_track st s).rain_monthly_in = st.rain_monthly_in ∧
    (temp_track st s).rain_yearly_in = st.rain_yearly_in ∧
    (temp_track st s).rain_weekly_in = st.rain_weekly_in ∧
    (temp_track st s).rain_hourly_in = st.rain_hourly_in ∧
    (temp_track st s).rain_event_in = st.rain_event_in ∧
    (temp_track st s).deltas = st.deltas ∧
    (temp_track st s).last_rain_mm = st.last_rain_mm ∧
    (temp_track st s).last_update = st.last_update := by
  unfold temp_track
  cases s.temperature_C
  · exact ⟨rfl, rfl, rfl, rfl, rfl, rfl, rfl, rfl, rfl⟩
  · split_ifs <;> exact ⟨rfl, rfl, rfl, rfl, rfl, rfl, rfl, rfl, rfl⟩

/-- `hum_track` only touches the humidity extremes. -/
theorem hum_track_frame (st : WeatherStateV2) (s : Sample) :
    (hum_track st s).rain_daily_in = st.rain_daily_in ∧
    (hum_track st s).rain_monthly_in = st.rain_monthly_in ∧
    (hum_track st s).rain_yearly_in = st.rain_yearly_in ∧
    (hum_track st s).rain_weekly_in = st.rain_weekly_in ∧
    (hum_track st s).rain_hourly_in = st.rain_hourly_in ∧
    (hum_track st s).rain_event_in = st.rain_event_in ∧
    (hum_track st s).deltas = st.deltas ∧
    (hum_track st s).last_rain_mm = st.last_rain_mm ∧
    (hum_track st s).last_update = st.last_update := by
  unfold hum_track
  cases s.humidity
  · exact ⟨rfl, rfl, rfl, rfl, rfl, rfl, rfl, rfl, rfl⟩
  · split_ifs <;> exact ⟨rfl, rfl, rfl, rfl, rfl, rfl, rfl, rfl, rfl⟩

/-- `wind_track` only touches the wind tracking fields. -/
theorem wind_track_frame (st : WeatherStateV2) :
    (wind_track st).rain_daily_in = st.rain_daily_in ∧
    (wind_track st).rain_monthly_in = st.rain_monthly_in ∧
    (wind_track st).rain_yearly_in = st.rain_yearly_in ∧
    (wind_track st).rain_weekly_in = st.rain_weekly_in ∧
    (wind_track st).rain_hourly_in = st.rain_hourly_in ∧
    (wind_track st).rain_event_in = st.rain_event_in ∧
    (wind_track st).deltas = st.deltas ∧
    (wind_track st).last_rain_mm = st.last_rain_mm ∧
    (wind_track st).last_update = st.last_update := by
  unfold wind_track
  split_ifs <;> exact ⟨rfl, rfl, rfl, rfl, rfl, rfl, rfl, rfl, rfl⟩

/-- Claim C10: a sample whose payload lacks `rain_mm`, or whose `rain_mm`
lies outside `[0, 20000]`, returns after updating only the instantaneous
telemetry fields and `last_update`: no rollover check runs, no coverage is
recorded, no extreme is updated and no snapshot is written.  A first seeding
rain sample (`last_rain_mm == 0`) returns before extremes tracking, so its
temperature, humidity and wind values never enter the daily extremes. -/
theorem claim_C10 (st : WeatherStateV2) (s : Sample) (now : Int) :
    (s.rain_mm = none →
      process_ws90_json_locked st s now =
        ⟨{ telemetry_update st s with last_update := now }, none, false⟩) ∧
    (∀ r, s.rain_mm = some r → (r < 0 ∨ 20000 < r) →
      process_ws90_json_locked st s now =
        ⟨{ telemetry_update st s with last_update := now }, none, false⟩) ∧
    (∀ r, s.rain_mm = some r → ¬(r < 0 ∨ 20000 < r) → st.last_rain_mm = 0 →
      (process_ws90_json_locked st s now).saved = true ∧
      (process_ws90_json_locked st s now).state.last_rain_mm = r ∧
      (process_ws90_json_locked st s now).state.have_temp =
        (rollover_if_needed (telemetry_update st s) now).1.have_temp ∧
      (process_ws90_json_locked st s now).state.temp_high_c =
        (rollover_if_needed (telemetry_update st s) now).1.temp_high_c ∧
      (process_ws90_json_locked st s now).state.temp_low_c =
        (rollover_if_needed (telemetry_update st s) now).1.temp_low_c ∧
      (process_ws90_json_locked st s now).state.have_hum =
        (rollover_if_needed (telemetry_update st s) now).1.have_hum ∧
      (process_ws90_json_locked st s now).state.hum_high =
        (rollover_if_needed (telemetry_update st s) now).1.hum_high ∧
      (process_ws90_json_locked st s now).state.hum_low =
        (rollover_if_needed (telemetry_update st s) now).1.hum_low ∧
      (process_ws90_json_locked st s now).state.have_wind =
        (rollover_if_needed (telemetry_update st s) now).1.have_wind ∧
      (process_ws90_json_locked st s now).state.wind_mean_m_s =
        (rollover_if_needed (telemetry_update st s) now).1.wind_mean_m_s ∧
      (process_ws90_json_locked st s now).state.wind_max_gust_m_s =
        (rollover_if_needed (telemetry_update st s) now).1.wind_max_gust_m_s ∧
      (process_ws90_json_locked st s now).state.wind_sample_count =
        (rollover_if_needed (telemetry_update st s) now).1.wind_sample_count) := by
  refine ⟨?_, ?_, ?_⟩
  · intro hnone
    unfold process_ws90_json_locked
    rw [hnone]
  · intro r hsome hout
    unfold process_ws90_json_locked
    rw [hsome]
    simp only [if_pos hout]
  · intro r hsome hin hseed
    unfold process_ws90_json_locked
    rw [hsome]
    simp only [if_neg hin]
    have hlr : (coverage_update (rollover_if_needed (telemetry_update st s) now).1
        now).last_rain_mm = (0 : ℚ) := by
      show (rollover_if_needed (telemetry_update st s) now).1.last_rain_mm = 0
      rw [(rollover_frame (telemetry_update st s) now).1]
      exact hseed
    rw [if_pos hlr]
    exact ⟨rfl, rfl, rfl, rfl, rfl, rfl, rfl, rfl, rfl, rfl, rfl, rfl⟩

/-- Witness for C10: a sample with `rain_mm = 30000` (out of range) and a
temperature of 21 °C leaves the aggregation state untouched and writes no
snapshot, and a first seeding sample with a temperature never sets
`have_temp`. -/
theorem claim_C10_witness :
    process_ws90_json_locked (init_state_defaults 1000)
        { rain_mm := some 30000, temperature_C := some 21 } 1000 =
      ⟨{ telemetry_update (init_state_defaults 1000)
          { rain_mm := some 30000, temperature_C := some 21 } with last_update := 1000 },
       none, false⟩ ∧
    (process_ws90_json_locked (init_state_defaults 1000)
        { rain_mm := some 5, temperature_C := some 21 } 1000).saved = true ∧
    (process_ws90_json_locked (init_state_defaults 1000)
        { rain_mm := some 5, temperature_C := some 21 } 1000).state.have_temp = false := by
  have h1 := (claim_C10 (init_state_defaults 1000)
    { rain_mm := some 30000, temperature_C := some 21 } 1000).2.1 30000 rfl
    (by norm_num)
  have h2 := (claim_C10 (init_state_defaults 1000)
    { rain_mm := some 5, temperature_C := some 21 } 1000).2.2 5 rfl
    (by norm_num) (by simp [init_state_defaults])
  refine ⟨h1, h2.1, ?_⟩
  rw [h2.2.2.1]
  rw [(rollover_noop _ 1000 ?_ ?_ ?_ ?_ ?_ ?_ ?_ ?_)]
  · simp [telemetry_update, init_state_defaults]
  all_goals simp [telemetry_update, init_state_defaults, week_start_ts, day_start_ts,
    ymd_from_time, ym_from_time, y_from_time, civilFromDays, daysFromCivil]

/-- `finalize_reading` only touches `last_rain_mm` and `last_update`. -/
theorem finalize_reading_frame (st : WeatherStateV2) (rain_mm : ℚ) (now : Int) :
    (finalize_reading st rain_mm now).rain_daily_in = st.rain_daily_in ∧
    (finalize_reading st rain_mm now).rain_monthly_in = st.rain_monthly_in ∧
    (finalize_reading st rain_mm now).rain_yearly_in = st.rain_yearly_in ∧
    (finalize_reading st rain_mm now).rain_weekly_in = st.rain_weekly_in ∧
    (finalize_reading st rain_mm now).rain_hourly_in = st.rain_hourly_in ∧
    (finalize_reading st rain_mm now).rain_event_in = st.rain_event_in ∧
    (finalize_reading st rain_mm now).deltas = st.deltas ∧
    (finalize_reading st rain_mm now).last_rain_mm = rain_mm :=
  ⟨rfl, rfl, rfl, rfl, rfl, rfl, rfl, rfl⟩

/-- Effect of the rain-accumulation block on an accepted delta: each of the
four calendar accumulators grows by the inch-delta, the delta is appended to
the window which is then recompacted, and the rain-event timestamp advances. -/
theorem rain_accumulate_accept (st : WeatherStateV2) (rain_mm : ℚ) (now : Int)
    (h : 0.0001 < rain_mm - st.last_rain_mm ∧ rain_mm - st.last_rain_mm < 5000) :
    (rain_accumulate st rain_mm now).rain_daily_in =
      st.rain_daily_in + inches_from_mm (rain_mm - st.last_rain_mm) ∧
    (rain_accumulate st rain_mm now).rain_monthly_in =
      st.rain_monthly_in + inches_from_mm (rain_mm - st.last_rain_mm) ∧
    (rain_accumulate st rain_mm now).rain_yearly_in =
      st.rain_yearly_in + inches_from_mm (rain_mm - st.last_rain_mm) ∧
    (rain_accumulate st rain_mm now).rain_weekly_in =
      st.rain_weekly_in + inches_from_mm (rain_mm - st.last_rain_mm) ∧
    (rain_accumulate st rain_mm now).deltas =
      (hourly_scan now
        (st.deltas ++ [⟨now, inches_from_mm (rain_mm - st.last_rain_mm)⟩])).1 ∧
    (rain_accumulate st rain_mm now).rain_hourly_in =
      (hourly_scan now
        (st.deltas ++ [⟨now, inches_from_mm (rain_mm - st.last_rain_mm)⟩])).2 ∧
    (rain_accumulate st rain_mm now).last_rain_ts = now ∧
    (rain_accumulate st rain_mm now).last_rain_mm = st.last_rain_mm := by
  unfold rain_accumulate recompute_hourly
  rw [if_pos h]
  dsimp only
  split_ifs <;> exact ⟨rfl, rfl, rfl, rfl, rfl, rfl, rfl, rfl⟩

/-- A rejected delta leaves the whole state untouched. -/
theorem rain_accumulate_reject (st : WeatherStateV2) (rain_mm : ℚ) (now : Int)
    (h : ¬(0.0001 < rain_mm - st.last_rain_mm ∧ rain_mm - st.last_rain_mm < 5000)) :
    rain_accumulate st rain_mm now = st := by
  unfold rain_accumulate
  rw [if_neg h]

/-- Claim C1: for an ingested sample with a rain reading in range (past the
seed), `delta = reading - last_rain_reading` is converted to inches by
dividing by 25.4 and added to the daily, monthly, yearly and weekly
accumulators iff `0.0001 < delta_mm < 5000`; an out-of-range delta (in
particular a reading equal to `last_rain_reading`, delta 0) changes no
accumulator; in every case `last_rain_reading` is set to the new reading.
(The calendar-key hypotheses pin the ingest to the current day so that no
rollover interferes with the accumulators being compared.) -/
theorem claim_C1 (st : WeatherStateV2) (s : Sample) (now : Int) (r : ℚ)
    (hs : s.rain_mm = some r) (h0 : 0 ≤ r) (h20k : r ≤ 20000)
    (hseeded : st.last_rain_mm ≠ 0)
    (hd : st.daily_ymd = ymd_from_time now) (hd0 : st.daily_ymd ≠ 0)
    (hm : st.month_ym = ym_from_time now) (hm0 : st.month_ym ≠ 0)
    (hy : st.year_y = y_from_time now) (hy0 : st.year_y ≠ 0)
    (hwk : day_start_ts now - week_start_ts st.week_start_ymd < 7 * 86400)
    (hwk0 : st.week_start_ymd ≠ 0) :
    (0.0001 < r - st.last_rain_mm ∧ r - st.last_rain_mm < 5000 →
      (process_ws90_json_locked st s now).state.rain_daily_in =
        st.rain_daily_in + (r - st.last_rain_mm) / 25.4 ∧
      (process_ws90_json_locked st s now).state.rain_monthly_in =
        st.rain_monthly_in + (r - st.last_rain_mm) / 25.4 ∧
      (process_ws90_json_locked st s now).state.rain_yearly_in =
        st.rain_yearly_in + (r - st.last_rain_mm) / 25.4 ∧
      (process_ws90_json_locked st s now).state.rain_weekly_in =
        st.rain_weekly_in + (r - st.last_rain_mm) / 25.4) ∧
    (¬(0.0001 < r - st.last_rain_mm ∧ r - st.last_rain_mm < 5000) →
      (process_ws90_json_locked st s now).state.rain_daily_in = st.rain_daily_in ∧
      (process_ws90_json_locked st s now).state.rain_monthly_in = st.rain_monthly_in ∧
      (process_ws90_json_locked st s now).state.rain_yearly_in = st.rain_yearly_in ∧
      (process_ws90_json_locked st s now).state.rain_weekly_in = st.rain_weekly_in ∧
      (process_ws90_json_locked st s now).state.rain_hourly_in = st.rain_hourly_in ∧
      (process_ws90_json_locked st s now).state.rain_event_in = st.rain_event_in ∧
      (process_ws90_json_locked st s now).state.deltas = st.deltas) ∧
    (process_ws90_json_locked st s now).state.last_rain_mm = r := by
  have hro : rollover_if_needed (telemetry_update st s) now = (telemetry_update st s, none) :=
    rollover_noop _ _ hd hd0 hm hm0 hy hy0 hwk hwk0
  unfold process_ws90_json_locked
  rw [hs]
  dsimp only
  rw [if_neg (show ¬(r < 0 ∨ 20000 < r) by push_neg; exact ⟨h0, h20k⟩)]
  rw [hro]
  dsimp only
  rw [if_neg (show ¬((coverage_update (telemetry_update st s) now).last_rain_mm = (0 : ℚ))
    from hseeded)]
  dsimp only
  by_cases hacc : 0.0001 < r - st.last_rain_mm ∧ r - st.last_rain_mm < 5000
  · have haccC : 0.0001 < r - (coverage_update (telemetry_update st s) now).last_rain_mm ∧
        r - (coverage_update (telemetry_update st s) now).last_rain_mm < 5000 := hacc
    refine ⟨fun _ => ⟨?_, ?_, ?_, ?_⟩, fun hna => absurd hacc hna, ?_⟩
    · rw [(wind_track_frame _).1, (hum_track_frame _ _).1, (temp_track_frame _ _).1,
        (finalize_reading_frame _ _ _).1, (rain_accumulate_accept _ _ _ haccC).1]
      all_goals rfl
    · rw [(wind_track_frame _).2.1, (hum_track_frame _ _).2.1, (temp_track_frame _ _).2.1,
        (finalize_reading_frame _ _ _).2.1, (rain_accumulate_accept _ _ _ haccC).2.1]
      all_goals rfl
    · rw [(wind_track_frame _).2.2.1, (hum_track_frame _ _).2.2.1,
        (temp_track_frame _ _).2.2.1, (finalize_reading_frame _ _ _).2.2.1,
        (rain_accumulate_accept _ _ _ haccC).2.2.1]
      all_goals rfl
    · rw [(wind_track_frame _).2.2.2.1, (hum_track_frame _ _).2.2.2.1,
        (temp_track_frame _ _).2.2.2.1, (finalize_reading_frame _ _ _).2.2.2.1,
        (rain_accumulate_accept _ _ _ haccC).2.2.2.1]
      all_goals rfl
    · rw [(wind_track_frame _).2.2.2.2.2.2.2.1, (hum_track_frame _ _).2.2.2.2.2.2.2.1,
        (temp_track_frame _ _).2.2.2.2.2.2.2.1, (finalize_reading_frame _ _ _).2.2.2.2.2.2.2]
      all_goals rfl
  · have hnaC : ¬(0.0001 < r - (coverage_update (telemetry_update st s) now).last_rain_mm ∧
        r - (coverage_update (telemetry_update st s) now).last_rain_mm < 5000) := hacc
    refine ⟨fun hc => absurd hc hacc, fun _ => ?_, ?_⟩
    · refine ⟨?_, ?_, ?_, ?_, ?_, ?_, ?_⟩
      · rw [(wind_track_frame _).1, (hum_track_frame _ _).1, (temp_track_frame _ _).1,
          (finalize_reading_frame _ _ _).1, rain_accumulate_reject _ _ _ hnaC]
        all_goals rfl
      · rw [(wind_track_frame _).2.1, (hum_track_frame _ _).2.1, (temp_track_frame _ _).2.1,
          (finalize_reading_frame _ _ _).2.1, rain_accumulate_reject _ _ _ hnaC]
        all_goals rfl
      · rw [(wind_track_frame _).2.2.1, (hum_track_frame _ _).2.2.1,
          (temp_track_frame _ _).2.2.1, (finalize_reading_frame _ _ _).2.2.1,
          rain_accumulate_reject _ _ _ hnaC]
        all_goals rfl
      · rw [(wind_track_frame _).2.2.2.1, (hum_track_frame _ _).2.2.2.1,
          (temp_track_frame _ _).2.2.2.1, (finalize_reading_frame _ _ _).2.2.2.1,
          rain_accumulate_reject _ _ _ hnaC]
        all_goals rfl
      · rw [(wind_track_frame _).2.2.2.2.1, (hum_track_frame _ _).2.2.2.2.1,
          (temp_track_frame _ _).2.2.2.2.1, (finalize_reading_frame _ _ _).2.2.2.2.1,
          rain_accumulate_reject _ _ _ hnaC]
        all_goals rfl
      · rw [(wind_track_frame _).2.2.2.2.2.1, (hum_track_frame _ _).2.2.2.2.2.1,
          (temp_track_frame _ _).2.2.2.2.2.1, (finalize_reading_frame _ _ _).2.2.2.2.2.1,
          rain_accumulate_reject _ _ _ hnaC]
        all_goals rfl
      · rw [(wind_track_frame _).2.2.2.2.2.2.1, (hum_track_frame _ _).2.2.2.2.2.2.1,
          (temp_track_frame _ _).2.2.2.2.2.2.1, (finalize_reading_frame _ _ _).2.2.2.2.2.2.1,
          rain_accumulate_reject _ _ _ hnaC]
        all_goals rfl
    · rw [(wind_track_frame _).2.2.2.2.2.2.2.1, (hum_track_frame _ _).2.2.2.2.2.2.2.1,
        (temp_track_frame _ _).2.2.2.2.2.2.2.1, (finalize_reading_frame _ _ _).2.2.2.2.2.2.2]
      all_goals rfl

/-- Concrete seeded state for the C1 witness: counter at 10 mm, 1 inch of
daily rain, calendar keys of 1970-01-01. -/
def stC1 : WeatherStateV2 :=
  { init_state_defaults 1000 with last_rain_mm := 10, rain_daily_in := 1 }

/-- Witness for C1: a reading of 11 mm (delta 1 mm) adds `1/25.4` inches to
the daily accumulator, while a repeated reading of 10 mm (delta 0) leaves it
unchanged and still stores the reading. -/
theorem claim_C1_witness :
    (process_ws90_json_locked stC1 { rain_mm := some 11 } 2000).state.rain_daily_in =
      1 + 1 / 25.4 ∧
    (process_ws90_json_locked stC1 { rain_mm := some 10 } 2000).state.rain_daily_in = 1 ∧
    (process_ws90_json_locked stC1 { rain_mm := some 10 } 2000).state.last_rain_mm = 10 := by
  have h1 := claim_C1 stC1 { rain_mm := some 11 } 2000 11 rfl (by norm_num) (by norm_num)
    (by norm_num [stC1]) (by decide) (by decide) (by decide) (by decide) (by decide)
    (by decide) (by decide) (by decide)
  have h2 := claim_C1 stC1 { rain_mm := some 10 } 2000 10 rfl (by norm_num) (by norm_num)
    (by norm_num [stC1]) (by decide) (by decide) (by decide) (by decide) (by decide)
    (by decide) (by decide) (by decide)
  refine ⟨?_, ?_, h2.2.2⟩
  · rw [(h1.1 (by norm_num [stC1])).1]
    norm_num [stC1]
  · rw [(h2.2.1 (by norm_num [stC1])).1]
    norm_num [stC1]

/-- Claim C6 (amended): on every accepted ingest the snapshot file is
written; it serializes the scalar aggregation fields — which a startup load
reconstructs exactly — but not the hourly delta sequence, the rain-event
timestamp or the instantaneous telemetry, which restart as empty/defaults;
an absent or unparseable file falls back to freshly-initialized defaults:
today's calendar keys, zeroed accumulators, `historical_seeded = true`. -/
theorem claim_C6 (st : WeatherStateV2) (s : Sample) (now : Int) (r : ℚ) :
    ((load_state (some (save_state st)) now).last_rain_mm = st.last_rain_mm ∧
     (load_state (some (save_state st)) now).last_update = st.last_update ∧
     (load_state (some (save_state st)) now).rain_daily_in = st.rain_daily_in ∧
     (load_state (some (save_state st)) now).rain_monthly_in = st.rain_monthly_in ∧
     (load_state (some (save_state st)) now).rain_yearly_in = st.rain_yearly_in ∧
     (load_state (some (save_state st)) now).rain_weekly_in = st.rain_weekly_in ∧
     (load_state (some (save_state st)) now).rain_hourly_in = st.rain_hourly_in ∧
     (load_state (some (save_state st)) now).rain_event_in = st.rain_event_in ∧
     (load_state (some (save_state st)) now).daily_ymd = st.daily_ymd ∧
     (load_state (some (save_state st)) now).month_ym = st.month_ym ∧
     (load_state (some (save_state st)) now).year_y = st.year_y ∧
     (load_state (some (save_state st)) now).week_start_ymd = st.week_start_ymd ∧
     (load_state (some (save_state st)) now).historical_total_in = st.historical_total_in ∧
     (load_state (some (save_state st)) now).historical_yearly_in = st.historical_yearly_in ∧
     (load_state (some (save_state st)) now).historical_monthly_in =
       st.historical_monthly_in ∧
     (load_state (some (save_state st)) now).historical_weekly_in = st.historical_weekly_in ∧
     (load_state (some (save_state st)) now).historical_seeded = st.historical_seeded ∧
     (load_state (some (save_state st)) now).have_temp = st.have_temp ∧
     (load_state (some (save_state st)) now).temp_high_c = st.temp_high_c ∧
     (load_state (some (save_state st)) now).temp_low_c = st.temp_low_c ∧
     (load_state (some (save_state st)) now).have_hum = st.have_hum ∧
     (load_state (some (save_state st)) now).hum_high = st.hum_high ∧
     (load_state (some (save_state st)) now).hum_low = st.hum_low ∧
     (load_state (some (save_state st)) now).have_wind = st.have_wind ∧
     (load_state (some (save_state st)) now).wind_mean_m_s = st.wind_mean_m_s ∧
     (load_state (some (save_state st)) now).wind_max_gust_m_s = st.wind_max_gust_m_s ∧
     (load_state (some (save_state st)) now).wind_sample_count = st.wind_sample_count ∧
     (load_state (some (save_state st)) now).day_first_ts = st.day_first_ts ∧
     (load_state (some (save_state st)) now).day_last_ts = st.day_last_ts) ∧
    ((load_state (some (save_state st)) now).deltas = [] ∧
     (load_state (some (save_state st)) now).last_rain_ts = 0 ∧
     (load_state (some (save_state st)) now).rain_mm = 0 ∧
     (load_state (some (save_state st)) now).temperature_C = 0) ∧
    (load_state none now = init_state_defaults now ∧
     (init_state_defaults now).daily_ymd = ymd_from_time now ∧
     (init_state_defaults now).month_ym = ym_from_time now ∧
     (init_state_defaults now).year_y = y_from_time now ∧
     (init_state_defaults now).week_start_ymd = ymd_from_time now ∧
     (init_state_defaults now).rain_daily_in = 0 ∧
     (init_state_defaults now).rain_monthly_in = 0 ∧
     (init_state_defaults now).rain_yearly_in = 0 ∧
     (init_state_defaults now).rain_weekly_in = 0 ∧
     (init_state_defaults now).rain_hourly_in = 0 ∧
     (init_state_defaults now).rain_event_in = 0 ∧
     (init_state_defaults now).historical_seeded = true) ∧
    (s.rain_mm = some r → ¬(r < 0 ∨ 20000 < r) →
      (process_ws90_json_locked st s now).saved = true) := by
  refine ⟨⟨rfl, rfl, rfl, rfl, rfl, rfl, rfl, rfl, rfl, rfl, rfl, rfl, rfl, rfl, rfl, rfl,
    rfl, rfl, rfl, rfl, rfl, rfl, rfl, rfl, rfl, rfl, rfl, rfl, rfl⟩,
    ⟨rfl, rfl, rfl, rfl⟩,
    ⟨rfl, rfl, rfl, rfl, rfl, rfl, rfl, rfl, rfl, rfl, rfl, rfl⟩, ?_⟩
  intro hs hin
  unfold process_ws90_json_locked
  rw [hs]
  dsimp only
  rw [if_neg hin]
  by_cases hseed : (coverage_update (rollover_if_needed (telemetry_update st s) now).1
      now).last_rain_mm = (0 : ℚ)
  · rw [if_pos hseed]
  · rw [if_neg hseed]

/-- State for the C6 counterexample: one retained rain delta in the hourly
window (as after any accepted delta within the last hour). -/
def stC6 : WeatherStateV2 :=
  { init_state_defaults 5 with deltas := [⟨3, 1⟩], rain_hourly_in := 1 }

/-- Counterexample to C6 as stated: serializing `stC6` and reading the file
back does not reconstruct the state — the hourly delta sequence is not part
of the snapshot, so it comes back empty. -/
theorem claim_C6_counterexample :
    load_state (some (save_state stC6)) 5 ≠ stC6 := by
  intro h
  have h2 := congrArg WeatherStateV2.deltas h
  simp [stC6, load_state, save_state, init_state_defaults] at h2

/-- Witness for C6: an accepted in-range ingest writes the snapshot file. -/
theorem claim_C6_witness :
    (process_ws90_json_locked (init_state_defaults 0) { rain_mm := some 3 } 0).saved = true :=
  (claim_C6 (init_state_defaults 0) { rain_mm := some 3 } 0 3).2.2.2 rfl (by norm_num)

/-- Every delta kept by the compaction loop is inside the hourly window. -/
theorem hourly_scan_mem (now : Int) (l : List RainDelta) :
    ∀ d ∈ (hourly_scan now l).1, now - d.ts ≤ HOURLY_WINDOW_SEC := by
  induction l with
  | nil => intro d hd; cases hd
  | cons a rest ih =>
    intro d hd
    rw [hourly_scan] at hd
    by_cases h : now - a.ts ≤ HOURLY_WINDOW_SEC
    · rw [if_pos h] at hd
      rcases List.mem_cons.mp hd with rfl | hd2
      · exact h
      · exact ih d hd2
    · rw [if_neg h] at hd
      exact ih d hd
  
/-- The compacted `hourly_in` is the sum of the inches of the kept deltas. -/
theorem hourly_scan_sum (now : Int) (l : List RainDelta) :
    (hourly_scan now l).2 = ((hourly_scan now l).1.map RainDelta.inches).sum := by
  induction l with
  | nil => rfl
  | cons a rest ih =>
    rw [hourly_scan]
    by_cases h : now - a.ts ≤ HOURLY_WINDOW_SEC
    · rw [if_pos h]
      dsimp only
      rw [ih, List.map_cons, List.sum_cons]
    · rw [if_neg h]
      exact ih

/-- When every delta is still inside the window, compaction keeps the list
as is. -/
theorem hourly_scan_all_in (now : Int) (l : List RainDelta)
    (h : ∀ d ∈ l, now - d.ts ≤ HOURLY_WINDOW_SEC) :
    hourly_scan now l = (l, (l.map RainDelta.inches).sum) := by
  induction l with
  | nil => rfl
  | cons a rest ih =>
    rw [hourly_scan, if_pos (h a (List.mem_cons_self a rest)),
      ih (fun d hd => h d (List.mem_cons_of_mem a hd)), List.map_cons, List.sum_cons]

/-- A leading delta that left the window is dropped by the compaction. -/
theorem hourly_scan_cons_out (now : Int) (d : RainDelta) (l : List RainDelta)
    (h : ¬(now - d.ts ≤ HOURLY_WINDOW_SEC)) :
    hourly_scan now (d :: l) = hourly_scan now l := by
  conv_lhs => rw [hourly_scan]
  rw [if_neg h]

/-- Window effect of an ingest whose delta is accepted: the delta is
appended at the ingest time and the window recompacted. -/
theorem process_accept_window (st : WeatherStateV2) (s : Sample) (now : Int) (r : ℚ)
    (hs : s.rain_mm = some r) (hin : ¬(r < 0 ∨ 20000 < r))
    (hseeded : st.last_rain_mm ≠ 0)
    (hacc : 0.0001 < r - st.last_rain_mm ∧ r - st.last_rain_mm < 5000) :
    (process_ws90_json_locked st s now).state.deltas =
      (hourly_scan now
        (st.deltas ++ [⟨now, inches_from_mm (r - st.last_rain_mm)⟩])).1 ∧
    (process_ws90_json_locked st s now).state.rain_hourly_in =
      (hourly_scan now
        (st.deltas ++ [⟨now, inches_from_mm (r - st.last_rain_mm)⟩])).2 ∧
    (process_ws90_json_locked st s now).state.last_rain_mm = r ∧
    (process_ws90_json_locked st s now).state.last_update = now := by
  unfold process_ws90_json_locked
  rw [hs]
  dsimp only
  rw [if_neg hin]
  have hlr : (coverage_update (rollover_if_needed (telemetry_update st s) now).1
      now).last_rain_mm = st.last_rain_mm := (rollover_frame (telemetry_update st s) now).1
  have hdel : (coverage_update (rollover_if_needed (telemetry_update st s) now).1
      now).deltas = st.deltas := (rollover_frame (telemetry_update st s) now).2.2.1
  rw [if_neg (show ¬((coverage_update (rollover_if_needed (telemetry_update st s) now).1
      now).last_rain_mm = (0 : ℚ)) by rw [hlr]; exact hseeded)]
  dsimp only
  have haccC : 0.0001 < r - (coverage_update (rollover_if_needed (telemetry_update st s)
      now).1 now).last_rain_mm ∧
      r - (coverage_update (rollover_if_needed (telemetry_update st s) now).1
        now).last_rain_mm < 5000 := by
    rw [hlr]; exact hacc
  refine ⟨?_, ?_, ?_, ?_⟩
  · rw [(wind_track_frame _).2.2.2.2.2.2.1, (hum_track_frame _ _).2.2.2.2.2.2.1,
      (temp_track_frame _ _).2.2.2.2.2.2.1, (finalize_reading_frame _ _ _).2.2.2.2.2.2.1,
      (rain_accumulate_accept _ _ _ haccC).2.2.2.2.1, hdel, hlr]
  · rw [(wind_track_frame _).2.2.2.2.1, (hum_track_frame _ _).2.2.2.2.1,
      (temp_track_frame _ _).2.2.2.2.1, (finalize_reading_frame _ _ _).2.2.2.2.1,
      (rain_accumulate_accept _ _ _ haccC).2.2.2.2.2.1, hdel, hlr]
  · rw [(wind_track_frame _).2.2.2.2.2.2.2.1, (hum_track_frame _ _).2.2.2.2.2.2.2.1,
      (temp_track_frame _ _).2.2.2.2.2.2.2.1, (finalize_reading_frame _ _ _).2.2.2.2.2.2.2]
  · rw [(wind_track_frame _).2.2.2.2.2.2.2.2, (hum_track_frame _ _).2.2.2.2.2.2.2.2,
      (temp_track_frame _ _).2.2.2.2.2.2.2.2]
    rfl

/-- Window effect of an ingest whose delta is rejected (for instance a
repeated reading): the window and `hourly_in` are left untouched, while
`last_rain_mm` and `last_update` still advance. -/
theorem process_reject_window (st : WeatherStateV2) (s : Sample) (now : Int) (r : ℚ)
    (hs : s.rain_mm = some r) (hin : ¬(r < 0 ∨ 20000 < r))
    (hseeded : st.last_rain_mm ≠ 0)
    (hnacc : ¬(0.0001 < r - st.last_rain_mm ∧ r - st.last_rain_mm < 5000)) :
    (process_ws90_json_locked st s now).state.deltas = st.deltas ∧
    (process_ws90_json_locked st s now).state.rain_hourly_in = st.rain_hourly_in ∧
    (process_ws90_json_locked st s now).state.last_rain_mm = r ∧
    (process_ws90_json_locked st s now).state.last_update = now := by
  unfold process_ws90_json_locked
  rw [hs]
  dsimp only
  rw [if_neg hin]
  have hlr : (coverage_update (rollover_if_needed (telemetry_update st s) now).1
      now).last_rain_mm = st.last_rain_mm := (rollover_frame (telemetry_update st s) now).1
  rw [if_neg (show ¬((coverage_update (rollover_if_needed (telemetry_update st s) now).1
      now).last_rain_mm = (0 : ℚ)) by rw [hlr]; exact hseeded)]
  dsimp only
  have hnaC : ¬(0.0001 < r - (coverage_update (rollover_if_needed (telemetry_update st s)
      now).1 now).last_rain_mm ∧
      r - (coverage_update (rollover_if_needed (telemetry_update st s) now).1
        now).last_rain_mm < 5000) := by
    rw [hlr]; exact hnacc
  refine ⟨?_, ?_, ?_, ?_⟩
  · rw [(wind_track_frame _).2.2.2.2.2.2.1, (hum_track_frame _ _).2.2.2.2.2.2.1,
      (temp_track_frame _ _).2.2.2.2.2.2.1, (finalize_reading_frame _ _ _).2.2.2.2.2.2.1,
      rain_accumulate_reject _ _ _ hnaC]
    exact (rollover_frame (telemetry_update st s) now).2.2.1
  · rw [(wind_track_frame _).2.2.2.2.1, (hum_track_frame _ _).2.2.2.2.1,
      (temp_track_frame _ _).2.2.2.2.1, (finalize_reading_frame _ _ _).2.2.2.2.1,
      rain_accumulate_reject _ _ _ hnaC]
    exact (rollover_frame (telemetry_update st s) now).2.2.2.2.1
  · rw [(wind_track_frame _).2.2.2.2.2.2.2.1, (hum_track_frame _ _).2.2.2.2.2.2.2.1,
      (temp_track_frame _ _).2.2.2.2.2.2.2.1, (finalize_reading_frame _ _ _).2.2.2.2.2.2.2]
  · rw [(wind_track_frame _).2.2.2.2.2.2.2.2, (hum_track_frame _ _).2.2.2.2.2.2.2.2,
      (temp_track_frame _ _).2.2.2.2.2.2.2.2]
    rfl

/-- Window effect of the first seeding sample: nothing enters or leaves the
window. -/
theorem process_seed_window (st : WeatherStateV2) (s : Sample) (now : Int) (r : ℚ)
    (hs : s.rain_mm = some r) (hin : ¬(r < 0 ∨ 20000 < r))
    (hseed : st.last_rain_mm = 0) :
    (process_ws90_json_locked st s now).state.deltas = st.deltas ∧
    (process_ws90_json_locked st s now).state.rain_hourly_in = st.rain_hourly_in ∧
    (process_ws90_json_locked st s now).state.last_rain_mm = r ∧
    (process_ws90_json_locked st s now).state.last_update = now := by
  unfold process_ws90_json_locked
  rw [hs]
  dsimp only
  rw [if_neg hin]
  have hlr : (coverage_update (rollover_if_needed (telemetry_update st s) now).1
      now).last_rain_mm = st.last_rain_mm := (rollover_frame (telemetry_update st s) now).1
  rw [if_pos (show (coverage_update (rollover_if_needed (telemetry_update st s) now).1
      now).last_rain_mm = (0 : ℚ) by rw [hlr]; exact hseed)]
  exact ⟨(rollover_frame (telemetry_update st s) now).2.2.1,
    (rollover_frame (telemetry_update st s) now).2.2.2.2.1, rfl, rfl⟩

/-! ### The 61-minute rain simulation for C3: a seeding sample at t = 1000,
then one 1 mm reading increment per minute from t = 1060 to t = 4720. -/

/-- Simulation start: fresh state, first (seeding) sample of 1 mm at t = 1000. -/
def scen0 : WeatherStateV2 :=
  (process_ws90_json_locked (init_state_defaults 1000) { rain_mm := some 1 } 1000).state

/-- Simulation state after the rain sample at t = 1060. -/
def scen1 : WeatherStateV2 :=
  (process_ws90_json_locked scen0 { rain_mm := some 2 } 1060).state

/-- Simulation state after the rain sample at t = 1120. -/
def scen2 : WeatherStateV2 :=
  (process_ws90_json_locked scen1 { rain_mm := some 3 } 1120).state

/-- Simulation state after the rain sample at t = 1180. -/
def scen3 : WeatherStateV2 :=
  (process_ws90_json_locked scen2 { rain_mm := some 4 } 1180).state

/-- Simulation state after the rain sample at t = 1240. -/
def scen4 : WeatherStateV2 :=
  (process_ws90_json_locked scen3 { rain_mm := some 5 } 1240).state

/-- Simulation state after the rain sample at t = 1300. -/
def scen5 : WeatherStateV2 :=
  (process_ws90_json_locked scen4 { rain_mm := some 6 } 1300).state

/-- Simulation state after the rain sample at t = 1360. -/
def scen6 : WeatherStateV2 :=
  (process_ws90_json_locked scen5 { rain_mm := some 7 } 1360).state

/-- Simulation state after the rain sample at t = 1420. -/
def scen7 : WeatherStateV2 :=
  (process_ws90_json_locked scen6 { rain_mm := some 8 } 1420).state

/-- Simulation state after the rain sample at t = 1480. -/
def scen8 : WeatherStateV2 :=
  (process_ws90_json_locked scen7 { rain_mm := some 9 } 1480).state

/-- Simulation state after the rain sample at t = 1540. -/
def scen9 : WeatherStateV2 :=
  (process_ws90_json_locked scen8 { rain_mm := some 10 } 1540).state

/-- Simulation state after the rain sample at t = 1600. -/
def scen10 : WeatherStateV2 :=
  (process_ws90_json_locked scen9 { rain_mm := some 11 } 1600).state

/-- Simulation state after the rain sample at t = 1660. -/
def scen11 : WeatherStateV2 :=
  (process_ws90_json_locked scen10 { rain_mm := some 12 } 1660).state

/-- Simulation state after the rain sample at t = 1720. -/
def scen12 : WeatherStateV2 :=
  (process_ws90_json_locked scen11 { rain_mm := some 13 } 1720).state

/-- Simulation state after the rain sample at t = 1780. -/
def scen13 : WeatherStateV2 :=
  (process_ws90_json_locked scen12 { rain_mm := some 14 } 1780).state

/-- Simulation state after the rain sample at t = 1840. -/
def scen14 : WeatherStateV2 :=
  (process_ws90_json_locked scen13 { rain_mm := some 15 } 1840).state

/-- Simulation state after the rain sample at t = 1900. -/
def scen15 : WeatherStateV2 :=
  (process_ws90_json_locked scen14 { rain_mm := some 16 } 1900).state

/-- Simulation state after the rain sample at t = 1960. -/
def scen16 : WeatherStateV2 :=
  (process_ws90_json_locked scen15 { rain_mm := some 17 } 1960).state

/-- Simulation state after the rain sample at t = 2020. -/
def scen17 : WeatherStateV2 :=
  (process_ws90_json_locked scen16 { rain_mm := some 18 } 2020).state

/-- Simulation state after the rain sample at t = 2080. -/
def scen18 : WeatherStateV2 :=
  (process_ws90_json_locked scen17 { rain_mm := some 19 } 2080).state

/-- Simulation state after the rain sample at t = 2140. -/
def scen19 : WeatherStateV2 :=
  (process_ws90_json_locked scen18 { rain_mm := some 20 } 2140).state

/-- Simulation state after the rain sample at t = 2200. -/
def scen20 : WeatherStateV2 :=
  (process_ws90_json_locked scen19 { rain_mm := some 21 } 2200).state

/-- Simulation state after the rain sample at t = 2260. -/
def scen21 : WeatherStateV2 :=
  (process_ws90_json_locked scen20 { rain_mm := some 22 } 2260).state

/-- Simulation state after the rain sample at t = 2320. -/
def scen22 : WeatherStateV2 :=
  (process_ws90_json_locked scen21 { rain_mm := some 23 } 2320).state

/-- Simulation state after the rain sample at t = 2380. -/
def scen23 : WeatherStateV2 :=
  (process_ws90_json_locked scen22 { rain_mm := some 24 } 2380).state

/-- Simulation state after the rain sample at t = 2440. -/
def scen24 : WeatherStateV2 :=
  (process_ws90_json_locked scen23 { rain_mm := some 25 } 2440).state

/-- Simulation state after the rain sample at t = 2500. -/
def scen25 : WeatherStateV2 :=
  (process_ws90_json_locked scen24 { rain_mm := some 26 } 2500).state

/-- Simulation state after the rain sample at t = 2560. -/
def scen26 : WeatherStateV2 :=
  (process_ws90_json_locked scen25 { rain_mm := some 27 } 2560).state

/-- Simulation state after the rain sample at t = 2620. -/
def scen27 : WeatherStateV2 :=
  (process_ws90_json_locked scen26 { rain_mm := some 28 } 2620).state

/-- Simulation state after the rain sample at t = 2680. -/
def scen28 : WeatherStateV2 :=
  (process_ws90_json_locked scen27 { rain_mm := some 29 } 2680).state

/-- Simulation state after the rain sample at t = 2740. -/
def scen29 : WeatherStateV2 :=
  (process_ws90_json_locked scen28 { rain_mm := some 30 } 2740).state

/-- Simulation state after the rain sample at t = 2800. -/
def scen30 : WeatherStateV2 :=
  (process_ws90_json_locked scen29 { rain_mm := some 31 } 2800).state

/-- Simulation state after the rain sample at t = 2860. -/
def scen31 : WeatherStateV2 :=
  (process_ws90_json_locked scen30 { rain_mm := some 32 } 2860).state

/-- Simulation state after the rain sample at t = 2920. -/
def scen32 : WeatherStateV2 :=
  (process_ws90_json_locked scen31 { rain_mm := some 33 } 2920).state

/-- Simulation state after the rain sample at t = 2980. -/
def scen33 : WeatherStateV2 :=
  (process_ws90_json_locked scen32 { rain_mm := some 34 } 2980).state

/-- Simulation state after the rain sample at t = 3040. -/
def scen34 : WeatherStateV2 :=
  (process_ws90_json_locked scen33 { rain_mm := some 35 } 3040).state

/-- Simulation state after the rain sample at t = 3100. -/
def scen35 : WeatherStateV2 :=
  (process_ws90_json_locked scen34 { rain_mm := some 36 } 3100).state

/-- Simulation state after the rain sample at t = 3160. -/
def scen36 : WeatherStateV2 :=
  (process_ws90_json_locked scen35 { rain_mm := some 37 } 3160).state

/-- Simulation state after the rain sample at t = 3220. -/
def scen37 : WeatherStateV2 :=
  (process_ws90_json_locked scen36 { rain_mm := some 38 } 3220).state

/-- Simulation state after the rain sample at t = 3280. -/
def scen38 : WeatherStateV2 :=
  (process_ws90_json_locked scen37 { rain_mm := some 39 } 3280).state

/-- Simulation state after the rain sample at t = 3340. -/
def scen39 : WeatherStateV2 :=
  (process_ws90_json_locked scen38 { rain_mm := some 40 } 3340).state

/-- Simulation state after the rain sample at t = 3400. -/
def scen40 : WeatherStateV2 :=
  (process_ws90_json_locked scen39 { rain_mm := some 41 } 3400).state

/-- Simulation state after the rain sample at t = 3460. -/
def scen41 : WeatherStateV2 :=
  (process_ws90_json_locked scen40 { rain_mm := some 42 } 3460).state

/-- Simulation state after the rain sample at t = 3520. -/
def scen42 : WeatherStateV2 :=
  (process_ws90_json_locked scen41 { rain_mm := some 43 } 3520).state

/-- Simulation state after the rain sample at t = 3580. -/
def scen43 : WeatherStateV2 :=
  (process_ws90_json_locked scen42 { rain_mm := some 44 } 3580).state

/-- Simulation state after the rain sample at t = 3640. -/
def scen44 : WeatherStateV2 :=
  (process_ws90_json_locked scen43 { rain_mm := some 45 } 3640).state

/-- Simulation state after the rain sample at t = 3700. -/
def scen45 : WeatherStateV2 :=
  (process_ws90_json_locked scen44 { rain_mm := some 46 } 3700).state

/-- Simulation state after the rain sample at t = 3760. -/
def scen46 : WeatherStateV2 :=
  (process_ws90_json_locked scen45 { rain_mm := some 47 } 3760).state

/-- Simulation state after the rain sample at t = 3820. -/
def scen47 : WeatherStateV2 :=
  (process_ws90_json_locked scen46 { rain_mm := some 48 } 3820).state

/-- Simulation state after the rain sample at t = 3880. -/
def scen48 : WeatherStateV2 :=
  (process_ws90_json_locked scen47 { rain_mm := some 49 } 3880).state

/-- Simulation state after the rain sample at t = 3940. -/
def scen49 : WeatherStateV2 :=
  (process_ws90_json_locked scen48 { rain_mm := some 50 } 3940).state

/-- Simulation state after the rain sample at t = 4000. -/
def scen50 : WeatherStateV2 :=
  (process_ws90_json_locked scen49 { rain_mm := some 51 } 4000).state

/-- Simulation state after the rain sample at t = 4060. -/
def scen51 : WeatherStateV2 :=
  (process_ws90_json_locked scen50 { rain_mm := some 52 } 4060).state

/-- Simulation state after the rain sample at t = 4120. -/
def scen52 : WeatherStateV2 :=
  (process_ws90_json_locked scen51 { rain_mm := some 53 } 4120).state

/-- Simulation state after the rain sample at t = 4180. -/
def scen53 : WeatherStateV2 :=
  (process_ws90_json_locked scen52 { rain_mm := some 54 } 4180).state

/-- Simulation state after the rain sample at t = 4240. -/
def scen54 : WeatherStateV2 :=
  (process_ws90_json_locked scen53 { rain_mm := some 55 } 4240).state

/-- Simulation state after the rain sample at t = 4300. -/
def scen55 : WeatherStateV2 :=
  (process_ws90_json_locked scen54 { rain_mm := some 56 } 4300).state

/-- Simulation state after the rain sample at t = 4360. -/
def scen56 : WeatherStateV2 :=
  (process_ws90_json_locked scen55 { rain_mm := some 57 } 4360).state

/-- Simulation state after the rain sample at t = 4420. -/
def scen57 : WeatherStateV2 :=
  (process_ws90_json_locked scen56 { rain_mm := some 58 } 4420).state

/-- Simulation state after the rain sample at t = 4480. -/
def scen58 : WeatherStateV2 :=
  (process_ws90_json_locked scen57 { rain_mm := some 59 } 4480).state

/-- Simulation state after the rain sample at t = 4540. -/
def scen59 : WeatherStateV2 :=
  (process_ws90_json_locked scen58 { rain_mm := some 60 } 4540).state

/-- Simulation state after the rain sample at t = 4600. -/
def scen60 : WeatherStateV2 :=
  (process_ws90_json_locked scen59 { rain_mm := some 61 } 4600).state

/-- Simulation state after the rain sample at t = 4660. -/
def scen61 : WeatherStateV2 :=
  (process_ws90_json_locked scen60 { rain_mm := some 62 } 4660).state

/-- Simulation state after the rain sample at t = 4720. -/
def scen62 : WeatherStateV2 :=
  (process_ws90_json_locked scen61 { rain_mm := some 63 } 4720).state

set_option maxHeartbeats 4000000 in
/-- After the full 61-minute simulation the window holds the 61 deltas of
the most recent hour — the t = 1060 delta has been evicted — and `hourly_in`
is their sum. -/
theorem scen62_window :
    scen62.deltas = [⟨1120, inches_from_mm 1⟩, ⟨1180, inches_from_mm 1⟩, ⟨1240, inches_from_mm 1⟩, ⟨1300, inches_from_mm 1⟩, ⟨1360, inches_from_mm 1⟩, ⟨1420, inches_from_mm 1⟩, ⟨1480, inches_from_mm 1⟩, ⟨1540, inches_from_mm 1⟩, ⟨1600, inches_from_mm 1⟩, ⟨1660, inches_from_mm 1⟩, ⟨1720, inches_from_mm 1⟩, ⟨1780, inches_from_mm 1⟩, ⟨1840, inches_from_mm 1⟩, ⟨1900, inches_from_mm 1⟩, ⟨1960, inches_from_mm 1⟩, ⟨2020, inches_from_mm 1⟩, ⟨2080, inches_from_mm 1⟩, ⟨2140, inches_from_mm 1⟩, ⟨2200, inches_from_mm 1⟩, ⟨2260, inches_from_mm 1⟩, ⟨2320, inches_from_mm 1⟩, ⟨2380, inches_from_mm 1⟩, ⟨2440, inches_from_mm 1⟩, ⟨2500, inches_from_mm 1⟩, ⟨2560, inches_from_mm 1⟩, ⟨2620, inches_from_mm 1⟩, ⟨2680, inches_from_mm 1⟩, ⟨2740, inches_from_mm 1⟩, ⟨2800, inches_from_mm 1⟩, ⟨2860, inches_from_mm 1⟩, ⟨2920, inches_from_mm 1⟩, ⟨2980, inches_from_mm 1⟩, ⟨3040, inches_from_mm 1⟩, ⟨3100, inches_from_mm 1⟩, ⟨3160, inches_from_mm 1⟩, ⟨3220, inches_from_mm 1⟩, ⟨3280, inches_from_mm 1⟩, ⟨3340, inches_from_mm 1⟩, ⟨3400, inches_from_mm 1⟩, ⟨3460, inches_from_mm 1⟩, ⟨3520, inches_from_mm 1⟩, ⟨3580, inches_from_mm 1⟩, ⟨3640, inches_from_mm 1⟩, ⟨3700, inches_from_mm 1⟩, ⟨3760, inches_from_mm 1⟩, ⟨3820, inches_from_mm 1⟩, ⟨3880, inches_from_mm 1⟩, ⟨3940, inches_from_mm 1⟩, ⟨4000, inches_from_mm 1⟩, ⟨4060, inches_from_mm 1⟩, ⟨4120, inches_from_mm 1⟩, ⟨4180, inches_from_mm 1⟩, ⟨4240, inches_from_mm 1⟩, ⟨4300, inches_from_mm 1⟩, ⟨4360, inches_from_mm 1⟩, ⟨4420, inches_from_mm 1⟩, ⟨4480, inches_from_mm 1⟩, ⟨4540, inches_from_mm 1⟩, ⟨4600, inches_from_mm 1⟩, ⟨4660, inches_from_mm 1⟩, ⟨4720, inches_from_mm 1⟩] ∧
    scen62.rain_hourly_in = 61 * inches_from_mm 1 ∧
    scen62.last_update = 4720 := by
  have g0 : scen0.deltas = ([] : List RainDelta) ∧ scen0.last_rain_mm = 1 := by
    have h := process_seed_window (init_state_defaults 1000) { rain_mm := some 1 }
      1000 1 rfl (by norm_num) rfl
    constructor
    · unfold scen0
      rw [h.1]
      all_goals rfl
    · unfold scen0
      rw [h.2.2.1]
  have g1 : scen1.deltas = [⟨1060, inches_from_mm 1⟩] ∧ scen1.last_rain_mm = 2 := by
    have h := process_accept_window scen0 { rain_mm := some 2 } 1060 2 rfl
      (by norm_num) (by rw [g0.2]; norm_num) (by rw [g0.2]; norm_num)
    constructor
    · unfold scen1
      rw [h.1, g0.1, g0.2, show ((2 : ℚ) - 1) = 1 by norm_num,
        hourly_scan_all_in _ _ (by decide)]
      all_goals rfl
    · unfold scen1
      rw [h.2.2.1]
  have g2 : scen2.deltas = [⟨1060, inches_from_mm 1⟩, ⟨1120, inches_from_mm 1⟩] ∧ scen2.last_rain_mm = 3 := by
    have h := process_accept_window scen1 { rain_mm := some 3 } 1120 3 rfl
      (by norm_num) (by rw [g1.2]; norm_num) (by rw [g1.2]; norm_num)
    constructor
    · unfold scen2
      rw [h.1, g1.1, g1.2, show ((3 : ℚ) - 2) = 1 by norm_num,
        hourly_scan_all_in _ _ (by decide)]
      all_goals rfl
    · unfold scen2
      rw [h.2.2.1]
  have g3 : scen3.deltas = [⟨1060, inches_from_mm 1⟩, ⟨1120, inches_from_mm 1⟩, ⟨1180, inches_from_mm 1⟩] ∧ scen3.last_rain_mm = 4 := by
    have h := process_accept_window scen2 { rain_mm := some 4 } 1180 4 rfl
      (by norm_num) (by rw [g2.2]; norm_num) (by rw [g2.2]; norm_num)
    constructor
    · unfold scen3
      rw [h.1, g2.1, g2.2, show ((4 : ℚ) - 3) = 1 by norm_num,
        hourly_scan_all_in _ _ (by decide)]
      all_goals rfl
    · unfold scen3
      rw [h.2.2.1]
  have g4 : scen4.deltas = [⟨1060, inches_from_mm 1⟩, ⟨1120, inches_from_mm 1⟩, ⟨1180, inches_from_mm 1⟩, ⟨1240, inches_from_mm 1⟩] ∧ scen4.last_rain_mm = 5 := by
    have h := process_accept_window scen3 { rain_mm := some 5 } 1240 5 rfl
      (by norm_num) (by rw [g3.2]; norm_num) (by rw [g3.2]; norm_num)
    constructor
    · unfold scen4
      rw [h.1, g3.1, g3.2, show ((5 : ℚ) - 4) = 1 by norm_num,
        hourly_scan_all_in _ _ (by decide)]
      all_goals rfl
    · unfold scen4
      rw [h.2.2.1]
  have g5 : scen5.deltas = [⟨1060, inches_from_mm 1⟩, ⟨1120, inches_from_mm 1⟩, ⟨1180, inches_from_mm 1⟩, ⟨1240, inches_from_mm 1⟩, ⟨1300, inches_from_mm 1⟩] ∧ scen5.last_rain_mm = 6 := by
    have h := process_accept_window scen4 { rain_mm := some 6 } 1300 6 rfl
      (by norm_num) (by rw [g4.2]; norm_num) (by rw [g4.2]; norm_num)
    constructor
    · unfold scen5
      rw [h.1, g4.1, g4.2, show ((6 : ℚ) - 5) = 1 by norm_num,
        hourly_scan_all_in _ _ (by decide)]
      all_goals rfl
    · unfold scen5
      rw [h.2.2.1]
  have g6 : scen6.deltas = [⟨1060, inches_from_mm 1⟩, ⟨1120, inches_from_mm 1⟩, ⟨1180, inches_from_mm 1⟩, ⟨1240, inches_from_mm 1⟩, ⟨1300, inches_from_mm 1⟩, ⟨1360, inches_from_mm 1⟩] ∧ scen6.last_rain_mm = 7 := by
    have h := process_accept_window scen5 { rain_mm := some 7 } 1360 7 rfl
      (by norm_num) (by rw [g5.2]; norm_num) (by rw [g5.2]; norm_num)
    constructor
    · unfold scen6
      rw [h.1, g5.1, g5.2, show ((7 : ℚ) - 6) = 1 by norm_num,
        hourly_scan_all_in _ _ (by decide)]
      all_goals rfl
    · unfold scen6
      rw [h.2.2.1]
  have g7 : scen7.deltas = [⟨1060, inches_from_mm 1⟩, ⟨1120, inches_from_mm 1⟩, ⟨1180, inches_from_mm 1⟩, ⟨1240, inches_from_mm 1⟩, ⟨1300, inches_from_mm 1⟩, ⟨1360, inches_from_mm 1⟩, ⟨1420, inches_from_mm 1⟩] ∧ scen7.last_rain_mm = 8 := by
    have h := process_accept_window scen6 { rain_mm := some 8 } 1420 8 rfl
      (by norm_num) (by rw [g6.2]; norm_num) (by rw [g6.2]; norm_num)
    constructor
    · unfold scen7
      rw [h.1, g6.1, g6.2, show ((8 : ℚ) - 7) = 1 by norm_num,
        hourly_scan_all_in _ _ (by decide)]
      all_goals rfl
    · unfold scen7
      rw [h.2.2.1]
  have g8 : scen8.deltas = [⟨1060, inches_from_mm 1⟩, ⟨1120, inches_from_mm 1⟩, ⟨1180, inches_from_mm 1⟩, ⟨1240, inches_from_mm 1⟩, ⟨1300, inches_from_mm 1⟩, ⟨1360, inches_from_mm 1⟩, ⟨1420, inches_from_mm 1⟩, ⟨1480, inches_from_mm 1⟩] ∧ scen8.last_rain_mm = 9 := by
    have h := process_accept_window scen7 { rain_mm := some 9 } 1480 9 rfl
      (by norm_num) (by rw [g7.2]; norm_num) (by rw [g7.2]; norm_num)
    constructor
    · unfold scen8
      rw [h.1, g7.1, g7.2, show ((9 : ℚ) - 8) = 1 by norm_num,
        hourly_scan_all_in _ _ (by decide)]
      all_goals rfl
    · unfold scen8
      rw [h.2.2.1]
  have g9 : scen9.deltas = [⟨1060, inches_from_mm 1⟩, ⟨1120, inches_from_mm 1⟩, ⟨1180, inches_from_mm 1⟩, ⟨1240, inches_from_mm 1⟩, ⟨1300, inches_from_mm 1⟩, ⟨1360, inches_from_mm 1⟩, ⟨1420, inches_from_mm 1⟩, ⟨1480, inches_from_mm 1⟩, ⟨1540, inches_from_mm 1⟩] ∧ scen9.last_rain_mm = 10 := by
    have h := process_accept_window scen8 { rain_mm := some 10 } 1540 10 rfl
      (by norm_num) (by rw [g8.2]; norm_num) (by rw [g8.2]; norm_num)
    constructor
    · unfold scen9
      rw [h.1, g8.1, g8.2, show ((10 : ℚ) - 9) = 1 by norm_num,
        hourly_scan_all_in _ _ (by decide)]
      all_goals rfl
    · unfold scen9
      rw [h.2.2.1]
  have g10 : scen10.deltas = [⟨1060, inches_from_mm 1⟩, ⟨1120, inches_from_mm 1⟩, ⟨1180, inches_from_mm 1⟩, ⟨1240, inches_from_mm 1⟩, ⟨1300, inches_from_mm 1⟩, ⟨1360, inches_from_mm 1⟩, ⟨1420, inches_from_mm 1⟩, ⟨1480, inches_from_mm 1⟩, ⟨1540, inches_from_mm 1⟩, ⟨1600, inches_from_mm 1⟩] ∧ scen10.last_rain_mm = 11 := by
    have h := process_accept_window scen9 { rain_mm := some 11 } 1600 11 rfl
      (by norm_num) (by rw [g9.2]; norm_num) (by rw [g9.2]; norm_num)
    constructor
    · unfold scen10
      rw [h.1, g9.1, g9.2, show ((11 : ℚ) - 10) = 1 by norm_num,
        hourly_scan_all_in _ _ (by decide)]
      all_goals rfl
    · unfold scen10
      rw [h.2.2.1]
  have g11 : scen11.deltas = [⟨1060, inches_from_mm 1⟩, ⟨1120, inches_from_mm 1⟩, ⟨1180, inches_from_mm 1⟩, ⟨1240, inches_from_mm 1⟩, ⟨1300, inches_from_mm 1⟩, ⟨1360, inches_from_mm 1⟩, ⟨1420, inches_from_mm 1⟩, ⟨1480, inches_from_mm 1⟩, ⟨1540, inches_from_mm 1⟩, ⟨1600, inches_from_mm 1⟩, ⟨1660, inches_from_mm 1⟩] ∧ scen11.last_rain_mm = 12 := by
    have h := process_accept_window scen10 { rain_mm := some 12 } 1660 12 rfl
      (by norm_num) (by rw [g10.2]; norm_num) (by rw [g10.2]; norm_num)
    constructor
    · unfold scen11
      rw [h.1, g10.1, g10.2, show ((12 : ℚ) - 11) = 1 by norm_num,
        hourly_scan_all_in _ _ (by decide)]
      all_goals rfl
    · unfold scen11
      rw [h.2.2.1]
  have g12 : scen12.deltas = [⟨1060, inches_from_mm 1⟩, ⟨1120, inches_from_mm 1⟩, ⟨1180, inches_from_mm 1⟩, ⟨1240, inches_from_mm 1⟩, ⟨1300, inches_from_mm 1⟩, ⟨1360, inches_from_mm 1⟩, ⟨1420, inches_from_mm 1⟩, ⟨1480, inches_from_mm 1⟩, ⟨1540, inches_from_mm 1⟩, ⟨1600, inches_from_mm 1⟩, ⟨1660, inches_from_mm 1⟩, ⟨1720, inches_from_mm 1⟩] ∧ scen12.last_rain_mm = 13 := by
    have h := process_accept_window scen11 { rain_mm := some 13 } 1720 13 rfl
      (by norm_num) (by rw [g11.2]; norm_num) (by rw [g11.2]; norm_num)
    constructor
    · unfold scen12
      rw [h.1, g11.1, g11.2, show ((13 : ℚ) - 12) = 1 by norm_num,
        hourly_scan_all_in _ _ (by decide)]
      all_goals rfl
    · unfold scen12
      rw [h.2.2.1]
  have g13 : scen13.deltas = [⟨1060, inches_from_mm 1⟩, ⟨1120, inches_from_mm 1⟩, ⟨1180, inches_from_mm 1⟩, ⟨1240, inches_from_mm 1⟩, ⟨1300, inches_from_mm 1⟩, ⟨1360, inches_from_mm 1⟩, ⟨1420, inches_from_mm 1⟩, ⟨1480, inches_from_mm 1⟩, ⟨1540, inches_from_mm 1⟩, ⟨1600, inches_from_mm 1⟩, ⟨1660, inches_from_mm 1⟩, ⟨1720, inches_from_mm 1⟩, ⟨1780, inches_from_mm 1⟩] ∧ scen13.last_rain_mm = 14 := by
    have h := process_accept_window scen12 { rain_mm := some 14 } 1780 14 rfl
      (by norm_num) (by rw [g12.2]; norm_num) (by rw [g12.2]; norm_num)
    constructor
    · unfold scen13
      rw [h.1, g12.1, g12.2, show ((14 : ℚ) - 13) = 1 by norm_num,
        hourly_scan_all_in _ _ (by decide)]
      all_goals rfl
    · unfold scen13
      rw [h.2.2.1]
  have g14 : scen14.deltas = [⟨1060, inches_from_mm 1⟩, ⟨1120, inches_from_mm 1⟩, ⟨1180, inches_from_mm 1⟩, ⟨1240, inches_from_mm 1⟩, ⟨1300, inches_from_mm 1⟩, ⟨1360, inches_from_mm 1⟩, ⟨1420, inches_from_mm 1⟩, ⟨1480, inches_from_mm 1⟩, ⟨1540, inches_from_mm 1⟩, ⟨1600, inches_from_mm 1⟩, ⟨1660, inches_from_mm 1⟩, ⟨1720, inches_from_mm 1⟩, ⟨1780, inches_from_mm 1⟩, ⟨1840, inches_from_mm 1⟩] ∧ scen14.last_rain_mm = 15 := by
    have h := process_accept_window scen13 { rain_mm := some 15 } 1840 15 rfl
      (by norm_num) (by rw [g13.2]; norm_num) (by rw [g13.2]; norm_num)
    constructor
    · unfold scen14
      rw [h.1, g13.1, g13.2, show ((15 : ℚ) - 14) = 1 by norm_num,
        hourly_scan_all_in _ _ (by decide)]
      all_goals rfl
    · unfold scen14
      rw [h.2.2.1]
  have g15 : scen15.deltas = [⟨1060, inches_from_mm 1⟩, ⟨1120, inches_from_mm 1⟩, ⟨1180, inches_from_mm 1⟩, ⟨1240, inches_from_mm 1⟩, ⟨1300, inches_from_mm 1⟩, ⟨1360, inches_from_mm 1⟩, ⟨1420, inches_from_mm 1⟩, ⟨1480, inches_from_mm 1⟩, ⟨1540, inches_from_mm 1⟩, ⟨1600, inches_from_mm 1⟩, ⟨1660, inches_from_mm 1⟩, ⟨1720, inches_from_mm 1⟩, ⟨1780, inches_from_mm 1⟩, ⟨1840, inches_from_mm 1⟩, ⟨1900, inches_from_mm 1⟩] ∧ scen15.last_rain_mm = 16 := by
    have h := process_accept_window scen14 { rain_mm := some 16 } 1900 16 rfl
      (by norm_num) (by rw [g14.2]; norm_num) (by rw [g14.2]; norm_num)
    constructor
    · unfold scen15
      rw [h.1, g14.1, g14.2, show ((16 : ℚ) - 15) = 1 by norm_num,
        hourly_scan_all_in _ _ (by decide)]
      all_goals rfl
    · unfold scen15
      rw [h.2.2.1]
  have g16 : scen16.deltas = [⟨1060, inches_from_mm 1⟩, ⟨1120, inches_from_mm 1⟩, ⟨1180, inches_from_mm 1⟩, ⟨1240, inches_from_mm 1⟩, ⟨1300, inches_from_mm 1⟩, ⟨1360, inches_from_mm 1⟩, ⟨1420, inches_from_mm 1⟩, ⟨1480, inches_from_mm 1⟩, ⟨1540, inches_from_mm 1⟩, ⟨1600, inches_from_mm 1⟩, ⟨1660, inches_from_mm 1⟩, ⟨1720, inches_from_mm 1⟩, ⟨1780, inches_from_mm 1⟩, ⟨1840, inches_from_mm 1⟩, ⟨1900, inches_from_mm 1⟩, ⟨1960, inches_from_mm 1⟩] ∧ scen16.last_rain_mm = 17 := by
    have h := process_accept_window scen15 { rain_mm := some 17 } 1960 17 rfl
      (by norm_num) (by rw [g15.2]; norm_num) (by rw [g15.2]; norm_num)
    constructor
    · unfold scen16
      rw [h.1, g15.1, g15.2, show ((17 : ℚ) - 16) = 1 by norm_num,
        hourly_scan_all_in _ _ (by decide)]
      all_goals rfl
    · unfold scen16
      rw [h.2.2.1]
  have g17 : scen17.deltas = [⟨1060, inches_from_mm 1⟩, ⟨1120, inches_from_mm 1⟩, ⟨1180, inches_from_mm 1⟩, ⟨1240, inches_from_mm 1⟩, ⟨1300, inches_from_mm 1⟩, ⟨1360, inches_from_mm 1⟩, ⟨1420, inches_from_mm 1⟩, ⟨1480, inches_from_mm 1⟩, ⟨1540, inches_from_mm 1⟩, ⟨1600, inches_from_mm 1⟩, ⟨1660, inches_from_mm 1⟩, ⟨1720, inches_from_mm 1⟩, ⟨1780, inches_from_mm 1⟩, ⟨1840, inches_from_mm 1⟩, ⟨1900, inches_from_mm 1⟩, ⟨1960, inches_from_mm 1⟩, ⟨2020, inches_from_mm 1⟩] ∧ scen17.last_rain_mm = 18 := by
    have h := process_accept_window scen16 { rain_mm := some 18 } 2020 18 rfl
      (by norm_num) (by rw [g16.2]; norm_num) (by rw [g16.2]; norm_num)
    constructor
    · unfold scen17
      rw [h.1, g16.1, g16.2, show ((18 : ℚ) - 17) = 1 by norm_num,
        hourly_scan_all_in _ _ (by decide)]
      all_goals rfl
    · unfold scen17
      rw [h.2.2.1]
  have g18 : scen18.deltas = [⟨1060, inches_from_mm 1⟩, ⟨1120, inches_from_mm 1⟩, ⟨1180, inches_from_mm 1⟩, ⟨1240, inches_from_mm 1⟩, ⟨1300, inches_from_mm 1⟩, ⟨1360, inches_from_mm 1⟩, ⟨1420, inches_from_mm 1⟩, ⟨1480, inches_from_mm 1⟩, ⟨1540, inches_from_mm 1⟩, ⟨1600, inches_from_mm 1⟩, ⟨1660, inches_from_mm 1⟩, ⟨1720, inches_from_mm 1⟩, ⟨1780, inches_from_mm 1⟩, ⟨1840, inches_from_mm 1⟩, ⟨1900, inches_from_mm 1⟩, ⟨1960, inches_from_mm 1⟩, ⟨2020, inches_from_mm 1⟩, ⟨2080, inches_from_mm 1⟩] ∧ scen18.last_rain_mm = 19 := by
    have h := process_accept_window scen17 { rain_mm := some 19 } 2080 19 rfl
      (by norm_num) (by rw [g17.2]; norm_num) (by rw [g17.2]; norm_num)
    constructor
    · unfold scen18
      rw [h.1, g17.1, g17.2, show ((19 : ℚ) - 18) = 1 by norm_num,
        hourly_scan_all_in _ _ (by decide)]
      all_goals rfl
    · unfold scen18
      rw [h.2.2.1]
  have g19 : scen19.deltas = [⟨1060, inches_from_mm 1⟩, ⟨1120, inches_from_mm 1⟩, ⟨1180, inches_from_mm 1⟩, ⟨1240, inches_from_mm 1⟩, ⟨1300, inches_from_mm 1⟩, ⟨1360, inches_from_mm 1⟩, ⟨1420, inches_from_mm 1⟩, ⟨1480, inches_from_mm 1⟩, ⟨1540, inches_from_mm 1⟩, ⟨1600, inches_from_mm 1⟩, ⟨1660, inches_from_mm 1⟩, ⟨1720, inches_from_mm 1⟩, ⟨1780, inches_from_mm 1⟩, ⟨1840, inches_from_mm 1⟩, ⟨1900, inches_from_mm 1⟩, ⟨1960, inches_from_mm 1⟩, ⟨2020, inches_from_mm 1⟩, ⟨2080, inches_from_mm 1⟩, ⟨2140, inches_from_mm 1⟩] ∧ scen19.last_rain_mm = 20 := by
    have h := process_accept_window scen18 { rain_mm := some 20 } 2140 20 rfl
      (by norm_num) (by rw [g18.2]; norm_num) (by rw [g18.2]; norm_num)
    constructor
    · unfold scen19
      rw [h.1, g18.1, g18.2, show ((20 : ℚ) - 19) = 1 by norm_num,
        hourly_scan_all_in _ _ (by decide)]
      all_goals rfl
    · unfold scen19
      rw [h.2.2.1]
  have g20 : scen20.deltas = [⟨1060, inches_from_mm 1⟩, ⟨1120, inches_from_mm 1⟩, ⟨1180, inches_from_mm 1⟩, ⟨1240, inches_from_mm 1⟩, ⟨1300, inches_from_mm 1⟩, ⟨1360, inches_from_mm 1⟩, ⟨1420, inches_from_mm 1⟩, ⟨1480, inches_from_mm 1⟩, ⟨1540, inches_from_mm 1⟩, ⟨1600, inches_from_mm 1⟩, ⟨1660, inches_from_mm 1⟩, ⟨1720, inches_from_mm 1⟩, ⟨1780, inches_from_mm 1⟩, ⟨1840, inches_from_mm 1⟩, ⟨1900, inches_from_mm 1⟩, ⟨1960, inches_from_mm 1⟩, ⟨2020, inches_from_mm 1⟩, ⟨2080, inches_from_mm 1⟩, ⟨2140, inches_from_mm 1⟩, ⟨2200, inches_from_mm 1⟩] ∧ scen20.last_rain_mm = 21 := by
    have h := process_accept_window scen19 { rain_mm := some 21 } 2200 21 rfl
      (by norm_num) (by rw [g19.2]; norm_num) (by rw [g19.2]; norm_num)
    constructor
    · unfold scen20
      rw [h.1, g19.1, g19.2, show ((21 : ℚ) - 20) = 1 by norm_num,
        hourly_scan_all_in _ _ (by decide)]
      all_goals rfl
    · unfold scen20
      rw [h.2.2.1]
  have g21 : scen21.deltas = [⟨1060, inches_from_mm 1⟩, ⟨1120, inches_from_mm 1⟩, ⟨1180, inches_from_mm 1⟩, ⟨1240, inches_from_mm 1⟩, ⟨1300, inches_from_mm 1⟩, ⟨1360, inches_from_mm 1⟩, ⟨1420, inches_from_mm 1⟩, ⟨1480, inches_from_mm 1⟩, ⟨1540, inches_from_mm 1⟩, ⟨1600, inches_from_mm 1⟩, ⟨1660, inches_from_mm 1⟩, ⟨1720, inches_from_mm 1⟩, ⟨1780, inches_from_mm 1⟩, ⟨1840, inches_from_mm 1⟩, ⟨1900, inches_from_mm 1⟩, ⟨1960, inches_from_mm 1⟩, ⟨2020, inches_from_mm 1⟩, ⟨2080, inches_from_mm 1⟩, ⟨2140, inches_from_mm 1⟩, ⟨2200, inches_from_mm 1⟩, ⟨2260, inches_from_mm 1⟩] ∧ scen21.last_rain_mm = 22 := by
    have h := process_accept_window scen20 { rain_mm := some 22 } 2260 22 rfl
      (by norm_num) (by rw [g20.2]; norm_num) (by rw [g20.2]; norm_num)
    constructor
    · unfold scen21
      rw [h.1, g20.1, g20.2, show ((22 : ℚ) - 21) = 1 by norm_num,
        hourly_scan_all_in _ _ (by decide)]
      all_goals rfl
    · unfold scen21
      rw [h.2.2.1]
  have g22 : scen22.deltas = [⟨1060, inches_from_mm 1⟩, ⟨1120, inches_from_mm 1⟩, ⟨1180, inches_from_mm 1⟩, ⟨1240, inches_from_mm 1⟩, ⟨1300, inches_from_mm 1⟩, ⟨1360, inches_from_mm 1⟩, ⟨1420, inches_from_mm 1⟩, ⟨1480, inches_from_mm 1⟩, ⟨1540, inches_from_mm 1⟩, ⟨1600, inches_from_mm 1⟩, ⟨1660, inches_from_mm 1⟩, ⟨1720, inches_from_mm 1⟩, ⟨1780, inches_from_mm 1⟩, ⟨1840, inches_from_mm 1⟩, ⟨1900, inches_from_mm 1⟩, ⟨1960, inches_from_mm 1⟩, ⟨2020, inches_from_mm 1⟩, ⟨2080, inches_from_mm 1⟩, ⟨2140, inches_from_mm 1⟩, ⟨2200, inches_from_mm 1⟩, ⟨2260, inches_from_mm 1⟩, ⟨2320, inches_from_mm 1⟩] ∧ scen22.last_rain_mm = 23 := by
    have h := process_accept_window scen21 { rain_mm := some 23 } 2320 23 rfl
      (by norm_num) (by rw [g21.2]; norm_num) (by rw [g21.2]; norm_num)
    constructor
    · unfold scen22
      rw [h.1, g21.1, g21.2, show ((23 : ℚ) - 22) = 1 by norm_num,
        hourly_scan_all_in _ _ (by decide)]
      all_goals rfl
    · unfold scen22
      rw [h.2.2.1]
  have g23 : scen23.deltas = [⟨1060, inches_from_mm 1⟩, ⟨1120, inches_from_mm 1⟩, ⟨1180, inches_from_mm 1⟩, ⟨1240, inches_from_mm 1⟩, ⟨1300, inches_from_mm 1⟩, ⟨1360, inches_from_mm 1⟩, ⟨1420, inches_from_mm 1⟩, ⟨1480, inches_from_mm 1⟩, ⟨1540, inches_from_mm 1⟩, ⟨1600, inches_from_mm 1⟩, ⟨1660, inches_from_mm 1⟩, ⟨1720, inches_from_mm 1⟩, ⟨1780, inches_from_mm 1⟩, ⟨1840, inches_from_mm 1⟩, ⟨1900, inches_from_mm 1⟩, ⟨1960, inches_from_mm 1⟩, ⟨2020, inches_from_mm 1⟩, ⟨2080, inches_from_mm 1⟩, ⟨2140, inches_from_mm 1⟩, ⟨2200, inches_from_mm 1⟩, ⟨2260, inches_from_mm 1⟩, ⟨2320, inches_from_mm 1⟩, ⟨2380, inches_from_mm 1⟩] ∧ scen23.last_rain_mm = 24 := by
    have h := process_accept_window scen22 { rain_mm := some 24 } 2380 24 rfl
      (by norm_num) (by rw [g22.2]; norm_num) (by rw [g22.2]; norm_num)
    constructor
    · unfold scen23
      rw [h.1, g22.1, g22.2, show ((24 : ℚ) - 23) = 1 by norm_num,
        hourly_scan_all_in _ _ (by decide)]
      all_goals rfl
    · unfold scen23
      rw [h.2.2.1]
  have g24 : scen24.deltas = [⟨1060, inches_from_mm 1⟩, ⟨1120, inches_from_mm 1⟩, ⟨1180, inches_from_mm 1⟩, ⟨1240, inches_from_mm 1⟩, ⟨1300, inches_from_mm 1⟩, ⟨1360, inches_from_mm 1⟩, ⟨1420, inches_from_mm 1⟩, ⟨1480, inches_from_mm 1⟩, ⟨1540, inches_from_mm 1⟩, ⟨1600, inches_from_mm 1⟩, ⟨1660, inches_from_mm 1⟩, ⟨1720, inches_from_mm 1⟩, ⟨1780, inches_from_mm 1⟩, ⟨1840, inches_from_mm 1⟩, ⟨1900, inches_from_mm 1⟩, ⟨1960, inches_from_mm 1⟩, ⟨2020, inches_from_mm 1⟩, ⟨2080, inches_from_mm 1⟩, ⟨2140, inches_from_mm 1⟩, ⟨2200, inches_from_mm 1⟩, ⟨2260, inches_from_mm 1⟩, ⟨2320, inches_from_mm 1⟩, ⟨2380, inches_from_mm 1⟩, ⟨2440, inches_from_mm 1⟩] ∧ scen24.last_rain_mm = 25 := by
    have h := process_accept_window scen23 { rain_mm := some 25 } 2440 25 rfl
      (by norm_num) (by rw [g23.2]; norm_num) (by rw [g23.2]; norm_num)
    constructor
    · unfold scen24
      rw [h.1, g23.1, g23.2, show ((25 : ℚ) - 24) = 1 by norm_num,
        hourly_scan_all_in _ _ (by decide)]
      all_goals rfl
    · unfold scen24
      rw [h.2.2.1]
  have g25 : scen25.deltas = [⟨1060, inches_from_mm 1⟩, ⟨1120, inches_from_mm 1⟩, ⟨1180, inches_from_mm 1⟩, ⟨1240, inches_from_mm 1⟩, ⟨1300, inches_from_mm 1⟩, ⟨1360, inches_from_mm 1⟩, ⟨1420, inches_from_mm 1⟩, ⟨1480, inches_from_mm 1⟩, ⟨1540, inches_from_mm 1⟩, ⟨1600, inches_from_mm 1⟩, ⟨1660, inches_from_mm 1⟩, ⟨1720, inches_from_mm 1⟩, ⟨1780, inches_from_mm 1⟩, ⟨1840, inches_from_mm 1⟩, ⟨1900, inches_from_mm 1⟩, ⟨1960, inches_from_mm 1⟩, ⟨2020, inches_from_mm 1⟩, ⟨2080, inches_from_mm 1⟩, ⟨2140, inches_from_mm 1⟩, ⟨2200, inches_from_mm 1⟩, ⟨2260, inches_from_mm 1⟩, ⟨2320, inches_from_mm 1⟩, ⟨2380, inches_from_mm 1⟩, ⟨2440, inches_from_mm 1⟩, ⟨2500, inches_from_mm 1⟩] ∧ scen25.last_rain_mm = 26 := by
    have h := process_accept_window scen24 { rain_mm := some 26 } 2500 26 rfl
      (by norm_num) (by rw [g24.2]; norm_num) (by rw [g24.2]; norm_num)
    constructor
    · unfold scen25
      rw [h.1, g24.1, g24.2, show ((26 : ℚ) - 25) = 1 by norm_num,
        hourly_scan_all_in _ _ (by decide)]
      all_goals rfl
    · unfold scen25
      rw [h.2.2.1]
  have g26 : scen26.deltas = [⟨1060, inches_from_mm 1⟩, ⟨1120, inches_from_mm 1⟩, ⟨1180, inches_from_mm 1⟩, ⟨1240, inches_from_mm 1⟩, ⟨1300, inches_from_mm 1⟩, ⟨1360, inches_from_mm 1⟩, ⟨1420, inches_from_mm 1⟩, ⟨1480, inches_from_mm 1⟩, ⟨1540, inches_from_mm 1⟩, ⟨1600, inches_from_mm 1⟩, ⟨1660, inches_from_mm 1⟩, ⟨1720, inches_from_mm 1⟩, ⟨1780, inches_from_mm 1⟩, ⟨1840, inches_from_mm 1⟩, ⟨1900, inches_from_mm 1⟩, ⟨1960, inches_from_mm 1⟩, ⟨2020, inches_from_mm 1⟩, ⟨2080, inches_from_mm 1⟩, ⟨2140, inches_from_mm 1⟩, ⟨2200, inches_from_mm 1⟩, ⟨2260, inches_from_mm 1⟩, ⟨2320, inches_from_mm 1⟩, ⟨2380, inches_from_mm 1⟩, ⟨2440, inches_from_mm 1⟩, ⟨2500, inches_from_mm 1⟩, ⟨2560, inches_from_mm 1⟩] ∧ scen26.last_rain_mm = 27 := by
    have h := process_accept_window scen25 { rain_mm := some 27 } 2560 27 rfl
      (by norm_num) (by rw [g25.2]; norm_num) (by rw [g25.2]; norm_num)
    constructor
    · unfold scen26
      rw [h.1, g25.1, g25.2, show ((27 : ℚ) - 26) = 1 by norm_num,
        hourly_scan_all_in _ _ (by decide)]
      all_goals rfl
    · unfold scen26
      rw [h.2.2.1]
  have g27 : scen27.deltas = [⟨1060, inches_from_mm 1⟩, ⟨1120, inches_from_mm 1⟩, ⟨1180, inches_from_mm 1⟩, ⟨1240, inches_from_mm 1⟩, ⟨1300, inches_from_mm 1⟩, ⟨1360, inches_from_mm 1⟩, ⟨1420, inches_from_mm 1⟩, ⟨1480, inches_from_mm 1⟩, ⟨1540, inches_from_mm 1⟩, ⟨1600, inches_from_mm 1⟩, ⟨1660, inches_from_mm 1⟩, ⟨1720, inches_from_mm 1⟩, ⟨1780, inches_from_mm 1⟩, ⟨1840, inches_from_mm 1⟩, ⟨1900, inches_from_mm 1⟩, ⟨1960, inches_from_mm 1⟩, ⟨2020, inches_from_mm 1⟩, ⟨2080, inches_from_mm 1⟩, ⟨2140, inches_from_mm 1⟩, ⟨2200, inches_from_mm 1⟩, ⟨2260, inches_from_mm 1⟩, ⟨2320, inches_from_mm 1⟩, ⟨2380, inches_from_mm 1⟩, ⟨2440, inches_from_mm 1⟩, ⟨2500, inches_from_mm 1⟩, ⟨2560, inches_from_mm 1⟩, ⟨2620, inches_from_mm 1⟩] ∧ scen27.last_rain_mm = 28 := by
    have h := process_accept_window scen26 { rain_mm := some 28 } 2620 28 rfl
      (by norm_num) (by rw [g26.2]; norm_num) (by rw [g26.2]; norm_num)
    constructor
    · unfold scen27
      rw [h.1, g26.1, g26.2, show ((28 : ℚ) - 27) = 1 by norm_num,
        hourly_scan_all_in _ _ (by decide)]
      all_goals rfl
    · unfold scen27
      rw [h.2.2.1]
  have g28 : scen28.deltas = [⟨1060, inches_from_mm 1⟩, ⟨1120, inches_from_mm 1⟩, ⟨1180, inches_from_mm 1⟩, ⟨1240, inches_from_mm 1⟩, ⟨1300, inches_from_mm 1⟩, ⟨1360, inches_from_mm 1⟩, ⟨1420, inches_from_mm 1⟩, ⟨1480, inches_from_mm 1⟩, ⟨1540, inches_from_mm 1⟩, ⟨1600, inches_from_mm 1⟩, ⟨1660, inches_from_mm 1⟩, ⟨1720, inches_from_mm 1⟩, ⟨1780, inches_from_mm 1⟩, ⟨1840, inches_from_mm 1⟩, ⟨1900, inches_from_mm 1⟩, ⟨1960, inches_from_mm 1⟩, ⟨2020, inches_from_mm 1⟩, ⟨2080, inches_from_mm 1⟩, ⟨2140, inches_from_mm 1⟩, ⟨2200, inches_from_mm 1⟩, ⟨2260, inches_from_mm 1⟩, ⟨2320, inches_from_mm 1⟩, ⟨2380, inches_from_mm 1⟩, ⟨2440, inches_from_mm 1⟩, ⟨2500, inches_from_mm 1⟩, ⟨2560, inches_from_mm 1⟩, ⟨2620, inches_from_mm 1⟩, ⟨2680, inches_from_mm 1⟩] ∧ scen28.last_rain_mm = 29 := by
    have h := process_accept_window scen27 { rain_mm := some 29 } 2680 29 rfl
      (by norm_num) (by rw [g27.2]; norm_num) (by rw [g27.2]; norm_num)
    constructor
    · unfold scen28
      rw [h.1, g27.1, g27.2, show ((29 : ℚ) - 28) = 1 by norm_num,
        hourly_scan_all_in _ _ (by decide)]
      all_goals rfl
    · unfold scen28
      rw [h.2.2.1]
  have g29 : scen29.deltas = [⟨1060, inches_from_mm 1⟩, ⟨1120, inches_from_mm 1⟩, ⟨1180, inches_from_mm 1⟩, ⟨1240, inches_from_mm 1⟩, ⟨1300, inches_from_mm 1⟩, ⟨1360, inches_from_mm 1⟩, ⟨1420, inches_from_mm 1⟩, ⟨1480, inches_from_mm 1⟩, ⟨1540, inches_from_mm 1⟩, ⟨1600, inches_from_mm 1⟩, ⟨1660, inches_from_mm 1⟩, ⟨1720, inches_from_mm 1⟩, ⟨1780, inches_from_mm 1⟩, ⟨1840, inches_from_mm 1⟩, ⟨1900, inches_from_mm 1⟩, ⟨1960, inches_from_mm 1⟩, ⟨2020, inches_from_mm 1⟩, ⟨2080, inches_from_mm 1⟩, ⟨2140, inches_from_mm 1⟩, ⟨2200, inches_from_mm 1⟩, ⟨2260, inches_from_mm 1⟩, ⟨2320, inches_from_mm 1⟩, ⟨2380, inches_from_mm 1⟩, ⟨2440, inches_from_mm 1⟩, ⟨2500, inches_from_mm 1⟩, ⟨2560, inches_from_mm 1⟩, ⟨2620, inches_from_mm 1⟩, ⟨2680, inches_from_mm 1⟩, ⟨2740, inches_from_mm 1⟩] ∧ scen29.last_rain_mm = 30 := by
    have h := process_accept_window scen28 { rain_mm := some 30 } 2740 30 rfl
      (by norm_num) (by rw [g28.2]; norm_num) (by rw [g28.2]; norm_num)
    constructor
    · unfold scen29
      rw [h.1, g28.1, g28.2, show ((30 : ℚ) - 29) = 1 by norm_num,
        hourly_scan_all_in _ _ (by decide)]
      all_goals rfl
    · unfold scen29
      rw [h.2.2.1]
  have g30 : scen30.deltas = [⟨1060, inches_from_mm 1⟩, ⟨1120, inches_from_mm 1⟩, ⟨1180, inches_from_mm 1⟩, ⟨1240, inches_from_mm 1⟩, ⟨1300, inches_from_mm 1⟩, ⟨1360, inches_from_mm 1⟩, ⟨1420, inches_from_mm 1⟩, ⟨1480, inches_from_mm 1⟩, ⟨1540, inches_from_mm 1⟩, ⟨1600, inches_from_mm 1⟩, ⟨1660, inches_from_mm 1⟩, ⟨1720, inches_from_mm 1⟩, ⟨1780, inches_from_mm 1⟩, ⟨1840, inches_from_mm 1⟩, ⟨1900, inches_from_mm 1⟩, ⟨1960, inches_from_mm 1⟩, ⟨2020, inches_from_mm 1⟩, ⟨2080, inches_from_mm 1⟩, ⟨2140, inches_from_mm 1⟩, ⟨2200, inches_from_mm 1⟩, ⟨2260, inches_from_mm 1⟩, ⟨2320, inches_from_mm 1⟩, ⟨2380, inches_from_mm 1⟩, ⟨2440, inches_from_mm 1⟩, ⟨2500, inches_from_mm 1⟩, ⟨2560, inches_from_mm 1⟩, ⟨2620, inches_from_mm 1⟩, ⟨2680, inches_from_mm 1⟩, ⟨2740, inches_from_mm 1⟩, ⟨2800, inches_from_mm 1⟩] ∧ scen30.last_rain_mm = 31 := by
    have h := process_accept_window scen29 { rain_mm := some 31 } 2800 31 rfl
      (by norm_num) (by rw [g29.2]; norm_num) (by rw [g29.2]; norm_num)
    constructor
    · unfold scen30
      rw [h.1, g29.1, g29.2, show ((31 : ℚ) - 30) = 1 by norm_num,
        hourly_scan_all_in _ _ (by decide)]
      all_goals rfl
    · unfold scen30
      rw [h.2.2.1]
  have g31 : scen31.deltas = [⟨1060, inches_from_mm 1⟩, ⟨1120, inches_from_mm 1⟩, ⟨1180, inches_from_mm 1⟩, ⟨1240, inches_from_mm 1⟩, ⟨1300, inches_from_mm 1⟩, ⟨1360, inches_from_mm 1⟩, ⟨1420, inches_from_mm 1⟩, ⟨1480, inches_from_mm 1⟩, ⟨1540, inches_from_mm 1⟩, ⟨1600, inches_from_mm 1⟩, ⟨1660, inches_from_mm 1⟩, ⟨1720, inches_from_mm 1⟩, ⟨1780, inches_from_mm 1⟩, ⟨1840, inches_from_mm 1⟩, ⟨1900, inches_from_mm 1⟩, ⟨1960, inches_from_mm 1⟩, ⟨2020, inches_from_mm 1⟩, ⟨2080, inches_from_mm 1⟩, ⟨2140, inches_from_mm 1⟩, ⟨2200, inches_from_mm 1⟩, ⟨2260, inches_from_mm 1⟩, ⟨2320, inches_from_mm 1⟩, ⟨2380, inches_from_mm 1⟩, ⟨2440, inches_from_mm 1⟩, ⟨2500, inches_from_mm 1⟩, ⟨2560, inches_from_mm 1⟩, ⟨2620, inches_from_mm 1⟩, ⟨2680, inches_from_mm 1⟩, ⟨2740, inches_from_mm 1⟩, ⟨2800, inches_from_mm 1⟩, ⟨2860, inches_from_mm 1⟩] ∧ scen31.last_rain_mm = 32 := by
    have h := process_accept_window scen30 { rain_mm := some 32 } 2860 32 rfl
      (by norm_num) (by rw [g30.2]; norm_num) (by rw [g30.2]; norm_num)
    constructor
    · unfold scen31
      rw [h.1, g30.1, g30.2, show ((32 : ℚ) - 31) = 1 by norm_num,
        hourly_scan_all_in _ _ (by decide)]
      all_goals rfl
    · unfold scen31
      rw [h.2.2.1]
  have g32 : scen32.deltas = [⟨1060, inches_from_mm 1⟩, ⟨1120, inches_from_mm 1⟩, ⟨1180, inches_from_mm 1⟩, ⟨1240, inches_from_mm 1⟩, ⟨1300, inches_from_mm 1⟩, ⟨1360, inches_from_mm 1⟩, ⟨1420, inches_from_mm 1⟩, ⟨1480, inches_from_mm 1⟩, ⟨1540, inches_from_mm 1⟩, ⟨1600, inches_from_mm 1⟩, ⟨1660, inches_from_mm 1⟩, ⟨1720, inches_from_mm 1⟩, ⟨1780, inches_from_mm 1⟩, ⟨1840, inches_from_mm 1⟩, ⟨1900, inches_from_mm 1⟩, ⟨1960, inches_from_mm 1⟩, ⟨2020, inches_from_mm 1⟩, ⟨2080, inches_from_mm 1⟩, ⟨2140, inches_from_mm 1⟩, ⟨2200, inches_from_mm 1⟩, ⟨2260, inches_from_mm 1⟩, ⟨2320, inches_from_mm 1⟩, ⟨2380, inches_from_mm 1⟩, ⟨2440, inches_from_mm 1⟩, ⟨2500, inches_from_mm 1⟩, ⟨2560, inches_from_mm 1⟩, ⟨2620, inches_from_mm 1⟩, ⟨2680, inches_from_mm 1⟩, ⟨2740, inches_from_mm 1⟩, ⟨2800, inches_from_mm 1⟩, ⟨2860, inches_from_mm 1⟩, ⟨2920, inches_from_mm 1⟩] ∧ scen32.last_rain_mm = 33 := by
    have h := process_accept_window scen31 { rain_mm := some 33 } 2920 33 rfl
      (by norm_num) (by rw [g31.2]; norm_num) (by rw [g31.2]; norm_num)
    constructor
    · unfold scen32
      rw [h.1, g31.1, g31.2, show ((33 : ℚ) - 32) = 1 by norm_num,
        hourly_scan_all_in _ _ (by decide)]
      all_goals rfl
    · unfold scen32
      rw [h.2.2.1]
  have g33 : scen33.deltas = [⟨1060, inches_from_mm 1⟩, ⟨1120, inches_from_mm 1⟩, ⟨1180, inches_from_mm 1⟩, ⟨1240, inches_from_mm 1⟩, ⟨1300, inches_from_mm 1⟩, ⟨1360, inches_from_mm 1⟩, ⟨1420, inches_from_mm 1⟩, ⟨1480, inches_from_mm 1⟩, ⟨1540, inches_from_mm 1⟩, ⟨1600, inches_from_mm 1⟩, ⟨1660, inches_from_mm 1⟩, ⟨1720, inches_from_mm 1⟩, ⟨1780, inches_from_mm 1⟩, ⟨1840, inches_from_mm 1⟩, ⟨1900, inches_from_mm 1⟩, ⟨1960, inches_from_mm 1⟩, ⟨2020, inches_from_mm 1⟩, ⟨2080, inches_from_mm 1⟩, ⟨2140, inches_from_mm 1⟩, ⟨2200, inches_from_mm 1⟩, ⟨2260, inches_from_mm 1⟩, ⟨2320, inches_from_mm 1⟩, ⟨2380, inches_from_mm 1⟩, ⟨2440, inches_from_mm 1⟩, ⟨2500, inches_from_mm 1⟩, ⟨2560, inches_from_mm 1⟩, ⟨2620, inches_from_mm 1⟩, ⟨2680, inches_from_mm 1⟩, ⟨2740, inches_from_mm 1⟩, ⟨2800, inches_from_mm 1⟩, ⟨2860, inches_from_mm 1⟩, ⟨2920, inches_from_mm 1⟩, ⟨2980, inches_from_mm 1⟩] ∧ scen33.last_rain_mm = 34 := by
    have h := process_accept_window scen32 { rain_mm := some 34 } 2980 34 rfl
      (by norm_num) (by rw [g32.2]; norm_num) (by rw [g32.2]; norm_num)
    constructor
    · unfold scen33
      rw [h.1, g32.1, g32.2, show ((34 : ℚ) - 33) = 1 by norm_num,
        hourly_scan_all_in _ _ (by decide)]
      all_goals rfl
    · unfold scen33
      rw [h.2.2.1]
  have g34 : scen34.deltas = [⟨1060, inches_from_mm 1⟩, ⟨1120, inches_from_mm 1⟩, ⟨1180, inches_from_mm 1⟩, ⟨1240, inches_from_mm 1⟩, ⟨1300, inches_from_mm 1⟩, ⟨1360, inches_from_mm 1⟩, ⟨1420, inches_from_mm 1⟩, ⟨1480, inches_from_mm 1⟩, ⟨1540, inches_from_mm 1⟩, ⟨1600, inches_from_mm 1⟩, ⟨1660, inches_from_mm 1⟩, ⟨1720, inches_from_mm 1⟩, ⟨1780, inches_from_mm 1⟩, ⟨1840, inches_from_mm 1⟩, ⟨1900, inches_from_mm 1⟩, ⟨1960, inches_from_mm 1⟩, ⟨2020, inches_from_mm 1⟩, ⟨2080, inches_from_mm 1⟩, ⟨2140, inches_from_mm 1⟩, ⟨2200, inches_from_mm 1⟩, ⟨2260, inches_from_mm 1⟩, ⟨2320, inches_from_mm 1⟩, ⟨2380, inches_from_mm 1⟩, ⟨2440, inches_from_mm 1⟩, ⟨2500, inches_from_mm 1⟩, ⟨2560, inches_from_mm 1⟩, ⟨2620, inches_from_mm 1⟩, ⟨2680, inches_from_mm 1⟩, ⟨2740, inches_from_mm 1⟩, ⟨2800, inches_from_mm 1⟩, ⟨2860, inches_from_mm 1⟩, ⟨2920, inches_from_mm 1⟩, ⟨2980, inches_from_mm 1⟩, ⟨3040, inches_from_mm 1⟩] ∧ scen34.last_rain_mm = 35 := by
    have h := process_accept_window scen33 { rain_mm := some 35 } 3040 35 rfl
      (by norm_num) (by rw [g33.2]; norm_num) (by rw [g33.2]; norm_num)
    constructor
    · unfold scen34
      rw [h.1, g33.1, g33.2, show ((35 : ℚ) - 34) = 1 by norm_num,
        hourly_scan_all_in _ _ (by decide)]
      all_goals rfl
    · unfold scen34
      rw [h.2.2.1]
  have g35 : scen35.deltas = [⟨1060, inches_from_mm 1⟩, ⟨1120, inches_from_mm 1⟩, ⟨1180, inches_from_mm 1⟩, ⟨1240, inches_from_mm 1⟩, ⟨1300, inches_from_mm 1⟩, ⟨1360, inches_from_mm 1⟩, ⟨1420, inches_from_mm 1⟩, ⟨1480, inches_from_mm 1⟩, ⟨1540, inches_from_mm 1⟩, ⟨1600, inches_from_mm 1⟩, ⟨1660, inches_from_mm 1⟩, ⟨1720, inches_from_mm 1⟩, ⟨1780, inches_from_mm 1⟩, ⟨1840, inches_from_mm 1⟩, ⟨1900, inches_from_mm 1⟩, ⟨1960, inches_from_mm 1⟩, ⟨2020, inches_from_mm 1⟩, ⟨2080, inches_from_mm 1⟩, ⟨2140, inches_from_mm 1⟩, ⟨2200, inches_from_mm 1⟩, ⟨2260, inches_from_mm 1⟩, ⟨2320, inches_from_mm 1⟩, ⟨2380, inches_from_mm 1⟩, ⟨2440, inches_from_mm 1⟩, ⟨2500, inches_from_mm 1⟩, ⟨2560, inches_from_mm 1⟩, ⟨2620, inches_from_mm 1⟩, ⟨2680, inches_from_mm 1⟩, ⟨2740, inches_from_mm 1⟩, ⟨2800, inches_from_mm 1⟩, ⟨2860, inches_from_mm 1⟩, ⟨2920, inches_from_mm 1⟩, ⟨2980, inches_from_mm 1⟩, ⟨3040, inches_from_mm 1⟩, ⟨3100, inches_from_mm 1⟩] ∧ scen35.last_rain_mm = 36 := by
    have h := process_accept_window scen34 { rain_mm := some 36 } 3100 36 rfl
      (by norm_num) (by rw [g34.2]; norm_num) (by rw [g34.2]; norm_num)
    constructor
    · unfold scen35
      rw [h.1, g34.1, g34.2, show ((36 : ℚ) - 35) = 1 by norm_num,
        hourly_scan_all_in _ _ (by decide)]
      all_goals rfl
    · unfold scen35
      rw [h.2.2.1]
  have g36 : scen36.deltas = [⟨1060, inches_from_mm 1⟩, ⟨1120, inches_from_mm 1⟩, ⟨1180, inches_from_mm 1⟩, ⟨1240, inches_from_mm 1⟩, ⟨1300, inches_from_mm 1⟩, ⟨1360, inches_from_mm 1⟩, ⟨1420, inches_from_mm 1⟩, ⟨1480, inches_from_mm 1⟩, ⟨1540, inches_from_mm 1⟩, ⟨1600, inches_from_mm 1⟩, ⟨1660, inches_from_mm 1⟩, ⟨1720, inches_from_mm 1⟩, ⟨1780, inches_from_mm 1⟩, ⟨1840, inches_from_mm 1⟩, ⟨1900, inches_from_mm 1⟩, ⟨1960, inches_from_mm 1⟩, ⟨2020, inches_from_mm 1⟩, ⟨2080, inches_from_mm 1⟩, ⟨2140, inches_from_mm 1⟩, ⟨2200, inches_from_mm 1⟩, ⟨2260, inches_from_mm 1⟩, ⟨2320, inches_from_mm 1⟩, ⟨2380, inches_from_mm 1⟩, ⟨2440, inches_from_mm 1⟩, ⟨2500, inches_from_mm 1⟩, ⟨2560, inches_from_mm 1⟩, ⟨2620, inches_from_mm 1⟩, ⟨2680, inches_from_mm 1⟩, ⟨2740, inches_from_mm 1⟩, ⟨2800, inches_from_mm 1⟩, ⟨2860, inches_from_mm 1⟩, ⟨2920, inches_from_mm 1⟩, ⟨2980, inches_from_mm 1⟩, ⟨3040, inches_from_mm 1⟩, ⟨3100, inches_from_mm 1⟩, ⟨3160, inches_from_mm 1⟩] ∧ scen36.last_rain_mm = 37 := by
    have h := process_accept_window scen35 { rain_mm := some 37 } 3160 37 rfl
      (by norm_num) (by rw [g35.2]; norm_num) (by rw [g35.2]; norm_num)
    constructor
    · unfold scen36
      rw [h.1, g35.1, g35.2, show ((37 : ℚ) - 36) = 1 by norm_num,
        hourly_scan_all_in _ _ (by decide)]
      all_goals rfl
    · unfold scen36
      rw [h.2.2.1]
  have g37 : scen37.deltas = [⟨1060, inches_from_mm 1⟩, ⟨1120, inches_from_mm 1⟩, ⟨1180, inches_from_mm 1⟩, ⟨1240, inches_from_mm 1⟩, ⟨1300, inches_from_mm 1⟩, ⟨1360, inches_from_mm 1⟩, ⟨1420, inches_from_mm 1⟩, ⟨1480, inches_from_mm 1⟩, ⟨1540, inches_from_mm 1⟩, ⟨1600, inches_from_mm 1⟩, ⟨1660, inches_from_mm 1⟩, ⟨1720, inches_from_mm 1⟩, ⟨1780, inches_from_mm 1⟩, ⟨1840, inches_from_mm 1⟩, ⟨1900, inches_from_mm 1⟩, ⟨1960, inches_from_mm 1⟩, ⟨2020, inches_from_mm 1⟩, ⟨2080, inches_from_mm 1⟩, ⟨2140, inches_from_mm 1⟩, ⟨2200, inches_from_mm 1⟩, ⟨2260, inches_from_mm 1⟩, ⟨2320, inches_from_mm 1⟩, ⟨2380, inches_from_mm 1⟩, ⟨2440, inches_from_mm 1⟩, ⟨2500, inches_from_mm 1⟩, ⟨2560, inches_from_mm 1⟩, ⟨2620, inches_from_mm 1⟩, ⟨2680, inches_from_mm 1⟩, ⟨2740, inches_from_mm 1⟩, ⟨2800, inches_from_mm 1⟩, ⟨2860, inches_from_mm 1⟩, ⟨2920, inches_from_mm 1⟩, ⟨2980, inches_from_mm 1⟩, ⟨3040, inches_from_mm 1⟩, ⟨3100, inches_from_mm 1⟩, ⟨3160, inches_from_mm 1⟩, ⟨3220, inches_from_mm 1⟩] ∧ scen37.last_rain_mm = 38 := by
    have h := process_accept_window scen36 { rain_mm := some 38 } 3220 38 rfl
      (by norm_num) (by rw [g36.2]; norm_num) (by rw [g36.2]; norm_num)
    constructor
    · unfold scen37
      rw [h.1, g36.1, g36.2, show ((38 : ℚ) - 37) = 1 by norm_num,
        hourly_scan_all_in _ _ (by decide)]
      all_goals rfl
    · unfold scen37
      rw [h.2.2.1]
  have g38 : scen38.deltas = [⟨1060, inches_from_mm 1⟩, ⟨1120, inches_from_mm 1⟩, ⟨1180, inches_from_mm 1⟩, ⟨1240, inches_from_mm 1⟩, ⟨1300, inches_from_mm 1⟩, ⟨1360, inches_from_mm 1⟩, ⟨1420, inches_from_mm 1⟩, ⟨1480, inches_from_mm 1⟩, ⟨1540, inches_from_mm 1⟩, ⟨1600, inches_from_mm 1⟩, ⟨1660, inches_from_mm 1⟩, ⟨1720, inches_from_mm 1⟩, ⟨1780, inches_from_mm 1⟩, ⟨1840, inches_from_mm 1⟩, ⟨1900, inches_from_mm 1⟩, ⟨1960, inches_from_mm 1⟩, ⟨2020, inches_from_mm 1⟩, ⟨2080, inches_from_mm 1⟩, ⟨2140, inches_from_mm 1⟩, ⟨2200, inches_from_mm 1⟩, ⟨2260, inches_from_mm 1⟩, ⟨2320, inches_from_mm 1⟩, ⟨2380, inches_from_mm 1⟩, ⟨2440, inches_from_mm 1⟩, ⟨2500, inches_from_mm 1⟩, ⟨2560, inches_from_mm 1⟩, ⟨2620, inches_from_mm 1⟩, ⟨2680, inches_from_mm 1⟩, ⟨2740, inches_from_mm 1⟩, ⟨2800, inches_from_mm 1⟩, ⟨2860, inches_from_mm 1⟩, ⟨2920, inches_from_mm 1⟩, ⟨2980, inches_from_mm 1⟩, ⟨3040, inches_from_mm 1⟩, ⟨3100, inches_from_mm 1⟩, ⟨3160, inches_from_mm 1⟩, ⟨3220, inches_from_mm 1⟩, ⟨3280, inches_from_mm 1⟩] ∧ scen38.last_rain_mm = 39 := by
    have h := process_accept_window scen37 { rain_mm := some 39 } 3280 39 rfl
      (by norm_num) (by rw [g37.2]; norm_num) (by rw [g37.2]; norm_num)
    constructor
    · unfold scen38
      rw [h.1, g37.1, g37.2, show ((39 : ℚ) - 38) = 1 by norm_num,
        hourly_scan_all_in _ _ (by decide)]
      all_goals rfl
    · unfold scen38
      rw [h.2.2.1]
  have g39 : scen39.deltas = [⟨1060, inches_from_mm 1⟩, ⟨1120, inches_from_mm 1⟩, ⟨1180, inches_from_mm 1⟩, ⟨1240, inches_from_mm 1⟩, ⟨1300, inches_from_mm 1⟩, ⟨1360, inches_from_mm 1⟩, ⟨1420, inches_from_mm 1⟩, ⟨1480, inches_from_mm 1⟩, ⟨1540, inches_from_mm 1⟩, ⟨1600, inches_from_mm 1⟩, ⟨1660, inches_from_mm 1⟩, ⟨1720, inches_from_mm 1⟩, ⟨1780, inches_from_mm 1⟩, ⟨1840, inches_from_mm 1⟩, ⟨1900, inches_from_mm 1⟩, ⟨1960, inches_from_mm 1⟩, ⟨2020, inches_from_mm 1⟩, ⟨2080, inches_from_mm 1⟩, ⟨2140, inches_from_mm 1⟩, ⟨2200, inches_from_mm 1⟩, ⟨2260, inches_from_mm 1⟩, ⟨2320, inches_from_mm 1⟩, ⟨2380, inches_from_mm 1⟩, ⟨2440, inches_from_mm 1⟩, ⟨2500, inches_from_mm 1⟩, ⟨2560, inches_from_mm 1⟩, ⟨2620, inches_from_mm 1⟩, ⟨2680, inches_from_mm 1⟩, ⟨2740, inches_from_mm 1⟩, ⟨2800, inches_from_mm 1⟩, ⟨2860, inches_from_mm 1⟩, ⟨2920, inches_from_mm 1⟩, ⟨2980, inches_from_mm 1⟩, ⟨3040, inches_from_mm 1⟩, ⟨3100, inches_from_mm 1⟩, ⟨3160, inches_from_mm 1⟩, ⟨3220, inches_from_mm 1⟩, ⟨3280, inches_from_mm 1⟩, ⟨3340, inches_from_mm 1⟩] ∧ scen39.last_rain_mm = 40 := by
    have h := process_accept_window scen38 { rain_mm := some 40 } 3340 40 rfl
      (by norm_num) (by rw [g38.2]; norm_num) (by rw [g38.2]; norm_num)
    constructor
    · unfold scen39
      rw [h.1, g38.1, g38.2, show ((40 : ℚ) - 39) = 1 by norm_num,
        hourly_scan_all_in _ _ (by decide)]
      all_goals rfl
    · unfold scen39
      rw [h.2.2.1]
  have g40 : scen40.deltas = [⟨1060, inches_from_mm 1⟩, ⟨1120, inches_from_mm 1⟩, ⟨1180, inches_from_mm 1⟩, ⟨1240, inches_from_mm 1⟩, ⟨1300, inches_from_mm 1⟩, ⟨1360, inches_from_mm 1⟩, ⟨1420, inches_from_mm 1⟩, ⟨1480, inches_from_mm 1⟩, ⟨1540, inches_from_mm 1⟩, ⟨1600, inches_from_mm 1⟩, ⟨1660, inches_from_mm 1⟩, ⟨1720, inches_from_mm 1⟩, ⟨1780, inches_from_mm 1⟩, ⟨1840, inches_from_mm 1⟩, ⟨1900, inches_from_mm 1⟩, ⟨1960, inches_from_mm 1⟩, ⟨2020, inches_from_mm 1⟩, ⟨2080, inches_from_mm 1⟩, ⟨2140, inches_from_mm 1⟩, ⟨2200, inches_from_mm 1⟩, ⟨2260, inches_from_mm 1⟩, ⟨2320, inches_from_mm 1⟩, ⟨2380, inches_from_mm 1⟩, ⟨2440, inches_from_mm 1⟩, ⟨2500, inches_from_mm 1⟩, ⟨2560, inches_from_mm 1⟩, ⟨2620, inches_from_mm 1⟩, ⟨2680, inches_from_mm 1⟩, ⟨2740, inches_from_mm 1⟩, ⟨2800, inches_from_mm 1⟩, ⟨2860, inches_from_mm 1⟩, ⟨2920, inches_from_mm 1⟩, ⟨2980, inches_from_mm 1⟩, ⟨3040, inches_from_mm 1⟩, ⟨3100, inches_from_mm 1⟩, ⟨3160, inches_from_mm 1⟩, ⟨3220, inches_from_mm 1⟩, ⟨3280, inches_from_mm 1⟩, ⟨3340, inches_from_mm 1⟩, ⟨3400, inches_from_mm 1⟩] ∧ scen40.last_rain_mm = 41 := by
    have h := process_accept_window scen39 { rain_mm := some 41 } 3400 41 rfl
      (by norm_num) (by rw [g39.2]; norm_num) (by rw [g39.2]; norm_num)
    constructor
    · unfold scen40
      rw [h.1, g39.1, g39.2, show ((41 : ℚ) - 40) = 1 by norm_num,
        hourly_scan_all_in _ _ (by decide)]
      all_goals rfl
    · unfold scen40
      rw [h.2.2.1]
  have g41 : scen41.deltas = [⟨1060, inches_from_mm 1⟩, ⟨1120, inches_from_mm 1⟩, ⟨1180, inches_from_mm 1⟩, ⟨1240, inches_from_mm 1⟩, ⟨1300, inches_from_mm 1⟩, ⟨1360, inches_from_mm 1⟩, ⟨1420, inches_from_mm 1⟩, ⟨1480, inches_from_mm 1⟩, ⟨1540, inches_from_mm 1⟩, ⟨1600, inches_from_mm 1⟩, ⟨1660, inches_from_mm 1⟩, ⟨1720, inches_from_mm 1⟩, ⟨1780, inches_from_mm 1⟩, ⟨1840, inches_from_mm 1⟩, ⟨1900, inches_from_mm 1⟩, ⟨1960, inches_from_mm 1⟩, ⟨2020, inches_from_mm 1⟩, ⟨2080, inches_from_mm 1⟩, ⟨2140, inches_from_mm 1⟩, ⟨2200, inches_from_mm 1⟩, ⟨2260, inches_from_mm 1⟩, ⟨2320, inches_from_mm 1⟩, ⟨2380, inches_from_mm 1⟩, ⟨2440, inches_from_mm 1⟩, ⟨2500, inches_from_mm 1⟩, ⟨2560, inches_from_mm 1⟩, ⟨2620, inches_from_mm 1⟩, ⟨2680, inches_from_mm 1⟩, ⟨2740, inches_from_mm 1⟩, ⟨2800, inches_from_mm 1⟩, ⟨2860, inches_from_mm 1⟩, ⟨2920, inches_from_mm 1⟩, ⟨2980, inches_from_mm 1⟩, ⟨3040, inches_from_mm 1⟩, ⟨3100, inches_from_mm 1⟩, ⟨3160, inches_from_mm 1⟩, ⟨3220, inches_from_mm 1⟩, ⟨3280, inches_from_mm 1⟩, ⟨3340, inches_from_mm 1⟩, ⟨3400, inches_from_mm 1⟩, ⟨3460, inches_from_mm 1⟩] ∧ scen41.last_rain_mm = 42 := by
    have h := process_accept_window scen40 { rain_mm := some 42 } 3460 42 rfl
      (by norm_num) (by rw [g40.2]; norm_num) (by rw [g40.2]; norm_num)
    constructor
    · unfold scen41
      rw [h.1, g40.1, g40.2, show ((42 : ℚ) - 41) = 1 by norm_num,
        hourly_scan_all_in _ _ (by decide)]
      all_goals rfl
    · unfold scen41
      rw [h.2.2.1]
  have g42 : scen42.deltas = [⟨1060, inches_from_mm 1⟩, ⟨1120, inches_from_mm 1⟩, ⟨1180, inches_from_mm 1⟩, ⟨1240, inches_from_mm 1⟩, ⟨1300, inches_from_mm 1⟩, ⟨1360, inches_from_mm 1⟩, ⟨1420, inches_from_mm 1⟩, ⟨1480, inches_from_mm 1⟩, ⟨1540, inches_from_mm 1⟩, ⟨1600, inches_from_mm 1⟩, ⟨1660, inches_from_mm 1⟩, ⟨1720, inches_from_mm 1⟩, ⟨1780, inches_from_mm 1⟩, ⟨1840, inches_from_mm 1⟩, ⟨1900, inches_from_mm 1⟩, ⟨1960, inches_from_mm 1⟩, ⟨2020, inches_from_mm 1⟩, ⟨2080, inches_from_mm 1⟩, ⟨2140, inches_from_mm 1⟩, ⟨2200, inches_from_mm 1⟩, ⟨2260, inches_from_mm 1⟩, ⟨2320, inches_from_mm 1⟩, ⟨2380, inches_from_mm 1⟩, ⟨2440, inches_from_mm 1⟩, ⟨2500, inches_from_mm 1⟩, ⟨2560, inches_from_mm 1⟩, ⟨2620, inches_from_mm 1⟩, ⟨2680, inches_from_mm 1⟩, ⟨2740, inches_from_mm 1⟩, ⟨2800, inches_from_mm 1⟩, ⟨2860, inches_from_mm 1⟩, ⟨2920, inches_from_mm 1⟩, ⟨2980, inches_from_mm 1⟩, ⟨3040, inches_from_mm 1⟩, ⟨3100, inches_from_mm 1⟩, ⟨3160, inches_from_mm 1⟩, ⟨3220, inches_from_mm 1⟩, ⟨3280, inches_from_mm 1⟩, ⟨3340, inches_from_mm 1⟩, ⟨3400, inches_from_mm 1⟩, ⟨3460, inches_from_mm 1⟩, ⟨3520, inches_from_mm 1⟩] ∧ scen42.last_rain_mm = 43 := by
    have h := process_accept_window scen41 { rain_mm := some 43 } 3520 43 rfl
      (by norm_num) (by rw [g41.2]; norm_num) (by rw [g41.2]; norm_num)
    constructor
    · unfold scen42
      rw [h.1, g41.1, g41.2, show ((43 : ℚ) - 42) = 1 by norm_num,
        hourly_scan_all_in _ _ (by decide)]
      all_goals rfl
    · unfold scen42
      rw [h.2.2.1]
  have g43 : scen43.deltas = [⟨1060, inches_from_mm 1⟩, ⟨1120, inches_from_mm 1⟩, ⟨1180, inches_from_mm 1⟩, ⟨1240, inches_from_mm 1⟩, ⟨1300, inches_from_mm 1⟩, ⟨1360, inches_from_mm 1⟩, ⟨1420, inches_from_mm 1⟩, ⟨1480, inches_from_mm 1⟩, ⟨1540, inches_from_mm 1⟩, ⟨1600, inches_from_mm 1⟩, ⟨1660, inches_from_mm 1⟩, ⟨1720, inches_from_mm 1⟩, ⟨1780, inches_from_mm 1⟩, ⟨1840, inches_from_mm 1⟩, ⟨1900, inches_from_mm 1⟩, ⟨1960, inches_from_mm 1⟩, ⟨2020, inches_from_mm 1⟩, ⟨2080, inches_from_mm 1⟩, ⟨2140, inches_from_mm 1⟩, ⟨2200, inches_from_mm 1⟩, ⟨2260, inches_from_mm 1⟩, ⟨2320, inches_from_mm 1⟩, ⟨2380, inches_from_mm 1⟩, ⟨2440, inches_from_mm 1⟩, ⟨2500, inches_from_mm 1⟩, ⟨2560, inches_from_mm 1⟩, ⟨2620, inches_from_mm 1⟩, ⟨2680, inches_from_mm 1⟩, ⟨2740, inches_from_mm 1⟩, ⟨2800, inches_from_mm 1⟩, ⟨2860, inches_from_mm 1⟩, ⟨2920, inches_from_mm 1⟩, ⟨2980, inches_from_mm 1⟩, ⟨3040, inches_from_mm 1⟩, ⟨3100, inches_from_mm 1⟩, ⟨3160, inches_from_mm 1⟩, ⟨3220, inches_from_mm 1⟩, ⟨3280, inches_from_mm 1⟩, ⟨3340, inches_from_mm 1⟩, ⟨3400, inches_from_mm 1⟩, ⟨3460, inches_from_mm 1⟩, ⟨3520, inches_from_mm 1⟩, ⟨3580, inches_from_mm 1⟩] ∧ scen43.last_rain_mm = 44 := by
    have h := process_accept_window scen42 { rain_mm := some 44 } 3580 44 rfl
      (by norm_num) (by rw [g42.2]; norm_num) (by rw [g42.2]; norm_num)
    constructor
    · unfold scen43
      rw [h.1, g42.1, g42.2, show ((44 : ℚ) - 43) = 1 by norm_num,
        hourly_scan_all_in _ _ (by decide)]
      all_goals rfl
    · unfold scen43
      rw [h.2.2.1]
  have g44 : scen44.deltas = [⟨1060, inches_from_mm 1⟩, ⟨1120, inches_from_mm 1⟩, ⟨1180, inches_from_mm 1⟩, ⟨1240, inches_from_mm 1⟩, ⟨1300, inches_from_mm 1⟩, ⟨1360, inches_from_mm 1⟩, ⟨1420, inches_from_mm 1⟩, ⟨1480, inches_from_mm 1⟩, ⟨1540, inches_from_mm 1⟩, ⟨1600, inches_from_mm 1⟩, ⟨1660, inches_from_mm 1⟩, ⟨1720, inches_from_mm 1⟩, ⟨1780, inches_from_mm 1⟩, ⟨1840, inches_from_mm 1⟩, ⟨1900, inches_from_mm 1⟩, ⟨1960, inches_from_mm 1⟩, ⟨2020, inches_from_mm 1⟩, ⟨2080, inches_from_mm 1⟩, ⟨2140, inches_from_mm 1⟩, ⟨2200, inches_from_mm 1⟩, ⟨2260, inches_from_mm 1⟩, ⟨2320, inches_from_mm 1⟩, ⟨2380, inches_from_mm 1⟩, ⟨2440, inches_from_mm 1⟩, ⟨2500, inches_from_mm 1⟩, ⟨2560, inches_from_mm 1⟩, ⟨2620, inches_from_mm 1⟩, ⟨2680, inches_from_mm 1⟩, ⟨2740, inches_from_mm 1⟩, ⟨2800, inches_from_mm 1⟩, ⟨2860, inches_from_mm 1⟩, ⟨2920, inches_from_mm 1⟩, ⟨2980, inches_from_mm 1⟩, ⟨3040, inches_from_mm 1⟩, ⟨3100, inches_from_mm 1⟩, ⟨3160, inches_from_mm 1⟩, ⟨3220, inches_from_mm 1⟩, ⟨3280, inches_from_mm 1⟩, ⟨3340, inches_from_mm 1⟩, ⟨3400, inches_from_mm 1⟩, ⟨3460, inches_from_mm 1⟩, ⟨3520, inches_from_mm 1⟩, ⟨3580, inches_from_mm 1⟩, ⟨3640, inches_from_mm 1⟩] ∧ scen44.last_rain_mm = 45 := by
    have h := process_accept_window scen43 { rain_mm := some 45 } 3640 45 rfl
      (by norm_num) (by rw [g43.2]; norm_num) (by rw [g43.2]; norm_num)
    constructor
    · unfold scen44
      rw [h.1, g43.1, g43.2, show ((45 : ℚ) - 44) = 1 by norm_num,
        hourly_scan_all_in _ _ (by decide)]
      all_goals rfl
    · unfold scen44
      rw [h.2.2.1]
  have g45 : scen45.deltas = [⟨1060, inches_from_mm 1⟩, ⟨1120, inches_from_mm 1⟩, ⟨1180, inches_from_mm 1⟩, ⟨1240, inches_from_mm 1⟩, ⟨1300, inches_from_mm 1⟩, ⟨1360, inches_from_mm 1⟩, ⟨1420, inches_from_mm 1⟩, ⟨1480, inches_from_mm 1⟩, ⟨1540, inches_from_mm 1⟩, ⟨1600, inches_from_mm 1⟩, ⟨1660, inches_from_mm 1⟩, ⟨1720, inches_from_mm 1⟩, ⟨1780, inches_from_mm 1⟩, ⟨1840, inches_from_mm 1⟩, ⟨1900, inches_from_mm 1⟩, ⟨1960, inches_from_mm 1⟩, ⟨2020, inches_from_mm 1⟩, ⟨2080, inches_from_mm 1⟩, ⟨2140, inches_from_mm 1⟩, ⟨2200, inches_from_mm 1⟩, ⟨2260, inches_from_mm 1⟩, ⟨2320, inches_from_mm 1⟩, ⟨2380, inches_from_mm 1⟩, ⟨2440, inches_from_mm 1⟩, ⟨2500, inches_from_mm 1⟩, ⟨2560, inches_from_mm 1⟩, ⟨2620, inches_from_mm 1⟩, ⟨2680, inches_from_mm 1⟩, ⟨2740, inches_from_mm 1⟩, ⟨2800, inches_from_mm 1⟩, ⟨2860, inches_from_mm 1⟩, ⟨2920, inches_from_mm 1⟩, ⟨2980, inches_from_mm 1⟩, ⟨3040, inches_from_mm 1⟩, ⟨3100, inches_from_mm 1⟩, ⟨3160, inches_from_mm 1⟩, ⟨3220, inches_from_mm 1⟩, ⟨3280, inches_from_mm 1⟩, ⟨3340, inches_from_mm 1⟩, ⟨3400, inches_from_mm 1⟩, ⟨3460, inches_from_mm 1⟩, ⟨3520, inches_from_mm 1⟩, ⟨3580, inches_from_mm 1⟩, ⟨3640, inches_from_mm 1⟩, ⟨3700, inches_from_mm 1⟩] ∧ scen45.last_rain_mm = 46 := by
    have h := process_accept_window scen44 { rain_mm := some 46 } 3700 46 rfl
      (by norm_num) (by rw [g44.2]; norm_num) (by rw [g44.2]; norm_num)
    constructor
    · unfold scen45
      rw [h.1, g44.1, g44.2, show ((46 : ℚ) - 45) = 1 by norm_num,
        hourly_scan_all_in _ _ (by decide)]
      all_goals rfl
    · unfold scen45
      rw [h.2.2.1]
  have g46 : scen46.deltas = [⟨1060, inches_from_mm 1⟩, ⟨1120, inches_from_mm 1⟩, ⟨1180, inches_from_mm 1⟩, ⟨1240, inches_from_mm 1⟩, ⟨1300, inches_from_mm 1⟩, ⟨1360, inches_from_mm 1⟩, ⟨1420, inches_from_mm 1⟩, ⟨1480, inches_from_mm 1⟩, ⟨1540, inches_from_mm 1⟩, ⟨1600, inches_from_mm 1⟩, ⟨1660, inches_from_mm 1⟩, ⟨1720, inches_from_mm 1⟩, ⟨1780, inches_from_mm 1⟩, ⟨1840, inches_from_mm 1⟩, ⟨1900, inches_from_mm 1⟩, ⟨1960, inches_from_mm 1⟩, ⟨2020, inches_from_mm 1⟩, ⟨2080, inches_from_mm 1⟩, ⟨2140, inches_from_mm 1⟩, ⟨2200, inches_from_mm 1⟩, ⟨2260, inches_from_mm 1⟩, ⟨2320, inches_from_mm 1⟩, ⟨2380, inches_from_mm 1⟩, ⟨2440, inches_from_mm 1⟩, ⟨2500, inches_from_mm 1⟩, ⟨2560, inches_from_mm 1⟩, ⟨2620, inches_from_mm 1⟩, ⟨2680, inches_from_mm 1⟩, ⟨2740, inches_from_mm 1⟩, ⟨2800, inches_from_mm 1⟩, ⟨2860, inches_from_mm 1⟩, ⟨2920, inches_from_mm 1⟩, ⟨2980, inches_from_mm 1⟩, ⟨3040, inches_from_mm 1⟩, ⟨3100, inches_from_mm 1⟩, ⟨3160, inches_from_mm 1⟩, ⟨3220, inches_from_mm 1⟩, ⟨3280, inches_from_mm 1⟩, ⟨3340, inches_from_mm 1⟩, ⟨3400, inches_from_mm 1⟩, ⟨3460, inches_from_mm 1⟩, ⟨3520, inches_from_mm 1⟩, ⟨3580, inches_from_mm 1⟩, ⟨3640, inches_from_mm 1⟩, ⟨3700, inches_from_mm 1⟩, ⟨3760, inches_from_mm 1⟩] ∧ scen46.last_rain_mm = 47 := by
    have h := process_accept_window scen45 { rain_mm := some 47 } 3760 47 rfl
      (by norm_num) (by rw [g45.2]; norm_num) (by rw [g45.2]; norm_num)
    constructor
    · unfold scen46
      rw [h.1, g45.1, g45.2, show ((47 : ℚ) - 46) = 1 by norm_num,
        hourly_scan_all_in _ _ (by decide)]
      all_goals rfl
    · unfold scen46
      rw [h.2.2.1]
  have g47 : scen47.deltas = [⟨1060, inches_from_mm 1⟩, ⟨1120, inches_from_mm 1⟩, ⟨1180, inches_from_mm 1⟩, ⟨1240, inches_from_mm 1⟩, ⟨1300, inches_from_mm 1⟩, ⟨1360, inches_from_mm 1⟩, ⟨1420, inches_from_mm 1⟩, ⟨1480, inches_from_mm 1⟩, ⟨1540, inches_from_mm 1⟩, ⟨1600, inches_from_mm 1⟩, ⟨1660, inches_from_mm 1⟩, ⟨1720, inches_from_mm 1⟩, ⟨1780, inches_from_mm 1⟩, ⟨1840, inches_from_mm 1⟩, ⟨1900, inches_from_mm 1⟩, ⟨1960, inches_from_mm 1⟩, ⟨2020, inches_from_mm 1⟩, ⟨2080, inches_from_mm 1⟩, ⟨2140, inches_from_mm 1⟩, ⟨2200, inches_from_mm 1⟩, ⟨2260, inches_from_mm 1⟩, ⟨2320, inches_from_mm 1⟩, ⟨2380, inches_from_mm 1⟩, ⟨2440, inches_from_mm 1⟩, ⟨2500, inches_from_mm 1⟩, ⟨2560, inches_from_mm 1⟩, ⟨2620, inches_from_mm 1⟩, ⟨2680, inches_from_mm 1⟩, ⟨2740, inches_from_mm 1⟩, ⟨2800, inches_from_mm 1⟩, ⟨2860, inches_from_mm 1⟩, ⟨2920, inches_from_mm 1⟩, ⟨2980, inches_from_mm 1⟩, ⟨3040, inches_from_mm 1⟩, ⟨3100, inches_from_mm 1⟩, ⟨3160, inches_from_mm 1⟩, ⟨3220, inches_from_mm 1⟩, ⟨3280, inches_from_mm 1⟩, ⟨3340, inches_from_mm 1⟩, ⟨3400, inches_from_mm 1⟩, ⟨3460, inches_from_mm 1⟩, ⟨3520, inches_from_mm 1⟩, ⟨3580, inches_from_mm 1⟩, ⟨3640, inches_from_mm 1⟩, ⟨3700, inches_from_mm 1⟩, ⟨3760, inches_from_mm 1⟩, ⟨3820, inches_from_mm 1⟩] ∧ scen47.last_rain_mm = 48 := by
    have h := process_accept_window scen46 { rain_mm := some 48 } 3820 48 rfl
      (by norm_num) (by rw [g46.2]; norm_num) (by rw [g46.2]; norm_num)
    constructor
    · unfold scen47
      rw [h.1, g46.1, g46.2, show ((48 : ℚ) - 47) = 1 by norm_num,
        hourly_scan_all_in _ _ (by decide)]
      all_goals rfl
    · unfold scen47
      rw [h.2.2.1]
  have g48 : scen48.deltas = [⟨1060, inches_from_mm 1⟩, ⟨1120, inches_from_mm 1⟩, ⟨1180, inches_from_mm 1⟩, ⟨1240, inches_from_mm 1⟩, ⟨1300, inches_from_mm 1⟩, ⟨1360, inches_from_mm 1⟩, ⟨1420, inches_from_mm 1⟩, ⟨1480, inches_from_mm 1⟩, ⟨1540, inches_from_mm 1⟩, ⟨1600, inches_from_mm 1⟩, ⟨1660, inches_from_mm 1⟩, ⟨1720, inches_from_mm 1⟩, ⟨1780, inches_from_mm 1⟩, ⟨1840, inches_from_mm 1⟩, ⟨1900, inches_from_mm 1⟩, ⟨1960, inches_from_mm 1⟩, ⟨2020, inches_from_mm 1⟩, ⟨2080, inches_from_mm 1⟩, ⟨2140, inches_from_mm 1⟩, ⟨2200, inches_from_mm 1⟩, ⟨2260, inches_from_mm 1⟩, ⟨2320, inches_from_mm 1⟩, ⟨2380, inches_from_mm 1⟩, ⟨2440, inches_from_mm 1⟩, ⟨2500, inches_from_mm 1⟩, ⟨2560, inches_from_mm 1⟩, ⟨2620, inches_from_mm 1⟩, ⟨2680, inches_from_mm 1⟩, ⟨2740, inches_from_mm 1⟩, ⟨2800, inches_from_mm 1⟩, ⟨2860, inches_from_mm 1⟩, ⟨2920, inches_from_mm 1⟩, ⟨2980, inches_from_mm 1⟩, ⟨3040, inches_from_mm 1⟩, ⟨3100, inches_from_mm 1⟩, ⟨3160, inches_from_mm 1⟩, ⟨3220, inches_from_mm 1⟩, ⟨3280, inches_from_mm 1⟩, ⟨3340, inches_from_mm 1⟩, ⟨3400, inches_from_mm 1⟩, ⟨3460, inches_from_mm 1⟩, ⟨3520, inches_from_mm 1⟩, ⟨3580, inches_from_mm 1⟩, ⟨3640, inches_from_mm 1⟩, ⟨3700, inches_from_mm 1⟩, ⟨3760, inches_from_mm 1⟩, ⟨3820, inches_from_mm 1⟩, ⟨3880, inches_from_mm 1⟩] ∧ scen48.last_rain_mm = 49 := by
    have h := process_accept_window scen47 { rain_mm := some 49 } 3880 49 rfl
      (by norm_num) (by rw [g47.2]; norm_num) (by rw [g47.2]; norm_num)
    constructor
    · unfold scen48
      rw [h.1, g47.1, g47.2, show ((49 : ℚ) - 48) = 1 by norm_num,
        hourly_scan_all_in _ _ (by decide)]
      all_goals rfl
    · unfold scen48
      rw [h.2.2.1]
  have g49 : scen49.deltas = [⟨1060, inches_from_mm 1⟩, ⟨1120, inches_from_mm 1⟩, ⟨1180, inches_from_mm 1⟩, ⟨1240, inches_from_mm 1⟩, ⟨1300, inches_from_mm 1⟩, ⟨1360, inches_from_mm 1⟩, ⟨1420, inches_from_mm 1⟩, ⟨1480, inches_from_mm 1⟩, ⟨1540, inches_from_mm 1⟩, ⟨1600, inches_from_mm 1⟩, ⟨1660, inches_from_mm 1⟩, ⟨1720, inches_from_mm 1⟩, ⟨1780, inches_from_mm 1⟩, ⟨1840, inches_from_mm 1⟩, ⟨1900, inches_from_mm 1⟩, ⟨1960, inches_from_mm 1⟩, ⟨2020, inches_from_mm 1⟩, ⟨2080, inches_from_mm 1⟩, ⟨2140, inches_from_mm 1⟩, ⟨2200, inches_from_mm 1⟩, ⟨2260, inches_from_mm 1⟩, ⟨2320, inches_from_mm 1⟩, ⟨2380, inches_from_mm 1⟩, ⟨2440, inches_from_mm 1⟩, ⟨2500, inches_from_mm 1⟩, ⟨2560, inches_from_mm 1⟩, ⟨2620, inches_from_mm 1⟩, ⟨2680, inches_from_mm 1⟩, ⟨2740, inches_from_mm 1⟩, ⟨2800, inches_from_mm 1⟩, ⟨2860, inches_from_mm 1⟩, ⟨2920, inches_from_mm 1⟩, ⟨2980, inches_from_mm 1⟩, ⟨3040, inches_from_mm 1⟩, ⟨3100, inches_from_mm 1⟩, ⟨3160, inches_from_mm 1⟩, ⟨3220, inches_from_mm 1⟩, ⟨3280, inches_from_mm 1⟩, ⟨3340, inches_from_mm 1⟩, ⟨3400, inches_from_mm 1⟩, ⟨3460, inches_from_mm 1⟩, ⟨3520, inches_from_mm 1⟩, ⟨3580, inches_from_mm 1⟩, ⟨3640, inches_from_mm 1⟩, ⟨3700, inches_from_mm 1⟩, ⟨3760, inches_from_mm 1⟩, ⟨3820, inches_from_mm 1⟩, ⟨3880, inches_from_mm 1⟩, ⟨3940, inches_from_mm 1⟩] ∧ scen49.last_rain_mm = 50 := by
    have h := process_accept_window scen48 { rain_mm := some 50 } 3940 50 rfl
      (by norm_num) (by rw [g48.2]; norm_num) (by rw [g48.2]; norm_num)
    constructor
    · unfold scen49
      rw [h.1, g48.1, g48.2, show ((50 : ℚ) - 49) = 1 by norm_num,
        hourly_scan_all_in _ _ (by decide)]
      all_goals rfl
    · unfold scen49
      rw [h.2.2.1]
  have g50 : scen50.deltas = [⟨1060, inches_from_mm 1⟩, ⟨1120, inches_from_mm 1⟩, ⟨1180, inches_from_mm 1⟩, ⟨1240, inches_from_mm 1⟩, ⟨1300, inches_from_mm 1⟩, ⟨1360, inches_from_mm 1⟩, ⟨1420, inches_from_mm 1⟩, ⟨1480, inches_from_mm 1⟩, ⟨1540, inches_from_mm 1⟩, ⟨1600, inches_from_mm 1⟩, ⟨1660, inches_from_mm 1⟩, ⟨1720, inches_from_mm 1⟩, ⟨1780, inches_from_mm 1⟩, ⟨1840, inches_from_mm 1⟩, ⟨1900, inches_from_mm 1⟩, ⟨1960, inches_from_mm 1⟩, ⟨2020, inches_from_mm 1⟩, ⟨2080, inches_from_mm 1⟩, ⟨2140, inches_from_mm 1⟩, ⟨2200, inches_from_mm 1⟩, ⟨2260, inches_from_mm 1⟩, ⟨2320, inches_from_mm 1⟩, ⟨2380, inches_from_mm 1⟩, ⟨2440, inches_from_mm 1⟩, ⟨2500, inches_from_mm 1⟩, ⟨2560, inches_from_mm 1⟩, ⟨2620, inches_from_mm 1⟩, ⟨2680, inches_from_mm 1⟩, ⟨2740, inches_from_mm 1⟩, ⟨2800, inches_from_mm 1⟩, ⟨2860, inches_from_mm 1⟩, ⟨2920, inches_from_mm 1⟩, ⟨2980, inches_from_mm 1⟩, ⟨3040, inches_from_mm 1⟩, ⟨3100, inches_from_mm 1⟩, ⟨3160, inches_from_mm 1⟩, ⟨3220, inches_from_mm 1⟩, ⟨3280, inches_from_mm 1⟩, ⟨3340, inches_from_mm 1⟩, ⟨3400, inches_from_mm 1⟩, ⟨3460, inches_from_mm 1⟩, ⟨3520, inches_from_mm 1⟩, ⟨3580, inches_from_mm 1⟩, ⟨3640, inches_from_mm 1⟩, ⟨3700, inches_from_mm 1⟩, ⟨3760, inches_from_mm 1⟩, ⟨3820, inches_from_mm 1⟩, ⟨3880, inches_from_mm 1⟩, ⟨3940, inches_from_mm 1⟩, ⟨4000, inches_from_mm 1⟩] ∧ scen50.last_rain_mm = 51 := by
    have h := process_accept_window scen49 { rain_mm := some 51 } 4000 51 rfl
      (by norm_num) (by rw [g49.2]; norm_num) (by rw [g49.2]; norm_num)
    constructor
    · unfold scen50
      rw [h.1, g49.1, g49.2, show ((51 : ℚ) - 50) = 1 by norm_num,
        hourly_scan_all_in _ _ (by decide)]
      all_goals rfl
    · unfold scen50
      rw [h.2.2.1]
  have g51 : scen51.deltas = [⟨1060, inches_from_mm 1⟩, ⟨1120, inches_from_mm 1⟩, ⟨1180, inches_from_mm 1⟩, ⟨1240, inches_from_mm 1⟩, ⟨1300, inches_from_mm 1⟩, ⟨1360, inches_from_mm 1⟩, ⟨1420, inches_from_mm 1⟩, ⟨1480, inches_from_mm 1⟩, ⟨1540, inches_from_mm 1⟩, ⟨1600, inches_from_mm 1⟩, ⟨1660, inches_from_mm 1⟩, ⟨1720, inches_from_mm 1⟩, ⟨1780, inches_from_mm 1⟩, ⟨1840, inches_from_mm 1⟩, ⟨1900, inches_from_mm 1⟩, ⟨1960, inches_from_mm 1⟩, ⟨2020, inches_from_mm 1⟩, ⟨2080, inches_from_mm 1⟩, ⟨2140, inches_from_mm 1⟩, ⟨2200, inches_from_mm 1⟩, ⟨2260, inches_from_mm 1⟩, ⟨2320, inches_from_mm 1⟩, ⟨2380, inches_from_mm 1⟩, ⟨2440, inches_from_mm 1⟩, ⟨2500, inches_from_mm 1⟩, ⟨2560, inches_from_mm 1⟩, ⟨2620, inches_from_mm 1⟩, ⟨2680, inches_from_mm 1⟩, ⟨2740, inches_from_mm 1⟩, ⟨2800, inches_from_mm 1⟩, ⟨2860, inches_from_mm 1⟩, ⟨2920, inches_from_mm 1⟩, ⟨2980, inches_from_mm 1⟩, ⟨3040, inches_from_mm 1⟩, ⟨3100, inches_from_mm 1⟩, ⟨3160, inches_from_mm 1⟩, ⟨3220, inches_from_mm 1⟩, ⟨3280, inches_from_mm 1⟩, ⟨3340, inches_from_mm 1⟩, ⟨3400, inches_from_mm 1⟩, ⟨3460, inches_from_mm 1⟩, ⟨3520, inches_from_mm 1⟩, ⟨3580, inches_from_mm 1⟩, ⟨3640, inches_from_mm 1⟩, ⟨3700, inches_from_mm 1⟩, ⟨3760, inches_from_mm 1⟩, ⟨3820, inches_from_mm 1⟩, ⟨3880, inches_from_mm 1⟩, ⟨3940, inches_from_mm 1⟩, ⟨4000, inches_from_mm 1⟩, ⟨4060, inches_from_mm 1⟩] ∧ scen51.last_rain_mm = 52 := by
    have h := process_accept_window scen50 { rain_mm := some 52 } 4060 52 rfl
      (by norm_num) (by rw [g50.2]; norm_num) (by rw [g50.2]; norm_num)
    constructor
    · unfold scen51
      rw [h.1, g50.1, g50.2, show ((52 : ℚ) - 51) = 1 by norm_num,
        hourly_scan_all_in _ _ (by decide)]
      all_goals rfl
    · unfold scen51
      rw [h.2.2.1]
  have g52 : scen52.deltas = [⟨1060, inches_from_mm 1⟩, ⟨1120, inches_from_mm 1⟩, ⟨1180, inches_from_mm 1⟩, ⟨1240, inches_from_mm 1⟩, ⟨1300, inches_from_mm 1⟩, ⟨1360, inches_from_mm 1⟩, ⟨1420, inches_from_mm 1⟩, ⟨1480, inches_from_mm 1⟩, ⟨1540, inches_from_mm 1⟩, ⟨1600, inches_from_mm 1⟩, ⟨1660, inches_from_mm 1⟩, ⟨1720, inches_from_mm 1⟩, ⟨1780, inches_from_mm 1⟩, ⟨1840, inches_from_mm 1⟩, ⟨1900, inches_from_mm 1⟩, ⟨1960, inches_from_mm 1⟩, ⟨2020, inches_from_mm 1⟩, ⟨2080, inches_from_mm 1⟩, ⟨2140, inches_from_mm 1⟩, ⟨2200, inches_from_mm 1⟩, ⟨2260, inches_from_mm 1⟩, ⟨2320, inches_from_mm 1⟩, ⟨2380, inches_from_mm 1⟩, ⟨2440, inches_from_mm 1⟩, ⟨2500, inches_from_mm 1⟩, ⟨2560, inches_from_mm 1⟩, ⟨2620, inches_from_mm 1⟩, ⟨2680, inches_from_mm 1⟩, ⟨2740, inches_from_mm 1⟩, ⟨2800, inches_from_mm 1⟩, ⟨2860, inches_from_mm 1⟩, ⟨2920, inches_from_mm 1⟩, ⟨2980, inches_from_mm 1⟩, ⟨3040, inches_from_mm 1⟩, ⟨3100, inches_from_mm 1⟩, ⟨3160, inches_from_mm 1⟩, ⟨3220, inches_from_mm 1⟩, ⟨3280, inches_from_mm 1⟩, ⟨3340, inches_from_mm 1⟩, ⟨3400, inches_from_mm 1⟩, ⟨3460, inches_from_mm 1⟩, ⟨3520, inches_from_mm 1⟩, ⟨3580, inches_from_mm 1⟩, ⟨3640, inches_from_mm 1⟩, ⟨3700, inches_from_mm 1⟩, ⟨3760, inches_from_mm 1⟩, ⟨3820, inches_from_mm 1⟩, ⟨3880, inches_from_mm 1⟩, ⟨3940, inches_from_mm 1⟩, ⟨4000, inches_from_mm 1⟩, ⟨4060, inches_from_mm 1⟩, ⟨4120, inches_from_mm 1⟩] ∧ scen52.last_rain_mm = 53 := by
    have h := process_accept_window scen51 { rain_mm := some 53 } 4120 53 rfl
      (by norm_num) (by rw [g51.2]; norm_num) (by rw [g51.2]; norm_num)
    constructor
    · unfold scen52
      rw [h.1, g51.1, g51.2, show ((53 : ℚ) - 52) = 1 by norm_num,
        hourly_scan_all_in _ _ (by decide)]
      all_goals rfl
    · unfold scen52
      rw [h.2.2.1]
  have g53 : scen53.deltas = [⟨1060, inches_from_mm 1⟩, ⟨1120, inches_from_mm 1⟩, ⟨1180, inches_from_mm 1⟩, ⟨1240, inches_from_mm 1⟩, ⟨1300, inches_from_mm 1⟩, ⟨1360, inches_from_mm 1⟩, ⟨1420, inches_from_mm 1⟩, ⟨1480, inches_from_mm 1⟩, ⟨1540, inches_from_mm 1⟩, ⟨1600, inches_from_mm 1⟩, ⟨1660, inches_from_mm 1⟩, ⟨1720, inches_from_mm 1⟩, ⟨1780, inches_from_mm 1⟩, ⟨1840, inches_from_mm 1⟩, ⟨1900, inches_from_mm 1⟩, ⟨1960, inches_from_mm 1⟩, ⟨2020, inches_from_mm 1⟩, ⟨2080, inches_from_mm 1⟩, ⟨2140, inches_from_mm 1⟩, ⟨2200, inches_from_mm 1⟩, ⟨2260, inches_from_mm 1⟩, ⟨2320, inches_from_mm 1⟩, ⟨2380, inches_from_mm 1⟩, ⟨2440, inches_from_mm 1⟩, ⟨2500, inches_from_mm 1⟩, ⟨2560, inches_from_mm 1⟩, ⟨2620, inches_from_mm 1⟩, ⟨2680, inches_from_mm 1⟩, ⟨2740, inches_from_mm 1⟩, ⟨2800, inches_from_mm 1⟩, ⟨2860, inches_from_mm 1⟩, ⟨2920, inches_from_mm 1⟩, ⟨2980, inches_from_mm 1⟩, ⟨3040, inches_from_mm 1⟩, ⟨3100, inches_from_mm 1⟩, ⟨3160, inches_from_mm 1⟩, ⟨3220, inches_from_mm 1⟩, ⟨3280, inches_from_mm 1⟩, ⟨3340, inches_from_mm 1⟩, ⟨3400, inches_from_mm 1⟩, ⟨3460, inches_from_mm 1⟩, ⟨3520, inches_from_mm 1⟩, ⟨3580, inches_from_mm 1⟩, ⟨3640, inches_from_mm 1⟩, ⟨3700, inches_from_mm 1⟩, ⟨3760, inches_from_mm 1⟩, ⟨3820, inches_from_mm 1⟩, ⟨3880, inches_from_mm 1⟩, ⟨3940, inches_from_mm 1⟩, ⟨4000, inches_from_mm 1⟩, ⟨4060, inches_from_mm 1⟩, ⟨4120, inches_from_mm 1⟩, ⟨4180, inches_from_mm 1⟩] ∧ scen53.last_rain_mm = 54 := by
    have h := process_accept_window scen52 { rain_mm := some 54 } 4180 54 rfl
      (by norm_num) (by rw [g52.2]; norm_num) (by rw [g52.2]; norm_num)
    constructor
    · unfold scen53
      rw [h.1, g52.1, g52.2, show ((54 : ℚ) - 53) = 1 by norm_num,
        hourly_scan_all_in _ _ (by decide)]
      all_goals rfl
    · unfold scen53
      rw [h.2.2.1]
  have g54 : scen54.deltas = [⟨1060, inches_from_mm 1⟩, ⟨1120, inches_from_mm 1⟩, ⟨1180, inches_from_mm 1⟩, ⟨1240, inches_from_mm 1⟩, ⟨1300, inches_from_mm 1⟩, ⟨1360, inches_from_mm 1⟩, ⟨1420, inches_from_mm 1⟩, ⟨1480, inches_from_mm 1⟩, ⟨1540, inches_from_mm 1⟩, ⟨1600, inches_from_mm 1⟩, ⟨1660, inches_from_mm 1⟩, ⟨1720, inches_from_mm 1⟩, ⟨1780, inches_from_mm 1⟩, ⟨1840, inches_from_mm 1⟩, ⟨1900, inches_from_mm 1⟩, ⟨1960, inches_from_mm 1⟩, ⟨2020, inches_from_mm 1⟩, ⟨2080, inches_from_mm 1⟩, ⟨2140, inches_from_mm 1⟩, ⟨2200, inches_from_mm 1⟩, ⟨2260, inches_from_mm 1⟩, ⟨2320, inches_from_mm 1⟩, ⟨2380, inches_from_mm 1⟩, ⟨2440, inches_from_mm 1⟩, ⟨2500, inches_from_mm 1⟩, ⟨2560, inches_from_mm 1⟩, ⟨2620, inches_from_mm 1⟩, ⟨2680, inches_from_mm 1⟩, ⟨2740, inches_from_mm 1⟩, ⟨2800, inches_from_mm 1⟩, ⟨2860, inches_from_mm 1⟩, ⟨2920, inches_from_mm 1⟩, ⟨2980, inches_from_mm 1⟩, ⟨3040, inches_from_mm 1⟩, ⟨3100, inches_from_mm 1⟩, ⟨3160, inches_from_mm 1⟩, ⟨3220, inches_from_mm 1⟩, ⟨3280, inches_from_mm 1⟩, ⟨3340, inches_from_mm 1⟩, ⟨3400, inches_from_mm 1⟩, ⟨3460, inches_from_mm 1⟩, ⟨3520, inches_from_mm 1⟩, ⟨3580, inches_from_mm 1⟩, ⟨3640, inches_from_mm 1⟩, ⟨3700, inches_from_mm 1⟩, ⟨3760, inches_from_mm 1⟩, ⟨3820, inches_from_mm 1⟩, ⟨3880, inches_from_mm 1⟩, ⟨3940, inches_from_mm 1⟩, ⟨4000, inches_from_mm 1⟩, ⟨4060, inches_from_mm 1⟩, ⟨4120, inches_from_mm 1⟩, ⟨4180, inches_from_mm 1⟩, ⟨4240, inches_from_mm 1⟩] ∧ scen54.last_rain_mm = 55 := by
    have h := process_accept_window scen53 { rain_mm := some 55 } 4240 55 rfl
      (by norm_num) (by rw [g53.2]; norm_num) (by rw [g53.2]; norm_num)
    constructor
    · unfold scen54
      rw [h.1, g53.1, g53.2, show ((55 : ℚ) - 54) = 1 by norm_num,
        hourly_scan_all_in _ _ (by decide)]
      all_goals rfl
    · unfold scen54
      rw [h.2.2.1]
  have g55 : scen55.deltas = [⟨1060, inches_from_mm 1⟩, ⟨1120, inches_from_mm 1⟩, ⟨1180, inches_from_mm 1⟩, ⟨1240, inches_from_mm 1⟩, ⟨1300, inches_from_mm 1⟩, ⟨1360, inches_from_mm 1⟩, ⟨1420, inches_from_mm 1⟩, ⟨1480, inches_from_mm 1⟩, ⟨1540, inches_from_mm 1⟩, ⟨1600, inches_from_mm 1⟩, ⟨1660, inches_from_mm 1⟩, ⟨1720, inches_from_mm 1⟩, ⟨1780, inches_from_mm 1⟩, ⟨1840, inches_from_mm 1⟩, ⟨1900, inches_from_mm 1⟩, ⟨1960, inches_from_mm 1⟩, ⟨2020, inches_from_mm 1⟩, ⟨2080, inches_from_mm 1⟩, ⟨2140, inches_from_mm 1⟩, ⟨2200, inches_from_mm 1⟩, ⟨2260, inches_from_mm 1⟩, ⟨2320, inches_from_mm 1⟩, ⟨2380, inches_from_mm 1⟩, ⟨2440, inches_from_mm 1⟩, ⟨2500, inches_from_mm 1⟩, ⟨2560, inches_from_mm 1⟩, ⟨2620, inches_from_mm 1⟩, ⟨2680, inches_from_mm 1⟩, ⟨2740, inches_from_mm 1⟩, ⟨2800, inches_from_mm 1⟩, ⟨2860, inches_from_mm 1⟩, ⟨2920, inches_from_mm 1⟩, ⟨2980, inches_from_mm 1⟩, ⟨3040, inches_from_mm 1⟩, ⟨3100, inches_from_mm 1⟩, ⟨3160, inches_from_mm 1⟩, ⟨3220, inches_from_mm 1⟩, ⟨3280, inches_from_mm 1⟩, ⟨3340, inches_from_mm 1⟩, ⟨3400, inches_from_mm 1⟩, ⟨3460, inches_from_mm 1⟩, ⟨3520, inches_from_mm 1⟩, ⟨3580, inches_from_mm 1⟩, ⟨3640, inches_from_mm 1⟩, ⟨3700, inches_from_mm 1⟩, ⟨3760, inches_from_mm 1⟩, ⟨3820, inches_from_mm 1⟩, ⟨3880, inches_from_mm 1⟩, ⟨3940, inches_from_mm 1⟩, ⟨4000, inches_from_mm 1⟩, ⟨4060, inches_from_mm 1⟩, ⟨4120, inches_from_mm 1⟩, ⟨4180, inches_from_mm 1⟩, ⟨4240, inches_from_mm 1⟩, ⟨4300, inches_from_mm 1⟩] ∧ scen55.last_rain_mm = 56 := by
    have h := process_accept_window scen54 { rain_mm := some 56 } 4300 56 rfl
      (by norm_num) (by rw [g54.2]; norm_num) (by rw [g54.2]; norm_num)
    constructor
    · unfold scen55
      rw [h.1, g54.1, g54.2, show ((56 : ℚ) - 55) = 1 by norm_num,
        hourly_scan_all_in _ _ (by decide)]
      all_goals rfl
    · unfold scen55
      rw [h.2.2.1]
  have g56 : scen56.deltas = [⟨1060, inches_from_mm 1⟩, ⟨1120, inches_from_mm 1⟩, ⟨1180, inches_from_mm 1⟩, ⟨1240, inches_from_mm 1⟩, ⟨1300, inches_from_mm 1⟩, ⟨1360, inches_from_mm 1⟩, ⟨1420, inches_from_mm 1⟩, ⟨1480, inches_from_mm 1⟩, ⟨1540, inches_from_mm 1⟩, ⟨1600, inches_from_mm 1⟩, ⟨1660, inches_from_mm 1⟩, ⟨1720, inches_from_mm 1⟩, ⟨1780, inches_from_mm 1⟩, ⟨1840, inches_from_mm 1⟩, ⟨1900, inches_from_mm 1⟩, ⟨1960, inches_from_mm 1⟩, ⟨2020, inches_from_mm 1⟩, ⟨2080, inches_from_mm 1⟩, ⟨2140, inches_from_mm 1⟩, ⟨2200, inches_from_mm 1⟩, ⟨2260, inches_from_mm 1⟩, ⟨2320, inches_from_mm 1⟩, ⟨2380, inches_from_mm 1⟩, ⟨2440, inches_from_mm 1⟩, ⟨2500, inches_from_mm 1⟩, ⟨2560, inches_from_mm 1⟩, ⟨2620, inches_from_mm 1⟩, ⟨2680, inches_from_mm 1⟩, ⟨2740, inches_from_mm 1⟩, ⟨2800, inches_from_mm 1⟩, ⟨2860, inches_from_mm 1⟩, ⟨2920, inches_from_mm 1⟩, ⟨2980, inches_from_mm 1⟩, ⟨3040, inches_from_mm 1⟩, ⟨3100, inches_from_mm 1⟩, ⟨3160, inches_from_mm 1⟩, ⟨3220, inches_from_mm 1⟩, ⟨3280, inches_from_mm 1⟩, ⟨3340, inches_from_mm 1⟩, ⟨3400, inches_from_mm 1⟩, ⟨3460, inches_from_mm 1⟩, ⟨3520, inches_from_mm 1⟩, ⟨3580, inches_from_mm 1⟩, ⟨3640, inches_from_mm 1⟩, ⟨3700, inches_from_mm 1⟩, ⟨3760, inches_from_mm 1⟩, ⟨3820, inches_from_mm 1⟩, ⟨3880, inches_from_mm 1⟩, ⟨3940, inches_from_mm 1⟩, ⟨4000, inches_from_mm 1⟩, ⟨4060, inches_from_mm 1⟩, ⟨4120, inches_from_mm 1⟩, ⟨4180, inches_from_mm 1⟩, ⟨4240, inches_from_mm 1⟩, ⟨4300, inches_from_mm 1⟩, ⟨4360, inches_from_mm 1⟩] ∧ scen56.last_rain_mm = 57 := by
    have h := process_accept_window scen55 { rain_mm := some 57 } 4360 57 rfl
      (by norm_num) (by rw [g55.2]; norm_num) (by rw [g55.2]; norm_num)
    constructor
    · unfold scen56
      rw [h.1, g55.1, g55.2, show ((57 : ℚ) - 56) = 1 by norm_num,
        hourly_scan_all_in _ _ (by decide)]
      all_goals rfl
    · unfold scen56
      rw [h.2.2.1]
  have g57 : scen57.deltas = [⟨1060, inches_from_mm 1⟩, ⟨1120, inches_from_mm 1⟩, ⟨1180, inches_from_mm 1⟩, ⟨1240, inches_from_mm 1⟩, ⟨1300, inches_from_mm 1⟩, ⟨1360, inches_from_mm 1⟩, ⟨1420, inches_from_mm 1⟩, ⟨1480, inches_from_mm 1⟩, ⟨1540, inches_from_mm 1⟩, ⟨1600, inches_from_mm 1⟩, ⟨1660, inches_from_mm 1⟩, ⟨1720, inches_from_mm 1⟩, ⟨1780, inches_from_mm 1⟩, ⟨1840, inches_from_mm 1⟩, ⟨1900, inches_from_mm 1⟩, ⟨1960, inches_from_mm 1⟩, ⟨2020, inches_from_mm 1⟩, ⟨2080, inches_from_mm 1⟩, ⟨2140, inches_from_mm 1⟩, ⟨2200, inches_from_mm 1⟩, ⟨2260, inches_from_mm 1⟩, ⟨2320, inches_from_mm 1⟩, ⟨2380, inches_from_mm 1⟩, ⟨2440, inches_from_mm 1⟩, ⟨2500, inches_from_mm 1⟩, ⟨2560, inches_from_mm 1⟩, ⟨2620, inches_from_mm 1⟩, ⟨2680, inches_from_mm 1⟩, ⟨2740, inches_from_mm 1⟩, ⟨2800, inches_from_mm 1⟩, ⟨2860, inches_from_mm 1⟩, ⟨2920, inches_from_mm 1⟩, ⟨2980, inches_from_mm 1⟩, ⟨3040, inches_from_mm 1⟩, ⟨3100, inches_from_mm 1⟩, ⟨3160, inches_from_mm 1⟩, ⟨3220, inches_from_mm 1⟩, ⟨3280, inches_from_mm 1⟩, ⟨3340, inches_from_mm 1⟩, ⟨3400, inches_from_mm 1⟩, ⟨3460, inches_from_mm 1⟩, ⟨3520, inches_from_mm 1⟩, ⟨3580, inches_from_mm 1⟩, ⟨3640, inches_from_mm 1⟩, ⟨3700, inches_from_mm 1⟩, ⟨3760, inches_from_mm 1⟩, ⟨3820, inches_from_mm 1⟩, ⟨3880, inches_from_mm 1⟩, ⟨3940, inches_from_mm 1⟩, ⟨4000, inches_from_mm 1⟩, ⟨4060, inches_from_mm 1⟩, ⟨4120, inches_from_mm 1⟩, ⟨4180, inches_from_mm 1⟩, ⟨4240, inches_from_mm 1⟩, ⟨4300, inches_from_mm 1⟩, ⟨4360, inches_from_mm 1⟩, ⟨4420, inches_from_mm 1⟩] ∧ scen57.last_rain_mm = 58 := by
    have h := process_accept_window scen56 { rain_mm := some 58 } 4420 58 rfl
      (by norm_num) (by rw [g56.2]; norm_num) (by rw [g56.2]; norm_num)
    constructor
    · unfold scen57
      rw [h.1, g56.1, g56.2, show ((58 : ℚ) - 57) = 1 by norm_num,
        hourly_scan_all_in _ _ (by decide)]
      all_goals rfl
    · unfold scen57
      rw [h.2.2.1]
  have g58 : scen58.deltas = [⟨1060, inches_from_mm 1⟩, ⟨1120, inches_from_mm 1⟩, ⟨1180, inches_from_mm 1⟩, ⟨1240, inches_from_mm 1⟩, ⟨1300, inches_from_mm 1⟩, ⟨1360, inches_from_mm 1⟩, ⟨1420, inches_from_mm 1⟩, ⟨1480, inches_from_mm 1⟩, ⟨1540, inches_from_mm 1⟩, ⟨1600, inches_from_mm 1⟩, ⟨1660, inches_from_mm 1⟩, ⟨1720, inches_from_mm 1⟩, ⟨1780, inches_from_mm 1⟩, ⟨1840, inches_from_mm 1⟩, ⟨1900, inches_from_mm 1⟩, ⟨1960, inches_from_mm 1⟩, ⟨2020, inches_from_mm 1⟩, ⟨2080, inches_from_mm 1⟩, ⟨2140, inches_from_mm 1⟩, ⟨2200, inches_from_mm 1⟩, ⟨2260, inches_from_mm 1⟩, ⟨2320, inches_from_mm 1⟩, ⟨2380, inches_from_mm 1⟩, ⟨2440, inches_from_mm 1⟩, ⟨2500, inches_from_mm 1⟩, ⟨2560, inches_from_mm 1⟩, ⟨2620, inches_from_mm 1⟩, ⟨2680, inches_from_mm 1⟩, ⟨2740, inches_from_mm 1⟩, ⟨2800, inches_from_mm 1⟩, ⟨2860, inches_from_mm 1⟩, ⟨2920, inches_from_mm 1⟩, ⟨2980, inches_from_mm 1⟩, ⟨3040, inches_from_mm 1⟩, ⟨3100, inches_from_mm 1⟩, ⟨3160, inches_from_mm 1⟩, ⟨3220, inches_from_mm 1⟩, ⟨3280, inches_from_mm 1⟩, ⟨3340, inches_from_mm 1⟩, ⟨3400, inches_from_mm 1⟩, ⟨3460, inches_from_mm 1⟩, ⟨3520, inches_from_mm 1⟩, ⟨3580, inches_from_mm 1⟩, ⟨3640, inches_from_mm 1⟩, ⟨3700, inches_from_mm 1⟩, ⟨3760, inches_from_mm 1⟩, ⟨3820, inches_from_mm 1⟩, ⟨3880, inches_from_mm 1⟩, ⟨3940, inches_from_mm 1⟩, ⟨4000, inches_from_mm 1⟩, ⟨4060, inches_from_mm 1⟩, ⟨4120, inches_from_mm 1⟩, ⟨4180, inches_from_mm 1⟩, ⟨4240, inches_from_mm 1⟩, ⟨4300, inches_from_mm 1⟩, ⟨4360, inches_from_mm 1⟩, ⟨4420, inches_from_mm 1⟩, ⟨4480, inches_from_mm 1⟩] ∧ scen58.last_rain_mm = 59 := by
    have h := process_accept_window scen57 { rain_mm := some 59 } 4480 59 rfl
      (by norm_num) (by rw [g57.2]; norm_num) (by rw [g57.2]; norm_num)
    constructor
    · unfold scen58
      rw [h.1, g57.1, g57.2, show ((59 : ℚ) - 58) = 1 by norm_num,
        hourly_scan_all_in _ _ (by decide)]
      all_goals rfl
    · unfold scen58
      rw [h.2.2.1]
  have g59 : scen59.deltas = [⟨1060, inches_from_mm 1⟩, ⟨1120, inches_from_mm 1⟩, ⟨1180, inches_from_mm 1⟩, ⟨1240, inches_from_mm 1⟩, ⟨1300, inches_from_mm 1⟩, ⟨1360, inches_from_mm 1⟩, ⟨1420, inches_from_mm 1⟩, ⟨1480, inches_from_mm 1⟩, ⟨1540, inches_from_mm 1⟩, ⟨1600, inches_from_mm 1⟩, ⟨1660, inches_from_mm 1⟩, ⟨1720, inches_from_mm 1⟩, ⟨1780, inches_from_mm 1⟩, ⟨1840, inches_from_mm 1⟩, ⟨1900, inches_from_mm 1⟩, ⟨1960, inches_from_mm 1⟩, ⟨2020, inches_from_mm 1⟩, ⟨2080, inches_from_mm 1⟩, ⟨2140, inches_from_mm 1⟩, ⟨2200, inches_from_mm 1⟩, ⟨2260, inches_from_mm 1⟩, ⟨2320, inches_from_mm 1⟩, ⟨2380, inches_from_mm 1⟩, ⟨2440, inches_from_mm 1⟩, ⟨2500, inches_from_mm 1⟩, ⟨2560, inches_from_mm 1⟩, ⟨2620, inches_from_mm 1⟩, ⟨2680, inches_from_mm 1⟩, ⟨2740, inches_from_mm 1⟩, ⟨2800, inches_from_mm 1⟩, ⟨2860, inches_from_mm 1⟩, ⟨2920, inches_from_mm 1⟩, ⟨2980, inches_from_mm 1⟩, ⟨3040, inches_from_mm 1⟩, ⟨3100, inches_from_mm 1⟩, ⟨3160, inches_from_mm 1⟩, ⟨3220, inches_from_mm 1⟩, ⟨3280, inches_from_mm 1⟩, ⟨3340, inches_from_mm 1⟩, ⟨3400, inches_from_mm 1⟩, ⟨3460, inches_from_mm 1⟩, ⟨3520, inches_from_mm 1⟩, ⟨3580, inches_from_mm 1⟩, ⟨3640, inches_from_mm 1⟩, ⟨3700, inches_from_mm 1⟩, ⟨3760, inches_from_mm 1⟩, ⟨3820, inches_from_mm 1⟩, ⟨3880, inches_from_mm 1⟩, ⟨3940, inches_from_mm 1⟩, ⟨4000, inches_from_mm 1⟩, ⟨4060, inches_from_mm 1⟩, ⟨4120, inches_from_mm 1⟩, ⟨4180, inches_from_mm 1⟩, ⟨4240, inches_from_mm 1⟩, ⟨4300, inches_from_mm 1⟩, ⟨4360, inches_from_mm 1⟩, ⟨4420, inches_from_mm 1⟩, ⟨4480, inches_from_mm 1⟩, ⟨4540, inches_from_mm 1⟩] ∧ scen59.last_rain_mm = 60 := by
    have h := process_accept_window scen58 { rain_mm := some 60 } 4540 60 rfl
      (by norm_num) (by rw [g58.2]; norm_num) (by rw [g58.2]; norm_num)
    constructor
    · unfold scen59
      rw [h.1, g58.1, g58.2, show ((60 : ℚ) - 59) = 1 by norm_num,
        hourly_scan_all_in _ _ (by decide)]
      all_goals rfl
    · unfold scen59
      rw [h.2.2.1]
  have g60 : scen60.deltas = [⟨1060, inches_from_mm 1⟩, ⟨1120, inches_from_mm 1⟩, ⟨1180, inches_from_mm 1⟩, ⟨1240, inches_from_mm 1⟩, ⟨1300, inches_from_mm 1⟩, ⟨1360, inches_from_mm 1⟩, ⟨1420, inches_from_mm 1⟩, ⟨1480, inches_from_mm 1⟩, ⟨1540, inches_from_mm 1⟩, ⟨1600, inches_from_mm 1⟩, ⟨1660, inches_from_mm 1⟩, ⟨1720, inches_from_mm 1⟩, ⟨1780, inches_from_mm 1⟩, ⟨1840, inches_from_mm 1⟩, ⟨1900, inches_from_mm 1⟩, ⟨1960, inches_from_mm 1⟩, ⟨2020, inches_from_mm 1⟩, ⟨2080, inches_from_mm 1⟩, ⟨2140, inches_from_mm 1⟩, ⟨2200, inches_from_mm 1⟩, ⟨2260, inches_from_mm 1⟩, ⟨2320, inches_from_mm 1⟩, ⟨2380, inches_from_mm 1⟩, ⟨2440, inches_from_mm 1⟩, ⟨2500, inches_from_mm 1⟩, ⟨2560, inches_from_mm 1⟩, ⟨2620, inches_from_mm 1⟩, ⟨2680, inches_from_mm 1⟩, ⟨2740, inches_from_mm 1⟩, ⟨2800, inches_from_mm 1⟩, ⟨2860, inches_from_mm 1⟩, ⟨2920, inches_from_mm 1⟩, ⟨2980, inches_from_mm 1⟩, ⟨3040, inches_from_mm 1⟩, ⟨3100, inches_from_mm 1⟩, ⟨3160, inches_from_mm 1⟩, ⟨3220, inches_from_mm 1⟩, ⟨3280, inches_from_mm 1⟩, ⟨3340, inches_from_mm 1⟩, ⟨3400, inches_from_mm 1⟩, ⟨3460, inches_from_mm 1⟩, ⟨3520, inches_from_mm 1⟩, ⟨3580, inches_from_mm 1⟩, ⟨3640, inches_from_mm 1⟩, ⟨3700, inches_from_mm 1⟩, ⟨3760, inches_from_mm 1⟩, ⟨3820, inches_from_mm 1⟩, ⟨3880, inches_from_mm 1⟩, ⟨3940, inches_from_mm 1⟩, ⟨4000, inches_from_mm 1⟩, ⟨4060, inches_from_mm 1⟩, ⟨4120, inches_from_mm 1⟩, ⟨4180, inches_from_mm 1⟩, ⟨4240, inches_from_mm 1⟩, ⟨4300, inches_from_mm 1⟩, ⟨4360, inches_from_mm 1⟩, ⟨4420, inches_from_mm 1⟩, ⟨4480, inches_from_mm 1⟩, ⟨4540, inches_from_mm 1⟩, ⟨4600, inches_from_mm 1⟩] ∧ scen60.last_rain_mm = 61 := by
    have h := process_accept_window scen59 { rain_mm := some 61 } 4600 61 rfl
      (by norm_num) (by rw [g59.2]; norm_num) (by rw [g59.2]; norm_num)
    constructor
    · unfold scen60
      rw [h.1, g59.1, g59.2, show ((61 : ℚ) - 60) = 1 by norm_num,
        hourly_scan_all_in _ _ (by decide)]
      all_goals rfl
    · unfold scen60
      rw [h.2.2.1]
  have g61 : scen61.deltas = [⟨1060, inches_from_mm 1⟩, ⟨1120, inches_from_mm 1⟩, ⟨1180, inches_from_mm 1⟩, ⟨1240, inches_from_mm 1⟩, ⟨1300, inches_from_mm 1⟩, ⟨1360, inches_from_mm 1⟩, ⟨1420, inches_from_mm 1⟩, ⟨1480, inches_from_mm 1⟩, ⟨1540, inches_from_mm 1⟩, ⟨1600, inches_from_mm 1⟩, ⟨1660, inches_from_mm 1⟩, ⟨1720, inches_from_mm 1⟩, ⟨1780, inches_from_mm 1⟩, ⟨1840, inches_from_mm 1⟩, ⟨1900, inches_from_mm 1⟩, ⟨1960, inches_from_mm 1⟩, ⟨2020, inches_from_mm 1⟩, ⟨2080, inches_from_mm 1⟩, ⟨2140, inches_from_mm 1⟩, ⟨2200, inches_from_mm 1⟩, ⟨2260, inches_from_mm 1⟩, ⟨2320, inches_from_mm 1⟩, ⟨2380, inches_from_mm 1⟩, ⟨2440, inches_from_mm 1⟩, ⟨2500, inches_from_mm 1⟩, ⟨2560, inches_from_mm 1⟩, ⟨2620, inches_from_mm 1⟩, ⟨2680, inches_from_mm 1⟩, ⟨2740, inches_from_mm 1⟩, ⟨2800, inches_from_mm 1⟩, ⟨2860, inches_from_mm 1⟩, ⟨2920, inches_from_mm 1⟩, ⟨2980, inches_from_mm 1⟩, ⟨3040, inches_from_mm 1⟩, ⟨3100, inches_from_mm 1⟩, ⟨3160, inches_from_mm 1⟩, ⟨3220, inches_from_mm 1⟩, ⟨3280, inches_from_mm 1⟩, ⟨3340, inches_from_mm 1⟩, ⟨3400, inches_from_mm 1⟩, ⟨3460, inches_from_mm 1⟩, ⟨3520, inches_from_mm 1⟩, ⟨3580, inches_from_mm 1⟩, ⟨3640, inches_from_mm 1⟩, ⟨3700, inches_from_mm 1⟩, ⟨3760, inches_from_mm 1⟩, ⟨3820, inches_from_mm 1⟩, ⟨3880, inches_from_mm 1⟩, ⟨3940, inches_from_mm 1⟩, ⟨4000, inches_from_mm 1⟩, ⟨4060, inches_from_mm 1⟩, ⟨4120, inches_from_mm 1⟩, ⟨4180, inches_from_mm 1⟩, ⟨4240, inches_from_mm 1⟩, ⟨4300, inches_from_mm 1⟩, ⟨4360, inches_from_mm 1⟩, ⟨4420, inches_from_mm 1⟩, ⟨4480, inches_from_mm 1⟩, ⟨4540, inches_from_mm 1⟩, ⟨4600, inches_from_mm 1⟩, ⟨4660, inches_from_mm 1⟩] ∧ scen61.last_rain_mm = 62 := by
    have h := process_accept_window scen60 { rain_mm := some 62 } 4660 62 rfl
      (by norm_num) (by rw [g60.2]; norm_num) (by rw [g60.2]; norm_num)
    constructor
    · unfold scen61
      rw [h.1, g60.1, g60.2, show ((62 : ℚ) - 61) = 1 by norm_num,
        hourly_scan_all_in _ _ (by decide)]
      all_goals rfl
    · unfold scen61
      rw [h.2.2.1]
  have h := process_accept_window scen61 { rain_mm := some 63 } 4720 63 rfl
    (by norm_num) (by rw [g61.2]; norm_num) (by rw [g61.2]; norm_num)
  refine ⟨?_, ?_, ?_⟩
  · unfold scen62
    rw [h.1, g61.1, g61.2, show ((63 : ℚ) - 62) = 1 by norm_num, List.cons_append,
      hourly_scan_cons_out _ _ _ (by decide), hourly_scan_all_in _ _ (by decide)]
    all_goals rfl
  · unfold scen62
    rw [h.2.1, g61.1, g61.2, show ((63 : ℚ) - 62) = 1 by norm_num, List.cons_append,
      hourly_scan_cons_out _ _ _ (by decide), hourly_scan_all_in _ _ (by decide)]
    norm_num [inches_from_mm]
  · unfold scen62
    rw [h.2.2.2]


/-- Claim C3 (amended): after each ingest that accepts a rain delta, the
stored hourly delta sequence contains only deltas within 3600 seconds of
that ingest's time and `hourly_in` equals the sum of their inches; an ingest
that accepts no delta leaves the sequence and `hourly_in` untouched, so
entries older than an hour may persist until the next accepted delta; and
after simulating 61 minutes of 1 mm-per-minute rain with no rollover,
`hourly_in` reflects only the deltas of the most recent 60 minutes, the
oldest delta (t = 1060) having been evicted. -/
theorem claim_C3 (st : WeatherStateV2) (s : Sample) (now : Int) (r : ℚ)
    (hs : s.rain_mm = some r) (hin : ¬(r < 0 ∨ 20000 < r))
    (hseeded : st.last_rain_mm ≠ 0) :
    (0.0001 < r - st.last_rain_mm ∧ r - st.last_rain_mm < 5000 →
      (∀ d ∈ (process_ws90_json_locked st s now).state.deltas,
        now - d.ts ≤ HOURLY_WINDOW_SEC) ∧
      (process_ws90_json_locked st s now).state.rain_hourly_in =
        ((process_ws90_json_locked st s now).state.deltas.map RainDelta.inches).sum) ∧
    (¬(0.0001 < r - st.last_rain_mm ∧ r - st.last_rain_mm < 5000) →
      (process_ws90_json_locked st s now).state.deltas = st.deltas ∧
      (process_ws90_json_locked st s now).state.rain_hourly_in = st.rain_hourly_in) ∧
    (scen62.deltas.length = 61 ∧
     (∀ d ∈ scen62.deltas, 4720 - d.ts ≤ HOURLY_WINDOW_SEC) ∧
     (∀ d ∈ scen62.deltas, 1120 ≤ d.ts) ∧
     scen62.rain_hourly_in = 61 * inches_from_mm 1) := by
  refine ⟨?_, ?_, ?_⟩
  · intro hacc
    have h := process_accept_window st s now r hs hin hseeded hacc
    constructor
    · intro d hd
      rw [h.1] at hd
      exact hourly_scan_mem now _ d hd
    · rw [h.1, h.2.1, hourly_scan_sum]
  · intro hnacc
    have h := process_reject_window st s now r hs hin hseeded hnacc
    exact ⟨h.1, h.2.1⟩
  · refine ⟨?_, ?_, ?_, scen62_window.2.1⟩
    · rw [scen62_window.1]
      rfl
    · rw [scen62_window.1]
      decide
    · rw [scen62_window.1]
      decide

/-- Start state for the C3 counterexample: a seeded rain counter at 10 mm. -/
def stC3pre : WeatherStateV2 :=
  { init_state_defaults 50 with last_rain_mm := 10 }

/-- One accepted 1 mm delta at t = 100. -/
def stC3mid : WeatherStateV2 :=
  (process_ws90_json_locked stC3pre { rain_mm := some 11 } 100).state

/-- A repeated reading at t = 4000 (65 minutes later): the delta is 0, so the
window is not recompacted. -/
def stC3stale : WeatherStateV2 :=
  (process_ws90_json_locked stC3mid { rain_mm := some 11 } 4000).state

/-- Counterexample to C3 as stated: after the t = 4000 ingest the stored
sequence still holds the t = 100 delta — 3900 seconds old, outside the
hourly window — and `hourly_in` still reports its inches. -/
theorem claim_C3_counterexample :
    ¬(∀ d ∈ stC3stale.deltas, stC3stale.last_update - d.ts ≤ HOURLY_WINDOW_SEC) ∧
    stC3stale.rain_hourly_in = inches_from_mm 1 := by
  have h1 := process_accept_window stC3pre { rain_mm := some 11 } 100 11 rfl
    (by norm_num) (by norm_num [stC3pre]) (by norm_num [stC3pre])
  have hd1 : stC3mid.deltas = [⟨100, inches_from_mm 1⟩] := by
    unfold stC3mid
    rw [h1.1, show stC3pre.deltas = ([] : List RainDelta) from rfl,
      show (11 : ℚ) - stC3pre.last_rain_mm = 1 by norm_num [stC3pre],
      hourly_scan_all_in _ _ (by decide)]
    rfl
  have hh1 : stC3mid.rain_hourly_in = inches_from_mm 1 := by
    unfold stC3mid
    rw [h1.2.1, show stC3pre.deltas = ([] : List RainDelta) from rfl,
      show (11 : ℚ) - stC3pre.last_rain_mm = 1 by norm_num [stC3pre],
      hourly_scan_all_in _ _ (by decide)]
    simp
  have hm1 : stC3mid.last_rain_mm = 11 := by
    unfold stC3mid
    rw [h1.2.2.1]
  have h2 := process_reject_window stC3mid { rain_mm := some 11 } 4000 11 rfl
    (by norm_num) (by rw [hm1]; norm_num) (by rw [hm1]; norm_num)
  refine ⟨?_, ?_⟩
  · intro hall
    have hmem : (⟨100, inches_from_mm 1⟩ : RainDelta) ∈ stC3stale.deltas := by
      rw [show stC3stale.deltas = stC3mid.deltas from h2.1, hd1]
      exact List.mem_singleton_self _
    have hts := hall _ hmem
    rw [show stC3stale.last_update = 4000 from h2.2.2.2] at hts
    norm_num [HOURLY_WINDOW_SEC] at hts
  · rw [show stC3stale.rain_hourly_in = stC3mid.rain_hourly_in from h2.2.1, hh1]

/-- Witness for C3: the accepted 1 mm delta at t = 100 restores the window
invariant, and the 61-minute simulation's `hourly_in` is the sum of the 61
most recent deltas. -/
theorem claim_C3_witness :
    ((∀ d ∈ (process_ws90_json_locked stC3pre { rain_mm := some 11 } 100).state.deltas,
        100 - d.ts ≤ HOURLY_WINDOW_SEC) ∧
      (process_ws90_json_locked stC3pre { rain_mm := some 11 } 100).state.rain_hourly_in =
        ((process_ws90_json_locked stC3pre { rain_mm := some 11 } 100).state.deltas.map
          RainDelta.inches).sum) ∧
    scen62.rain_hourly_in = 61 * inches_from_mm 1 := by
  have h := claim_C3 stC3pre { rain_mm := some 11 } 100 11 rfl (by norm_num)
    (by norm_num [stC3pre])
  exact ⟨h.1 (by norm_num [stC3pre]), h.2.2.2.2.2⟩

end OffGrid
